import Mathlib

/-!
# Open3D `GuiVisualizer`: lighting profiles, material assignment, geometry loading

A shallow embedding of `src/Open3D/Visualization/Visualizer/GuiVisualizer.cpp`.

* The window (`GuiVisualizer` together with its `Impl`) is a record `State`;
  every member function is a function `State → State` (or `State → Bool × State`).
* The renderer, the scene, the widgets of the GUI toolkit and the geometry classes
  live in other files of the repository.  Their observable state is kept in
  records, their setters store what they are given, and whatever depends on the
  file system or on geometry processing is a field of `Env`.
* `double`/`float` quantities are exact rationals.
* `State.calls` is a ghost trace: it records, in program order, the calls the
  code makes to the collaborators that have no other visible effect.
-/

namespace Open3D

/-! ## Vectors, bounding boxes and geometry classes -/

/-- Modelled from the spec: an Eigen 3-vector ("3-vector"), components as exact rationals. -/
structure Vector3 where
  x : ℚ
  y : ℚ
  z : ℚ
deriving DecidableEq

namespace Vector3

/-- Componentwise difference, Eigen `a - b`. -/
def sub (a b : Vector3) : Vector3 := ⟨a.x - b.x, a.y - b.y, a.z - b.z⟩

/-- Eigen `squaredNorm()`. -/
def squaredNorm (a : Vector3) : ℚ := a.x * a.x + a.y * a.y + a.z * a.z

/-- Eigen `array().min(...)`. -/
def cwiseMin (a b : Vector3) : Vector3 := ⟨min a.x b.x, min a.y b.y, min a.z b.z⟩

/-- Eigen `array().max(...)`. -/
def cwiseMax (a b : Vector3) : Vector3 := ⟨max a.x b.x, max a.y b.y, max a.z b.z⟩

/-- Eigen `maxCoeff()`. -/
def maxCoeff (a : Vector3) : ℚ := max a.x (max a.y a.z)

/-- The zero vector. -/
def zero : Vector3 := ⟨0, 0, 0⟩

end Vector3

/-- A 4x4 matrix (`Eigen::Matrix4d`, `Scene::Transform`). -/
abbrev Matrix4 := Matrix (Fin 4) (Fin 4) ℚ

/-- Modelled from the spec: `geometry::AxisAlignedBoundingBox` ("bounding volume"), the pair of
its corner points; a default-constructed box has both corners at the origin. -/
structure AxisAlignedBoundingBox where
  min_bound : Vector3 := Vector3.zero
  max_bound : Vector3 := Vector3.zero
deriving DecidableEq

namespace AxisAlignedBoundingBox

/-- Modelled from the spec: `GetExtent()`, the edge lengths of the box. -/
def GetExtent (b : AxisAlignedBoundingBox) : Vector3 := b.max_bound.sub b.min_bound

/-- Modelled from the spec: `GetMaxExtent()` ("the combined bounding volume's maximum
extent"). -/
def GetMaxExtent (b : AxisAlignedBoundingBox) : ℚ := b.GetExtent.maxCoeff

/-- Modelled from the spec: `GetCenter()` ("the combined bounding volume's center"). -/
def GetCenter (b : AxisAlignedBoundingBox) : Vector3 :=
  ⟨(b.min_bound.x + b.max_bound.x) / 2, (b.min_bound.y + b.max_bound.y) / 2,
   (b.min_bound.z + b.max_bound.z) / 2⟩

/-- Modelled from the spec: `Volume()`. -/
def Volume (b : AxisAlignedBoundingBox) : ℚ := b.GetExtent.x * b.GetExtent.y * b.GetExtent.z

/-- Modelled from the spec: `operator+=` ("accumulated into a combined bounding volume"): a box
without volume is replaced by the other one, otherwise the union is taken. -/
def add (b other : AxisAlignedBoundingBox) : AxisAlignedBoundingBox :=
  if b.Volume ≤ 0 then other
  else if other.Volume ≤ 0 then b
  else ⟨b.min_bound.cwiseMin other.min_bound, b.max_bound.cwiseMax other.max_bound⟩

end AxisAlignedBoundingBox

/-- Modelled from the spec: `geometry::PointCloud`, its three public vectors. -/
structure PointCloud where
  points_ : List Vector3
  normals_ : List Vector3
  colors_ : List Vector3
deriving DecidableEq

namespace PointCloud

/-- Modelled from the spec: `HasColors()` ("per-point colors present"): the cloud has points
and one colour per point. -/
def HasColors (pcd : PointCloud) : Bool :=
  decide (0 < pcd.points_.length) && decide (pcd.colors_.length = pcd.points_.length)

/-- Modelled from the spec: `HasNormals()` (normals "present"): the cloud has points and one
normal per point. -/
def HasNormals (pcd : PointCloud) : Bool :=
  decide (0 < pcd.points_.length) && decide (pcd.normals_.length = pcd.points_.length)

end PointCloud

/-- Modelled from the spec: `geometry::LineSet`. -/
structure LineSet where
  points_ : List Vector3
  lines_ : List (Nat × Nat)
  colors_ : List Vector3
deriving DecidableEq

/-- Modelled from the spec: `geometry::TriangleMesh`, its public vectors. -/
structure TriangleMesh where
  vertices_ : List Vector3
  vertex_normals_ : List Vector3
  vertex_colors_ : List Vector3
  triangles_ : List (Nat × Nat × Nat)
deriving DecidableEq

namespace TriangleMesh

/-- Modelled from the spec: `HasVertexColors()` ("TriangleMesh with vertex colors"): the mesh
has vertices and one colour per vertex. -/
def HasVertexColors (m : TriangleMesh) : Bool :=
  decide (0 < m.vertices_.length) && decide (m.vertex_colors_.length = m.vertices_.length)

end TriangleMesh

/-- The type tag `geometry::Geometry::GeometryType`, as far as `SetGeometry` tells the
values apart; `Other` carries the numeric value of any other tag. -/
inductive GeometryType where
  | PointCloud
  | LineSet
  | TriangleMesh
  | Other (tag : Nat)
deriving DecidableEq

/-- A `std::shared_ptr<const geometry::Geometry>`: the object it points to. -/
inductive Geometry where
  | pointCloud (pcd : PointCloud)
  | lineSet (ls : LineSet)
  | triangleMesh (mesh : TriangleMesh)
  | other (tag : Nat)
deriving DecidableEq

/-- The call `g->GetGeometryType()`. -/
def Geometry.GetGeometryType : Geometry → GeometryType
  | .pointCloud _ => .PointCloud
  | .lineSet _ => .LineSet
  | .triangleMesh _ => .TriangleMesh
  | .other tag => .Other tag

/-! ## `SmartMode` -/

namespace SmartMode

/-- The constant `e = 1.0 / 255.0`. -/
def e : ℚ := 1 / 255

/-- The constant `kSqEpsilon = Eigen::Vector3d(e, e, e).squaredNorm()`. -/
def kSqEpsilon : ℚ := Vector3.squaredNorm ⟨e, e, e⟩

/-- The range-for loop of `PointCloudHasUniformColor`: it returns `false` at the first
colour whose squared distance to `color` exceeds `kSqEpsilon`, and `true` when the range
is exhausted. -/
def uniformColorLoop (color : Vector3) : List Vector3 → Bool
  | [] => true
  | c :: rest =>
    if (color.sub c).squaredNorm > kSqEpsilon then false
    else uniformColorLoop color rest

/-- The function `SmartMode::PointCloudHasUniformColor`. `colors_[0]` is read after
`HasColors()` has held, so the vector is not empty there. -/
def PointCloudHasUniformColor (pcd : PointCloud) : Bool :=
  if !pcd.HasColors then true
  else
    let color := pcd.colors_.getD 0 Vector3.zero
    uniformColorLoop color pcd.colors_

end SmartMode

/-! ## Widgets of the GUI toolkit -/

/-- Modelled from the spec: `gui::Color`, red, green, blue and alpha. -/
structure Color where
  r : ℚ
  g : ℚ
  b : ℚ
  a : ℚ := 1
deriving DecidableEq

/-- Modelled from the spec: `gui::Checkbox`; `SetChecked` stores the flag and runs no
handler. -/
structure Checkbox where
  checked : Bool
deriving DecidableEq

/-- Modelled from the spec: `Checkbox::SetChecked`. -/
def Checkbox.SetChecked (_c : Checkbox) (checked : Bool) : Checkbox := ⟨checked⟩

/-- Modelled from the spec: `Checkbox::IsChecked`. -/
def Checkbox.IsChecked (c : Checkbox) : Bool := c.checked

/-- Modelled from the spec: `gui::Button`, its toggle state. -/
structure Button where
  isOn : Bool
deriving DecidableEq

/-- Modelled from the spec: `Button::SetOn`. -/
def Button.SetOn (_b : Button) (isOn : Bool) : Button := ⟨isOn⟩

/-- Modelled from the spec: `gui::CollapsableVert`, whether it is open. -/
structure CollapsableVert where
  isOpen : Bool
deriving DecidableEq

/-- Modelled from the spec: `gui::ColorEdit`. -/
structure ColorEdit where
  value : Color
  enabled : Bool := true
deriving DecidableEq

/-- Modelled from the spec: `ColorEdit::SetValue`. -/
def ColorEdit.SetValue (w : ColorEdit) (c : Color) : ColorEdit := { w with value := c }

/-- Modelled from the spec: `Widget::SetEnabled` on a colour editor. -/
def ColorEdit.SetEnabled (w : ColorEdit) (enabled : Bool) : ColorEdit :=
  { w with enabled := enabled }

/-- Modelled from the spec: `gui::VectorEdit`. -/
structure VectorEdit where
  value : Vector3
deriving DecidableEq

/-- Modelled from the spec: `VectorEdit::SetValue`. -/
def VectorEdit.SetValue (_w : VectorEdit) (v : Vector3) : VectorEdit := ⟨v⟩

/-- The enumeration `gui::Slider::Type`. -/
inductive SliderType where
  | INT
  | DOUBLE
deriving DecidableEq

/-- Modelled from the spec: `gui::Slider`, a value kept between two limits. -/
structure Slider where
  type : SliderType
  minValue : ℚ := 0
  maxValue : ℚ := 0
  value : ℚ := 0
  enabled : Bool := true
deriving DecidableEq

/-- Rounding to the nearest whole number, halves away from zero (`std::round`). -/
def roundHalfAway (v : ℚ) : ℚ :=
  if 0 ≤ v then (Int.floor (v + 1 / 2) : ℤ) else (Int.ceil (v - 1 / 2) : ℤ)

/-- Modelled from the spec: `Slider::SetValue`: the value is clamped to the limits, and a
slider of type `INT` holds whole numbers. -/
def Slider.SetValue (w : Slider) (v : ℚ) : Slider :=
  let clamped := max w.minValue (min w.maxValue v)
  { w with value := match w.type with
                    | .INT => roundHalfAway clamped
                    | .DOUBLE => clamped }

/-- Modelled from the spec: `Slider::SetLimits`: the limits are stored and the value is
brought back between them. -/
def Slider.SetLimits (w : Slider) (lo hi : ℚ) : Slider :=
  ({ w with minValue := lo, maxValue := hi }).SetValue w.value

/-- Modelled from the spec: `Slider::GetDoubleValue`. -/
def Slider.GetDoubleValue (w : Slider) : ℚ := w.value

/-- Modelled from the spec: `Widget::SetEnabled` on a slider. -/
def Slider.SetEnabled (w : Slider) (enabled : Bool) : Slider := { w with enabled := enabled }

/-- The helper `MakeSlider`. -/
def MakeSlider (type : SliderType) (min max value : ℚ) : Slider :=
  let slider : Slider := { type := type }
  let slider := slider.SetLimits min max
  slider.SetValue value

/-- Modelled from the spec: `gui::Combobox`, a list of items and the index of the
selected one. -/
structure Combobox where
  items : List String := []
  currentIndex : Nat := 0
  enabled : Bool := true
deriving DecidableEq

namespace Combobox

/-- Modelled from the spec: `Combobox::AddItem`. -/
def AddItem (w : Combobox) (name : String) : Combobox := { w with items := w.items ++ [name] }

/-- Modelled from the spec: `Combobox::SetSelectedIndex`: an index that names an item
becomes the selection, any other index is ignored. No handler runs. -/
def SetSelectedIndex (w : Combobox) (index : Nat) : Combobox :=
  if index < w.items.length then { w with currentIndex := index } else w

/-- Modelled from the spec: `Combobox::SetSelectedValue`: the first item with that text
becomes the selection; without such an item nothing changes. No handler runs. -/
def SetSelectedValue (w : Combobox) (value : String) : Combobox :=
  match w.items.indexOf? value with
  | some i => w.SetSelectedIndex i
  | none => w

/-- Modelled from the spec: `Combobox::GetSelectedIndex`. -/
def GetSelectedIndex (w : Combobox) : Nat := w.currentIndex

/-- Modelled from the spec: `Combobox::GetSelectedValue`, the text of the selected item. -/
def GetSelectedValue (w : Combobox) : Option String := w.items.get? w.currentIndex

/-- Modelled from the spec: `Widget::SetEnabled` on a combobox. -/
def SetEnabled (w : Combobox) (enabled : Bool) : Combobox := { w with enabled := enabled }

end Combobox

/-! ## Renderer and scene

Handles are the ids of `REHandle`; id `0` is `kBad`, the handle that converts to `false`.
Each handle type has its own id space. -/

/-- The bad handle: what a default-constructed handle holds. -/
def kBad : Nat := 0

/-- The conversion of a handle to `bool`. -/
def isValid (h : Nat) : Bool := h != kBad

/-- The value of a material parameter. -/
inductive ParamValue where
  | scalar (v : ℚ)
  | color (c : Vector3)
deriving DecidableEq

/-- Modelled from the spec: a renderer-side material instance: its handle, the material it
was created from and the parameters set on it so far. -/
structure MaterialInstance where
  handle : Nat
  material : Nat
  params : List (String × ParamValue) := []
deriving DecidableEq

/-- Setting one named parameter: a later value replaces an earlier one. -/
def setParam (ps : List (String × ParamValue)) (name : String) (v : ParamValue) :
    List (String × ParamValue) :=
  ps.filter (fun p => p.1 != name) ++ [(name, v)]

/-- Reading one named parameter. -/
def getParam (ps : List (String × ParamValue)) (name : String) : Option ParamValue :=
  (ps.find? (fun p => p.1 == name)).map Prod.snd

/-- What a reader of `io::` does: it throws, or it returns its boolean together with the
object it filled in. -/
inductive ReadResult (α : Type) where
  | threw
  | returned (ok : Bool) (value : α)

/-- Everything the code asks of the world outside this file: the file system, the asset
loaders, the geometry readers and the geometry algorithms. -/
structure Env where
  /-- The call `gui::Application::GetInstance().GetResourcePath()`. -/
  resourcePath : String
  /-- The call `utility::filesystem::ListFilesInDirectory` on the resource path. -/
  resourceFiles : List String
  /-- Whether `Renderer::AddIndirectLight` can load that path. -/
  indirectLightLoads : String → Bool
  /-- Whether `Renderer::AddSkybox` can load that path. -/
  skyboxLoads : String → Bool
  /-- Whether `Renderer::AddMaterial` can load that path. -/
  materialLoads : String → Bool
  /-- The intensity the scene reports once the indirect light with that handle has been made
  active, given the intensity it reported before. -/
  intensityAfterSwap : Nat → ℚ → ℚ
  /-- The reader `io::ReadTriangleMesh`. -/
  ReadTriangleMesh : String → ReadResult TriangleMesh
  /-- The reader `io::ReadPointCloud`. -/
  ReadPointCloud : String → ReadResult PointCloud
  /-- The method `TriangleMesh::ComputeVertexNormals`. -/
  ComputeVertexNormals : TriangleMesh → TriangleMesh
  /-- The method `PointCloud::EstimateNormals`. -/
  EstimateNormals : PointCloud → PointCloud
  /-- The method `PointCloud::NormalizeNormals`. -/
  NormalizeNormals : PointCloud → PointCloud
  /-- The factory `TriangleMesh::CreateSphere`. -/
  CreateSphere : ℚ → TriangleMesh
  /-- The factory `TriangleMesh::CreateArrow`. -/
  CreateArrow : ℚ → ℚ → ℚ → ℚ → TriangleMesh
  /-- The method `TriangleMesh::PaintUniformColor`. -/
  PaintUniformColor : TriangleMesh → Vector3 → TriangleMesh
  /-- The method `TriangleMesh::Transform`. -/
  Transform : TriangleMesh → Matrix4 → TriangleMesh
  /-- The operator `TriangleMesh::operator+=`. -/
  meshAdd : TriangleMesh → TriangleMesh → TriangleMesh
  /-- The bounding box the scene reports for a geometry it holds. -/
  boundingBoxOf : Geometry → AxisAlignedBoundingBox
  /-- The method `Eigen::Vector3f::normalized`. -/
  normalized : Vector3 → Vector3

/-- Modelled from the spec: the renderer, as far as this file uses it: an id counter and the
live material instances. -/
structure Renderer where
  lastId : Nat := 0
  materialInstances : List MaterialInstance := []
deriving DecidableEq

namespace Renderer

/-- Modelled from the spec: loading an asset "returning a handle or a falsy/null handle on
failure": a fresh id when the file loads, `kBad` otherwise. -/
def loadAsset (r : Renderer) (loads : Bool) : Nat × Renderer :=
  if loads then (r.lastId + 1, { r with lastId := r.lastId + 1 }) else (kBad, r)

/-- Modelled from the spec: `Renderer::AddIndirectLight(ResourceLoadRequest(path))`. -/
def AddIndirectLight (r : Renderer) (env : Env) (path : String) : Nat × Renderer :=
  r.loadAsset (env.indirectLightLoads path)

/-- Modelled from the spec: `Renderer::AddSkybox(ResourceLoadRequest(path))`. -/
def AddSkybox (r : Renderer) (env : Env) (path : String) : Nat × Renderer :=
  r.loadAsset (env.skyboxLoads path)

/-- Modelled from the spec: `Renderer::AddMaterial(ResourceLoadRequest(path))`. -/
def AddMaterial (r : Renderer) (env : Env) (path : String) : Nat × Renderer :=
  r.loadAsset (env.materialLoads path)

/-- Modelled from the spec: `Renderer::AddMaterialInstance(material)`: a new instance with a
fresh handle. -/
def AddMaterialInstance (r : Renderer) (material : Nat) : Nat × Renderer :=
  (r.lastId + 1,
   { r with lastId := r.lastId + 1,
            materialInstances := r.materialInstances ++ [⟨r.lastId + 1, material, []⟩] })

/-- Modelled from the spec: `Renderer::RemoveMaterialInstance(handle)`. -/
def RemoveMaterialInstance (r : Renderer) (h : Nat) : Renderer :=
  { r with materialInstances := r.materialInstances.filter (fun m => m.handle != h) }

end Renderer

/-- Modelled from the spec: the `MaterialModifier` returned by `Renderer::ModifyMaterial`: the
instance being modified and the parameters set so far, in order. -/
structure MaterialModifier where
  renderer : Renderer
  handle : Nat
  pending : List (String × ParamValue) := []

/-- Modelled from the spec: `Renderer::ModifyMaterial(handle)`. -/
def Renderer.ModifyMaterial (r : Renderer) (h : Nat) : MaterialModifier := ⟨r, h, []⟩

namespace MaterialModifier

/-- Modelled from the spec: `MaterialModifier::SetColor(name, value)`. -/
def SetColor (m : MaterialModifier) (name : String) (c : Vector3) : MaterialModifier :=
  { m with pending := m.pending ++ [(name, ParamValue.color c)] }

/-- Modelled from the spec: `MaterialModifier::SetParameter(name, value)`. -/
def SetParameter (m : MaterialModifier) (name : String) (v : ℚ) : MaterialModifier :=
  { m with pending := m.pending ++ [(name, ParamValue.scalar v)] }

/-- Modelled from the spec: `MaterialModifier::Finish()`: the pending parameters are written
to the instance and its handle is returned. -/
def Finish (m : MaterialModifier) : Nat × Renderer :=
  (m.handle,
   { m.renderer with
     materialInstances := m.renderer.materialInstances.map (fun inst =>
       if inst.handle = m.handle then
         { inst with params := m.pending.foldl (fun ps p => setParam ps p.1 p.2) inst.params }
       else inst) })

end MaterialModifier

/-- Modelled from the spec: a geometry entity of the scene: the handle it was given, the
geometry, the material instance it is drawn with (`none` when `AddGeometry` was called
without one), whether it is enabled, and its two shadow flags. -/
structure SceneGeometry where
  handle : Nat
  geometry : Geometry
  material : Option Nat
  enabled : Bool := true
  castShadows : Bool := true
  receiveShadows : Bool := true
deriving DecidableEq

/-- Modelled from the spec: a light entity of the scene. -/
structure Light where
  enabled : Bool := true
  intensity : ℚ := 0
  direction : Vector3 := Vector3.zero
  color : Vector3 := ⟨1, 1, 1⟩
deriving DecidableEq

/-- The structure `visualization::LightDescription`, the fields this file sets. -/
structure LightDescription where
  intensity : ℚ
  direction : Vector3
  castShadows : Bool
  customType : String

/-- Modelled from the spec: the scene of the renderer ("set/get light and indirect-light
properties", "add/remove geometry by handle"): each setter stores what it is given. -/
structure Scene where
  lastId : Nat := 0
  geometries : List SceneGeometry := []
  lights : Nat → Light := fun _ => {}
  indirectLight : Nat := kBad
  indirectLightIntensity : ℚ := 0
  indirectLightRotation : Matrix4 := 1
  skybox : Nat := kBad

namespace Scene

/-- Modelled from the spec: `Scene::AddGeometry(geometry, material)`: the geometry is stored
under a fresh handle, which is returned. -/
def AddGeometry (sc : Scene) (g : Geometry) (material : Option Nat) : Nat × Scene :=
  (sc.lastId + 1,
   { sc with lastId := sc.lastId + 1,
             geometries := sc.geometries ++ [⟨sc.lastId + 1, g, material, true, true, true⟩] })

/-- Modelled from the spec: `Scene::RemoveGeometry(handle)`. -/
def RemoveGeometry (sc : Scene) (h : Nat) : Scene :=
  { sc with geometries := sc.geometries.filter (fun e => e.handle != h) }

/-- Modelled from the spec: `Scene::GetEntityBoundingBox(handle)`; a handle the scene does not
hold has the default box. -/
def GetEntityBoundingBox (sc : Scene) (env : Env) (h : Nat) : AxisAlignedBoundingBox :=
  match sc.geometries.find? (fun e => e.handle == h) with
  | some e => env.boundingBoxOf e.geometry
  | none => {}

/-- Modelled from the spec: `Scene::AssignMaterial(handle, material)`. -/
def AssignMaterial (sc : Scene) (h : Nat) (material : Nat) : Scene :=
  { sc with geometries := sc.geometries.map (fun e =>
      if e.handle = h then { e with material := some material } else e) }

/-- Modelled from the spec: `Scene::SetGeometryShadows(handle, cast, receive)`. -/
def SetGeometryShadows (sc : Scene) (h : Nat) (cast receive : Bool) : Scene :=
  { sc with geometries := sc.geometries.map (fun e =>
      if e.handle = h then { e with castShadows := cast, receiveShadows := receive } else e) }

/-- Modelled from the spec: `Scene::SetEntityEnabled` on a geometry handle. -/
def SetGeometryEnabled (sc : Scene) (h : Nat) (enabled : Bool) : Scene :=
  { sc with geometries := sc.geometries.map (fun e =>
      if e.handle = h then { e with enabled := enabled } else e) }

/-- Modelled from the spec: `Scene::AddLight(description)`. -/
def AddLight (sc : Scene) (d : LightDescription) : Nat × Scene :=
  (sc.lastId + 1,
   { sc with lastId := sc.lastId + 1,
             lights := Function.update sc.lights (sc.lastId + 1)
               { enabled := true, intensity := d.intensity, direction := d.direction } })

/-- Modelled from the spec: `Scene::SetEntityEnabled` on a light handle. -/
def SetLightEnabled (sc : Scene) (h : Nat) (enabled : Bool) : Scene :=
  { sc with lights := Function.update sc.lights h { sc.lights h with enabled := enabled } }

/-- Modelled from the spec: `Scene::SetLightIntensity(handle, intensity)`. -/
def SetLightIntensity (sc : Scene) (h : Nat) (v : ℚ) : Scene :=
  { sc with lights := Function.update sc.lights h { sc.lights h with intensity := v } }

/-- Modelled from the spec: `Scene::SetLightDirection(handle, direction)`. -/
def SetLightDirection (sc : Scene) (h : Nat) (d : Vector3) : Scene :=
  { sc with lights := Function.update sc.lights h { sc.lights h with direction := d } }

/-- Modelled from the spec: `Scene::SetLightColor(handle, color)`. -/
def SetLightColor (sc : Scene) (h : Nat) (c : Vector3) : Scene :=
  { sc with lights := Function.update sc.lights h { sc.lights h with color := c } }

/-- Modelled from the spec: `Scene::SetIndirectLight(handle)`; the intensity the scene reports
afterwards is the one of the light now active ("loading resets intensity"). -/
def SetIndirectLight (sc : Scene) (env : Env) (h : Nat) : Scene :=
  { sc with indirectLight := h,
            indirectLightIntensity := env.intensityAfterSwap h sc.indirectLightIntensity }

/-- Modelled from the spec: `Scene::SetIndirectLightIntensity(intensity)`. -/
def SetIndirectLightIntensity (sc : Scene) (v : ℚ) : Scene :=
  { sc with indirectLightIntensity := v }

/-- Modelled from the spec: `Scene::GetIndirectLightIntensity()`. -/
def GetIndirectLightIntensity (sc : Scene) : ℚ := sc.indirectLightIntensity

/-- Modelled from the spec: `Scene::SetIndirectLightRotation(rotation)`. -/
def SetIndirectLightRotation (sc : Scene) (rot : Matrix4) : Scene :=
  { sc with indirectLightRotation := rot }

/-- Modelled from the spec: `Scene::SetSkybox(handle)`. -/
def SetSkybox (sc : Scene) (h : Nat) : Scene := { sc with skybox := h }

end Scene

/-- The enumeration `visualization::View::Mode`, the values this file uses. -/
inductive ViewMode where
  | Color
  | Normals
  | Depth
deriving DecidableEq

/-- The enumeration `gui::SceneWidget::Controls`. -/
inductive Controls where
  | ROTATE_OBJ
  | FPS
  | ROTATE_SUN
  | ROTATE_IBL
  | ROTATE_MODEL
deriving DecidableEq

/-- Modelled from the spec: `gui::SceneWidget`: the scene it shows, the mode of its view, and
what its setters were last given. -/
structure SceneWidget where
  scene3d : Scene := {}
  viewMode : ViewMode := ViewMode.Color
  controls : Controls := Controls.ROTATE_OBJ
  backgroundColor : Color := ⟨1, 1, 1, 1⟩
  skyboxHandle : Nat := kBad
  skyboxIsOn : Bool := false
  modelAxes : Nat := kBad
  modelObjects : List Nat := []
  camera : Option (ℚ × AxisAlignedBoundingBox × Vector3) := none

namespace SceneWidget

/-- Modelled from the spec: `SceneWidget::SetSkyboxHandle(handle, isOn)`. -/
def SetSkyboxHandle (w : SceneWidget) (h : Nat) (isOn : Bool) : SceneWidget :=
  { w with skyboxHandle := h, skyboxIsOn := isOn }

/-- Modelled from the spec: `SceneWidget::SetModel(axes, objects)`. -/
def SetModel (w : SceneWidget) (axes : Nat) (objects : List Nat) : SceneWidget :=
  { w with modelAxes := axes, modelObjects := objects }

/-- Modelled from the spec: `SceneWidget::SetupCamera(fov, bounds, center)`. -/
def SetupCamera (w : SceneWidget) (fov : ℚ) (bounds : AxisAlignedBoundingBox)
    (center : Vector3) : SceneWidget :=
  { w with camera := some (fov, bounds, center) }

/-- Modelled from the spec: `SceneWidget::SetViewControls(mode)`. -/
def SetViewControls (w : SceneWidget) (c : Controls) : SceneWidget := { w with controls := c }

/-- Modelled from the spec: `SceneWidget::SetBackgroundColor(color)`. -/
def SetBackgroundColor (w : SceneWidget) (c : Color) : SceneWidget :=
  { w with backgroundColor := c }

end SceneWidget

/-! ## Strings

`std::string` positions and sizes are `size_t`: arithmetic on them is modulo `2 ^ 64`.
A string is taken as its sequence of characters. -/

/-- The constant `std::string::npos`. -/
def npos : Nat := 2 ^ 64 - 1

/-- The scan of `std::string::find`: the first position, counted from `i`, at which `pat`
starts, or `npos`. -/
def findFrom (pat : List Char) : List Char → Nat → Nat
  | [], i => if pat.isEmpty then i else npos
  | c :: cs, i => if pat.isPrefixOf (c :: cs) then i else findFrom pat cs (i + 1)

/-- The call `s.find(pat)`. -/
def stdFind (s pat : String) : Nat := findFrom pat.toList s.toList 0

/-- The call `s.size()`. -/
def stdSize (s : String) : Nat := s.toList.length

/-- Subtraction of two `size_t` values. -/
def sizeSub (a b : Nat) : Nat := (a + 2 ^ 64 - b % 2 ^ 64) % 2 ^ 64

/-- The call `s.substr(0, n)`. -/
def substr0 (s : String) (n : Nat) : String := String.mk (s.toList.take n)

/-! ## Lighting profiles and materials -/

/-- The structure `LightingProfile`, with its default member initialisers. -/
structure LightingProfile where
  name : String
  iblIntensity : ℚ
  sunIntensity : ℚ
  sunDir : Vector3
  sunColor : Vector3 := ⟨1, 1, 1⟩
  iblRotation : Matrix4 := 1
  iblEnabled : Bool := true
  useDefaultIBL : Bool := false
  sunEnabled : Bool := true

/-- The constant `kDefaultIBL`. -/
def kDefaultIBL : String := "default"

/-- The constant `kDefaultMaterialName`. -/
def kDefaultMaterialName : String := "Polished ceramic [default]"

/-- The constant `kPointCloudProfileName`. -/
def kPointCloudProfileName : String := "Cloudy day (no direct sun)"

/-- The constant `kDefaultShowSkybox`. -/
def kDefaultShowSkybox : Bool := false

/-- The constant `kDefaultShowAxes`. -/
def kDefaultShowAxes : Bool := false

/-- The transform `Scene::Transform(Eigen::AngleAxisf(M_PI, Eigen::Vector3f::UnitX()))`: the
half turn about the X axis. -/
def halfTurnAboutX : Matrix4 :=
  !![1, 0, 0, 0; 0, -1, 0, 0; 0, 0, -1, 0; 0, 0, 0, 1]

/-- The table `gLightingProfiles`. -/
def gLightingProfiles : List LightingProfile :=
  [ { name := "Bright day with sun at +Y [default]",
      iblIntensity := 100000,
      sunIntensity := 100000,
      sunDir := ⟨577 / 1000, -577 / 1000, -577 / 1000⟩ },
    { name := "Bright day with sun at -Y",
      iblIntensity := 100000,
      sunIntensity := 100000,
      sunDir := ⟨577 / 1000, 577 / 1000, 577 / 1000⟩,
      sunColor := ⟨1, 1, 1⟩,
      iblRotation := halfTurnAboutX },
    { name := "Bright day with sun at +Z",
      iblIntensity := 100000,
      sunIntensity := 100000,
      sunDir := ⟨577 / 1000, 577 / 1000, -577 / 1000⟩ },
    { name := "Less bright day with sun at +Y",
      iblIntensity := 75000,
      sunIntensity := 100000,
      sunDir := ⟨577 / 1000, -577 / 1000, -577 / 1000⟩ },
    { name := "Less bright day with sun at -Y",
      iblIntensity := 75000,
      sunIntensity := 100000,
      sunDir := ⟨577 / 1000, 577 / 1000, 577 / 1000⟩,
      sunColor := ⟨1, 1, 1⟩,
      iblRotation := halfTurnAboutX },
    { name := "Less bright day with sun at +Z",
      iblIntensity := 75000,
      sunIntensity := 100000,
      sunDir := ⟨577 / 1000, 577 / 1000, -577 / 1000⟩ },
    { name := kPointCloudProfileName,
      iblIntensity := 60000,
      sunIntensity := 100000,
      sunDir := ⟨577 / 1000, -577 / 1000, -577 / 1000⟩,
      sunColor := ⟨1, 1, 1⟩,
      iblRotation := 1,
      iblEnabled := true,
      useDefaultIBL := true,
      sunEnabled := false } ]

/-- The structure `Impl::LitMaterial`, with its default member initialisers. -/
structure LitMaterial where
  handle : Nat := kBad
  baseColor : Vector3 := ⟨9 / 10, 9 / 10, 9 / 10⟩
  metallic : ℚ := 0
  roughness : ℚ := 7 / 10
  reflectance : ℚ := 1 / 2
  clearCoat : ℚ := 2 / 10
  clearCoatRoughness : ℚ := 2 / 10
  anisotropy : ℚ := 0
  pointSize : ℚ := 5
deriving DecidableEq

/-- The structure `Impl::UnlitMaterial`, with its default member initialisers. -/
structure UnlitMaterial where
  handle : Nat := kBad
  baseColor : Vector3 := ⟨1, 1, 1⟩
  pointSize : ℚ := 5
deriving DecidableEq

/-- The structure `Impl::Materials`. -/
structure Materials where
  lit : LitMaterial := {}
  unlit : UnlitMaterial := {}
deriving DecidableEq

/-- The map `Impl::prefabMaterials`, its entries as written. -/
def prefabMaterials : List (String × LitMaterial) :=
  [ (kDefaultMaterialName, {}),
    ("Aluminum", ⟨kBad, ⟨913 / 1000, 921 / 1000, 925 / 1000⟩, 1, 1 / 2, 9 / 10, 0, 0, 0, 3⟩),
    ("Gold", ⟨kBad, ⟨1, 766 / 1000, 336 / 1000⟩, 1, 3 / 10, 9 / 10, 0, 0, 0, 3⟩),
    ("Copper", ⟨kBad, ⟨955 / 1000, 637 / 1000, 538 / 1000⟩, 1, 3 / 10, 9 / 10, 0, 0, 0, 3⟩),
    ("Iron", ⟨kBad, ⟨560 / 1000, 570 / 1000, 580 / 1000⟩, 1, 1 / 2, 9 / 10, 0, 0, 0, 3⟩),
    ("Plastic (white)", ⟨kBad, ⟨1, 1, 1⟩, 0, 1 / 2, 1 / 2, 1 / 2, 2 / 10, 0, 3⟩),
    ("Glazed ceramic (white)", ⟨kBad, ⟨1, 1, 1⟩, 0, 1 / 2, 9 / 10, 1, 1 / 10, 0, 3⟩),
    ("Clay", ⟨kBad, ⟨7725 / 10000, 7725 / 10000, 7725 / 10000⟩, 0, 1, 1 / 2, 1 / 10,
      287 / 1000, 0, 3⟩) ]

/-- The enumeration `Settings::MaterialType`. -/
inductive MaterialType where
  | LIT
  | UNLIT
  | NORMAL_MAP
  | DEPTH
deriving DecidableEq

/-- The numeric value of a `MaterialType`. -/
def MaterialType.toNat : MaterialType → Nat
  | .LIT => 0
  | .UNLIT => 1
  | .NORMAL_MAP => 2
  | .DEPTH => 3

/-- The structure `Impl::Settings`: the handles and the widgets of the settings panel. -/
structure Settings where
  hIbl : Nat := kBad
  hSky : Nat := kBad
  hSkyTexture : Nat := kBad
  hDirectionalLight : Nat := kBad
  hAxes : Nat := kBad
  wgtShowAxes : Checkbox := ⟨false⟩
  wgtBGColor : ColorEdit := { value := ⟨0, 0, 0, 1⟩ }
  wgtMouseArcball : Button := ⟨false⟩
  wgtMouseFly : Button := ⟨false⟩
  wgtMouseSun : Button := ⟨false⟩
  wgtMouseIBL : Button := ⟨false⟩
  wgtMouseModel : Button := ⟨false⟩
  wgtLightingProfile : Combobox := {}
  wgtAdvanced : CollapsableVert := ⟨true⟩
  wgtIBLEnabled : Checkbox := ⟨false⟩
  wgtSkyEnabled : Checkbox := ⟨false⟩
  wgtDirectionalEnabled : Checkbox := ⟨false⟩
  wgtIBLs : Combobox := {}
  wgtIBLIntensity : Slider := { type := SliderType.INT }
  wgtSunIntensity : Slider := { type := SliderType.INT }
  wgtSunDir : VectorEdit := ⟨Vector3.zero⟩
  wgtSunColor : ColorEdit := { value := ⟨0, 0, 0, 1⟩ }
  selectedType : MaterialType := MaterialType.LIT
  wgtMaterialType : Combobox := {}
  wgtPrefabMaterial : Combobox := {}
  wgtPointSize : Slider := { type := SliderType.INT }
deriving DecidableEq

/-! ## The window -/

/-- One entry of the ghost trace: a call that leaves no other mark on the state. -/
inductive Call where
  | LogWarning (msg : String)
  | LogInfo (msg : String)
  | ReadTriangleMesh (path : String)
  | ReadPointCloud (path : String)
  | AddGeometry (g : Geometry) (material : Option Nat)
  | SetLightingProfile (name : String)
  | SetGeometry (geometries : List Geometry)
  | PostRedraw
  | ShowDialog (title : String)
  | ShowMessageBox (title : String) (message : String)
deriving DecidableEq

/-- The window: the members of `GuiVisualizer::Impl`, the renderer of the window, and the
ghost trace. -/
structure State where
  title : String := ""
  renderer : Renderer := {}
  geometryHandles : List Nat := []
  scene : SceneWidget := {}
  helpKeysVisible : Bool := true
  geometryMaterials : List (Nat × Materials) := []
  hLitMaterial : Nat := kBad
  hUnlitMaterial : Nat := kBad
  settings : Settings := {}
  tickEventsEnabled : Bool := false
  needsLayout : Bool := false
  calls : List Call := []

namespace State

/-- A call on `this->scene->GetScene()`. -/
def onScene3d (s : State) (f : Scene → Scene) : State :=
  { s with scene := { s.scene with scene3d := f s.scene.scene3d } }

/-- A call on a member of `settings`. -/
def onSettings (s : State) (f : Settings → Settings) : State :=
  { s with settings := f s.settings }

/-- Appending one entry to the ghost trace. -/
def log (s : State) (c : Call) : State := { s with calls := s.calls ++ [c] }

end State

/-- The method `Settings::SetCustomProfile`. -/
def Settings.SetCustomProfile (st : Settings) : Settings :=
  { st with wgtLightingProfile := st.wgtLightingProfile.SetSelectedIndex gLightingProfiles.length }

/-- The method `Settings::SetMaterialSelected`. -/
def Settings.SetMaterialSelected (st : Settings) (type : MaterialType) : Settings :=
  { st with wgtMaterialType := st.wgtMaterialType.SetSelectedIndex type.toNat,
            wgtPrefabMaterial := st.wgtPrefabMaterial.SetEnabled (decide (type = MaterialType.LIT)) }

namespace Impl

/-- The function `Impl::SetMaterialsDefaults`. -/
def SetMaterialsDefaults (materials : Materials) (renderer : Renderer) : Materials × Renderer :=
  let (litHandle, renderer) :=
    ((((((((renderer.ModifyMaterial materials.lit.handle).SetColor
        "baseColor" materials.lit.baseColor).SetParameter
        "roughness" materials.lit.roughness).SetParameter
        "metallic" materials.lit.metallic).SetParameter
        "reflectance" materials.lit.reflectance).SetParameter
        "clearCoat" materials.lit.clearCoat).SetParameter
        "clearCoatRoughness" materials.lit.clearCoatRoughness).SetParameter
        "anisotropy" materials.lit.anisotropy).SetParameter
        "pointSize" materials.lit.pointSize |>.Finish
  let materials := { materials with lit := { materials.lit with handle := litHandle } }
  let (unlitHandle, renderer) :=
    ((renderer.ModifyMaterial materials.unlit.handle).SetColor
        "baseColor" materials.unlit.baseColor).SetParameter
        "pointSize" materials.unlit.pointSize |>.Finish
  ({ materials with unlit := { materials.unlit with handle := unlitHandle } }, renderer)

/-- The path `iblPath` of `Impl::SetIBL`: the given one, or the default asset under the
resource path when the pointer is null (`none`). -/
def iblPathOf (env : Env) (path : Option String) : String :=
  match path with
  | some p => p
  | none => env.resourcePath ++ "/" ++ kDefaultIBL ++ "_ibl.ktx"

/-- The block of `Impl::SetIBL` that loads the skybox going with the indirect light at
`iblPath`. -/
def SetIBLSkybox (env : Env) (s : State) (iblPath : String) : State :=
  let skyboxPath := iblPath
  if stdFind skyboxPath "_ibl.ktx" ≠ npos then
    let skyboxPath := substr0 skyboxPath (sizeSub (stdSize skyboxPath) 8)
    let skyboxPath := skyboxPath ++ "_skybox.ktx"
    let loaded := s.renderer.AddSkybox env skyboxPath
    let s := { s with renderer := loaded.2 }
    let s := s.onSettings (fun st => { st with hSky := loaded.1 })
    let s :=
      if !isValid s.settings.hSky then
        let loaded := s.renderer.AddSkybox env iblPath
        let s := { s with renderer := loaded.2 }
        s.onSettings (fun st => { st with hSky := loaded.1 })
      else s
    let isOn := s.settings.wgtSkyEnabled.IsChecked
    let s := if isOn then s.onScene3d (fun sc => sc.SetSkybox s.settings.hSky) else s
    { s with scene := s.scene.SetSkyboxHandle s.settings.hSky isOn }
  else s

/-- The method `Impl::SetIBL`; `path = none` is the null pointer. -/
def SetIBL (env : Env) (s : State) (path : Option String) : Bool × State :=
  let iblPath := iblPathOf env path
  let loaded := s.renderer.AddIndirectLight env iblPath
  let newIBL := loaded.1
  let s := { s with renderer := loaded.2 }
  if isValid newIBL then
    let s := s.onSettings (fun st => { st with hIbl := newIBL })
    let intensity := s.scene.scene3d.GetIndirectLightIntensity
    let s := s.onScene3d (fun sc => sc.SetIndirectLight env newIBL)
    let s := s.onScene3d (fun sc => sc.SetIndirectLightIntensity intensity)
    (true, SetIBLSkybox env s iblPath)
  else (false, s)

/-- The first statement of `Impl::SetLightingProfile(renderer, profile)`: a profile with
`useDefaultIBL` loads the default indirect light and shows it in `wgtIBLs`. -/
def SetLightingProfileDefaultIBL (env : Env) (s : State) (profile : LightingProfile) : State :=
  if profile.useDefaultIBL then
    let s := (SetIBL env s none).2
    s.onSettings (fun st => { st with wgtIBLs := st.wgtIBLs.SetSelectedValue kDefaultIBL })
  else s

/-- The method `Impl::SetLightingProfile(renderer, profile)`. -/
def SetLightingProfile (env : Env) (s : State) (profile : LightingProfile) : State :=
  let s := SetLightingProfileDefaultIBL env s profile
  let s :=
    if profile.iblEnabled then s.onScene3d (fun sc => sc.SetIndirectLight env s.settings.hIbl)
    else s.onScene3d (fun sc => sc.SetIndirectLight env kBad)
  let s := s.onScene3d (fun sc => sc.SetIndirectLightIntensity profile.iblIntensity)
  let s := s.onScene3d (fun sc => sc.SetIndirectLightRotation profile.iblRotation)
  let s := s.onScene3d (fun sc => sc.SetSkybox kBad)
  let s := s.onScene3d (fun sc => sc.SetLightEnabled s.settings.hDirectionalLight profile.sunEnabled)
  let s := s.onScene3d (fun sc =>
    sc.SetLightIntensity s.settings.hDirectionalLight profile.sunIntensity)
  let s := s.onScene3d (fun sc => sc.SetLightDirection s.settings.hDirectionalLight profile.sunDir)
  let s := s.onScene3d (fun sc => sc.SetLightColor s.settings.hDirectionalLight profile.sunColor)
  let s := s.onSettings (fun st =>
    { st with wgtIBLEnabled := st.wgtIBLEnabled.SetChecked profile.iblEnabled })
  let s := s.onSettings (fun st => { st with wgtSkyEnabled := st.wgtSkyEnabled.SetChecked false })
  let s := s.onSettings (fun st =>
    { st with wgtDirectionalEnabled := st.wgtDirectionalEnabled.SetChecked profile.sunEnabled })
  let s := s.onSettings (fun st => { st with wgtIBLs := st.wgtIBLs.SetSelectedValue kDefaultIBL })
  let s := s.onSettings (fun st =>
    { st with wgtIBLIntensity := st.wgtIBLIntensity.SetValue profile.iblIntensity })
  let s := s.onSettings (fun st =>
    { st with wgtSunIntensity := st.wgtSunIntensity.SetValue profile.sunIntensity })
  let s := s.onSettings (fun st => { st with wgtSunDir := st.wgtSunDir.SetValue profile.sunDir })
  let color : Color := ⟨profile.sunColor.x, profile.sunColor.y, profile.sunColor.z, 1⟩
  s.onSettings (fun st => { st with wgtSunColor := st.wgtSunColor.SetValue color })

/-- The loop of `Impl::SetLightingProfile(renderer, name)` over the rest of the table: the
first profile of that name is applied and shown in the selector; when the table is
exhausted a warning is logged. -/
def SetLightingProfileScan (env : Env) (s : State) (name : String) : List LightingProfile → State
  | [] => s.log (Call.LogWarning ("Could not find lighting profile " ++ name))
  | p :: rest =>
    if p.name = name then
      let s := SetLightingProfile env s p
      s.onSettings (fun st =>
        { st with wgtLightingProfile := st.wgtLightingProfile.SetSelectedValue name })
    else SetLightingProfileScan env s name rest

/-- The method `Impl::SetLightingProfile(renderer, name)`. The trace records the call. -/
def SetLightingProfileNamed (env : Env) (s : State) (name : String) : State :=
  SetLightingProfileScan env (s.log (Call.SetLightingProfile name)) name gLightingProfiles

end Impl

/-- The function `CreateAxes`. -/
def CreateAxes (env : Env) (axisLength : ℚ) : TriangleMesh :=
  let sphereRadius : ℚ := 5 / 1000 * axisLength
  let cylRadius : ℚ := 25 / 10000 * axisLength
  let coneRadius : ℚ := 75 / 10000 * axisLength
  let cylHeight : ℚ := 975 / 1000 * axisLength
  let coneHeight : ℚ := 25 / 1000 * axisLength
  let mesh_frame := env.CreateSphere sphereRadius
  let mesh_frame := env.ComputeVertexNormals mesh_frame
  let mesh_frame := env.PaintUniformColor mesh_frame ⟨1 / 2, 1 / 2, 1 / 2⟩
  let mesh_arrow := env.CreateArrow cylRadius coneRadius cylHeight coneHeight
  let mesh_arrow := env.ComputeVertexNormals mesh_arrow
  let mesh_arrow := env.PaintUniformColor mesh_arrow ⟨1, 0, 0⟩
  let transformation : Matrix4 := !![0, 0, 1, 0; 1, 0, 0, 0; 0, 1, 0, 0; 0, 0, 0, 1]
  let mesh_arrow := env.Transform mesh_arrow transformation
  let mesh_frame := env.meshAdd mesh_frame mesh_arrow
  let mesh_arrow := env.CreateArrow cylRadius coneRadius cylHeight coneHeight
  let mesh_arrow := env.ComputeVertexNormals mesh_arrow
  let mesh_arrow := env.PaintUniformColor mesh_arrow ⟨0, 1, 0⟩
  let transformation : Matrix4 := !![0, 1, 0, 0; 0, 0, 1, 0; 1, 0, 0, 0; 0, 0, 0, 1]
  let mesh_arrow := env.Transform mesh_arrow transformation
  let mesh_frame := env.meshAdd mesh_frame mesh_arrow
  let mesh_arrow := env.CreateArrow cylRadius coneRadius cylHeight coneHeight
  let mesh_arrow := env.ComputeVertexNormals mesh_arrow
  let mesh_arrow := env.PaintUniformColor mesh_arrow ⟨0, 0, 1⟩
  let transformation : Matrix4 := !![1, 0, 0, 0; 0, 1, 0, 0; 0, 0, 1, 0; 0, 0, 0, 1]
  let mesh_arrow := env.Transform mesh_arrow transformation
  env.meshAdd mesh_frame mesh_arrow

namespace GuiVisualizer

/-! ### Handlers of the settings panel

Each definition is the body of the lambda registered on the widget; its argument is the
value the toolkit passes to the lambda. -/

/-- The on-checked handler of `wgtSkyEnabled` ("Show skymap"). -/
def wgtSkyEnabled_OnChecked (s : State) (checked : Bool) : State :=
  let s :=
    if checked then s.onScene3d (fun sc => sc.SetSkybox s.settings.hSky)
    else s.onScene3d (fun sc => sc.SetSkybox kBad)
  let s := { s with scene := s.scene.SetSkyboxHandle s.settings.hSky checked }
  s.onSettings (fun st => { st with wgtBGColor := st.wgtBGColor.SetEnabled (!checked) })

/-- The on-checked handler of `wgtShowAxes` ("Show axes"). -/
def wgtShowAxes_OnChecked (s : State) (isChecked : Bool) : State :=
  s.onScene3d (fun sc => sc.SetGeometryEnabled s.settings.hAxes isChecked)

/-- The on-value-changed handler of `wgtLightingProfile`. -/
def wgtLightingProfile_OnValueChanged (env : Env) (s : State) (index : Nat) : State :=
  if index < gLightingProfiles.length then
    match gLightingProfiles.get? index with
    | some profile => Impl.SetLightingProfile env s profile
    | none => s
  else
    let s := s.onSettings (fun st => { st with wgtAdvanced := ⟨true⟩ })
    { s with needsLayout := true }

/-- The on-checked handler of `wgtIBLEnabled` ("HDR map"). -/
def wgtIBLEnabled_OnChecked (env : Env) (s : State) (checked : Bool) : State :=
  let s := s.onSettings Settings.SetCustomProfile
  if checked then s.onScene3d (fun sc => sc.SetIndirectLight env s.settings.hIbl)
  else s.onScene3d (fun sc => sc.SetIndirectLight env kBad)

/-- The on-checked handler of `wgtDirectionalEnabled` ("Sun"). -/
def wgtDirectionalEnabled_OnChecked (s : State) (checked : Bool) : State :=
  let s := s.onSettings Settings.SetCustomProfile
  s.onScene3d (fun sc => sc.SetLightEnabled s.settings.hDirectionalLight checked)

/-- The on-value-changed handler of `wgtIBLIntensity`. -/
def wgtIBLIntensity_OnValueChanged (s : State) (newValue : ℚ) : State :=
  let s := s.onScene3d (fun sc => sc.SetIndirectLightIntensity newValue)
  s.onSettings Settings.SetCustomProfile

/-- The on-value-changed handler of `wgtSunIntensity`. -/
def wgtSunIntensity_OnValueChanged (s : State) (newValue : ℚ) : State :=
  let s := s.onScene3d (fun sc => sc.SetLightIntensity s.settings.hDirectionalLight newValue)
  s.onSettings Settings.SetCustomProfile

/-- The lambda `setSunDir`, the on-value-changed handler of `wgtSunDir`. -/
def setSunDir (env : Env) (s : State) (dir : Vector3) : State :=
  let s := s.onSettings (fun st => { st with wgtSunDir := st.wgtSunDir.SetValue dir })
  let s := s.onScene3d (fun sc =>
    sc.SetLightDirection s.settings.hDirectionalLight (env.normalized dir))
  s.onSettings Settings.SetCustomProfile

/-- The lambda given to `SelectDirectionalLight`: the sun was rotated with the mouse. -/
def SelectDirectionalLight_OnDirChanged (s : State) (newDir : Vector3) : State :=
  let s := s.onSettings (fun st => { st with wgtSunDir := st.wgtSunDir.SetValue newDir })
  s.onSettings Settings.SetCustomProfile

/-- The on-value-changed handler of `wgtSunColor`. -/
def wgtSunColor_OnValueChanged (s : State) (newColor : Color) : State :=
  let s := s.onSettings Settings.SetCustomProfile
  s.onScene3d (fun sc =>
    sc.SetLightColor s.settings.hDirectionalLight ⟨newColor.r, newColor.g, newColor.b⟩)

/-- The method `GuiVisualizer::SetIBL`. -/
def SetIBL (env : Env) (s : State) (path : Option String) : Bool × State :=
  let (result, s) := Impl.SetIBL env s path
  (result, s.log Call.PostRedraw)

/-- The on-done handler of the "Open HDR Map" dialog. -/
def wgtIBLs_DialogOnDone (env : Env) (s : State) (path : String) : State :=
  let s := (SetIBL env s (some path)).2
  s.onSettings Settings.SetCustomProfile

/-- The on-value-changed handler of `wgtIBLs`; when the load fails the "Open HDR Map"
dialog is shown. -/
def wgtIBLs_OnValueChanged (env : Env) (s : State) (name : String) : State :=
  let path := env.resourcePath
  let path := path ++ ("/" ++ name ++ "_ibl.ktx")
  let (ok, s) := SetIBL env s (some path)
  if !ok then s.log (Call.ShowDialog "Open HDR Map") else s

/-- The on-done handler of the "Open skybox" dialog of `wgtLoadSky`. -/
def wgtLoadSky_DialogOnDone (env : Env) (s : State) (path : String) : State :=
  let (newSky, renderer) := s.renderer.AddSkybox env path
  let s := { s with renderer := renderer }
  if isValid newSky then
    let s := s.onSettings (fun st => { st with hSky := newSky })
    let s := s.onSettings (fun st => { st with wgtSkyEnabled := st.wgtSkyEnabled.SetChecked true })
    let s := s.onSettings Settings.SetCustomProfile
    let s := s.onScene3d (fun sc => sc.SetSkybox newSky)
    { s with scene := s.scene.SetSkyboxHandle newSky true }
  else s

/-- The lookup `geometryMaterials[handle]` of `std::map::operator[]`: the entry under the key
and the map, which gains a default-constructed entry when the key was missing. -/
def lookup (m : List (Nat × Materials)) (handle : Nat) : Materials × List (Nat × Materials) :=
  match m.find? (fun pair => pair.1 == handle) with
  | some pair => (pair.2, m)
  | none => ({}, m ++ [(handle, {})])

/-- The loop of the `LIT` and `UNLIT` cases of the handler of `wgtMaterialType`: every
displayed geometry is given the instance `pick` takes out of its pair. -/
def assignMaterials (s : State) (pick : Materials → Nat) : State :=
  s.geometryHandles.foldl (fun s handle =>
    let found := lookup s.geometryMaterials handle
    let s := { s with geometryMaterials := found.2 }
    s.onScene3d (fun sc => sc.AssignMaterial handle (pick found.1))) s

/-- The on-value-changed handler of `wgtMaterialType`; `selected` is the enumerator the index
of the chosen item is cast to. -/
def wgtMaterialType_OnValueChanged (s : State) (selected : MaterialType) : State :=
  let s := s.onSettings (fun st => { st with selectedType := selected })
  let isLit := decide (selected = MaterialType.LIT)
  let s := s.onSettings (fun st =>
    { st with wgtPrefabMaterial := st.wgtPrefabMaterial.SetEnabled isLit })
  match selected with
  | .LIT =>
    let s := { s with scene := { s.scene with viewMode := ViewMode.Color } }
    assignMaterials s (fun materials => materials.lit.handle)
  | .UNLIT =>
    let s := { s with scene := { s.scene with viewMode := ViewMode.Color } }
    assignMaterials s (fun materials => materials.unlit.handle)
  | .NORMAL_MAP => { s with scene := { s.scene with viewMode := ViewMode.Normals } }
  | .DEPTH => { s with scene := { s.scene with viewMode := ViewMode.Depth } }

/-- One iteration of the loop of the handler of `wgtPrefabMaterial`: the lit instance of the
geometry takes the values of the prefab, and the point size of the slider. -/
def applyPrefab (prefab : LitMaterial) (s : State) (handle : Nat) : State :=
  let found := lookup s.geometryMaterials handle
  let s := { s with geometryMaterials := found.2 }
  let mat := found.1.lit.handle
  let finished :=
    ((((((((s.renderer.ModifyMaterial mat).SetColor
        "baseColor" prefab.baseColor).SetParameter
        "roughness" prefab.roughness).SetParameter
        "metallic" prefab.metallic).SetParameter
        "reflectance" prefab.reflectance).SetParameter
        "clearCoat" prefab.clearCoat).SetParameter
        "clearCoatRoughness" prefab.clearCoatRoughness).SetParameter
        "anisotropy" prefab.anisotropy).SetParameter
        "pointSize" s.settings.wgtPointSize.GetDoubleValue |>.Finish
  let s := { s with renderer := finished.2 }
  s.onScene3d (fun sc => sc.AssignMaterial handle finished.1)

/-- The on-value-changed handler of `wgtPrefabMaterial`. -/
def wgtPrefabMaterial_OnValueChanged (s : State) (name : String) : State :=
  match prefabMaterials.find? (fun p => p.1 == name) with
  | some p => s.geometryHandles.foldl (applyPrefab p.2) s
  | none => s

/-! ### `SetGeometry` -/

/-- The local variables that live across the iterations of the loop of `SetGeometry`,
together with the window. The counter `nPointClouds` is a `size_t` that is incremented at
most once per element of the input, so it never wraps. -/
structure SetGeometryLoop where
  state : State
  bounds : AxisAlignedBoundingBox := {}
  objects : List Nat := []
  nPointClouds : Nat := 0

/-- The insertion `geometryMaterials.emplace(handle, materials)`: a key already present keeps
its entry. -/
def emplace (m : List (Nat × Materials)) (handle : Nat) (materials : Materials) :
    List (Nat × Materials) :=
  if m.any (fun pair => pair.1 == handle) then m else m ++ [(handle, materials)]

/-- The `switch (g->GetGeometryType())` of `SetGeometry`: the new value of `nPointClouds`,
the value of `selectedMaterial` (default-constructed, hence `kBad`, before the switch) and
the warning of the `default:` label, if any. -/
def selectMaterial (g : Geometry) (materials : Materials) (nPointClouds : Nat) :
    Nat × Nat × Option Call :=
  let selectedMaterial : Nat := kBad
  match g with
  | .pointCloud pcd =>
    let nPointClouds := nPointClouds + 1
    if pcd.HasColors then
      let selectedMaterial := materials.unlit.handle
      if SmartMode.PointCloudHasUniformColor pcd then
        (nPointClouds, materials.lit.handle, none)
      else (nPointClouds, selectedMaterial, none)
    else (nPointClouds, materials.lit.handle, none)
  | .lineSet _ => (nPointClouds, materials.unlit.handle, none)
  | .triangleMesh mesh =>
    if mesh.HasVertexColors then (nPointClouds, materials.unlit.handle, none)
    else (nPointClouds, materials.lit.handle, none)
  | .other tag =>
    (nPointClouds, selectedMaterial,
      some (Call.LogWarning ("Geometry type " ++ toString tag ++ " not supported!")))

/-- The first part of one iteration of the loop of `SetGeometry`, from the creation of the
two material instances to the update of the material-type selector. `materials` and
`handle` are the locals of these names, `selectedMaterial` the value passed to
`AddGeometry`. -/
structure SetGeometryAdded where
  state : State
  bounds : AxisAlignedBoundingBox
  objects : List Nat
  nPointClouds : Nat
  materials : Materials
  selectedMaterial : Nat
  handle : Nat

/-- The first part of one iteration of the loop of `SetGeometry`. -/
def SetGeometryAdd (env : Env) (l : SetGeometryLoop) (g : Geometry) : SetGeometryAdded :=
  let s := l.state
  let materials : Materials := {}
  let created := s.renderer.AddMaterialInstance s.hLitMaterial
  let materials := { materials with lit := { materials.lit with handle := created.1 } }
  let created := created.2.AddMaterialInstance s.hUnlitMaterial
  let materials := { materials with unlit := { materials.unlit with handle := created.1 } }
  let defaults := Impl.SetMaterialsDefaults materials created.2
  let materials := defaults.1
  let s := { s with renderer := defaults.2 }
  let selected := selectMaterial g materials l.nPointClouds
  let nPointClouds := selected.1
  let selectedMaterial := selected.2.1
  let s := { s with calls := s.calls ++ selected.2.2.toList }
  let s := s.log (Call.AddGeometry g (some selectedMaterial))
  let added := s.scene.scene3d.AddGeometry g (some selectedMaterial)
  let handle := added.1
  let s := s.onScene3d (fun _ => added.2)
  let bounds := l.bounds.add (s.scene.scene3d.GetEntityBoundingBox env handle)
  let objects := l.objects ++ [handle]
  let s := { s with geometryHandles := s.geometryHandles ++ [handle] }
  let viewMode := s.scene.viewMode
  let s :=
    if viewMode = ViewMode.Normals then
      s.onSettings (fun st => st.SetMaterialSelected MaterialType.NORMAL_MAP)
    else if viewMode = ViewMode.Depth then
      s.onSettings (fun st => st.SetMaterialSelected MaterialType.DEPTH)
    else if selectedMaterial = materials.unlit.handle then
      s.onSettings (fun st => st.SetMaterialSelected MaterialType.UNLIT)
    else s.onSettings (fun st => st.SetMaterialSelected MaterialType.LIT)
  { state := s, bounds := bounds, objects := objects, nPointClouds := nPointClouds,
    materials := materials, selectedMaterial := selectedMaterial, handle := handle }

/-- One iteration of the loop `for (auto &g : geometries)` of `SetGeometry`; `size` is
`geometries.size()`. -/
def SetGeometryStep (env : Env) (size : Nat) (l : SetGeometryLoop) (g : Geometry) :
    SetGeometryLoop :=
  let added := SetGeometryAdd env l g
  let s := added.state
  let s :=
    if added.nPointClouds = size then Impl.SetLightingProfileNamed env s kPointCloudProfileName
    else s
  let s := s.onSettings (fun st =>
    { st with wgtPointSize := st.wgtPointSize.SetEnabled (decide (added.nPointClouds > 0)) })
  let s := { s with
    geometryMaterials := emplace s.geometryMaterials added.handle added.materials }
  { state := s, bounds := added.bounds, objects := added.objects,
    nPointClouds := added.nPointClouds }

/-- The first part of `SetGeometry`, up to the loop: the axes and the geometries on display
are removed from the scene, their material instances from the renderer, and both
containers of the window are cleared. -/
def SetGeometryClear (s : State) : State :=
  let s :=
    if isValid s.settings.hAxes then s.onScene3d (fun sc => sc.RemoveGeometry s.settings.hAxes)
    else s
  let s := s.geometryHandles.foldl (fun s h => s.onScene3d (fun sc => sc.RemoveGeometry h)) s
  let s := { s with geometryHandles := [] }
  let s := s.geometryMaterials.foldl (fun s pair =>
    let renderer := s.renderer.RemoveMaterialInstance pair.2.unlit.handle
    let renderer := renderer.RemoveMaterialInstance pair.2.lit.handle
    { s with renderer := renderer }) s
  { s with geometryMaterials := [] }

/-- The loop `for (auto &g : geometries)` of `SetGeometry`, run on the first `k` geometries
(all of them when `k` is the size of the input). -/
def SetGeometryIterations (env : Env) (s : State) (geometries : List Geometry) (k : Nat) :
    SetGeometryLoop :=
  (geometries.take k).foldl (SetGeometryStep env geometries.length)
    { state := SetGeometryClear s }

/-- The last part of `SetGeometry`, after the loop: the axes are created and added, and the
camera is set up. -/
def SetGeometryAxes (env : Env) (l : SetGeometryLoop) : State :=
  let s := l.state
  let bounds := l.bounds
  let objects := l.objects
  let axisLength := bounds.GetMaxExtent
  let axisLength := if axisLength < 1 / 1000 then 1 else axisLength
  let axes := CreateAxes env axisLength
  let s := s.log (Call.AddGeometry (Geometry.triangleMesh axes) none)
  let (hAxes, scene3d) := s.scene.scene3d.AddGeometry (Geometry.triangleMesh axes) none
  let s := s.onScene3d (fun _ => scene3d)
  let s := s.onSettings (fun st => { st with hAxes := hAxes })
  let s := s.onScene3d (fun sc => sc.SetGeometryShadows s.settings.hAxes false false)
  let s := s.onScene3d (fun sc =>
    sc.SetGeometryEnabled s.settings.hAxes s.settings.wgtShowAxes.IsChecked)
  let s := { s with scene := s.scene.SetModel s.settings.hAxes objects }
  { s with scene := s.scene.SetupCamera 60 bounds bounds.GetCenter }

/-- The method `GuiVisualizer::SetGeometry`. The trace records the call. -/
def SetGeometry (env : Env) (s : State) (geometries : List Geometry) : State :=
  let s := s.log (Call.SetGeometry geometries)
  SetGeometryAxes env (SetGeometryIterations env s geometries geometries.length)

/-! ### `LoadGeometry` -/

/-- The method `GuiVisualizer::LoadGeometry`. The trace records the calls of the two
readers. -/
def LoadGeometry (env : Env) (s : State) (path : String) : Bool × State :=
  let geometry : Option Geometry := none
  let mesh : TriangleMesh := ⟨[], [], [], []⟩
  let s := s.log (Call.ReadTriangleMesh path)
  let (meshSuccess, mesh) :=
    match env.ReadTriangleMesh path with
    | .returned ok m => (ok, m)
    | .threw => (false, mesh)
  let (geometry, s) :=
    if meshSuccess then
      if mesh.triangles_.length = 0 then
        (geometry, s.log (Call.LogWarning "Contains 0 triangles, will read as point cloud"))
      else
        let mesh := env.ComputeVertexNormals mesh
        (some (Geometry.triangleMesh mesh), s)
    else (geometry, s.log (Call.LogWarning ("Failed to read " ++ path)))
  let (geometry, s) :=
    if geometry.isNone then
      let cloud : PointCloud := ⟨[], [], []⟩
      let s := s.log (Call.ReadPointCloud path)
      let (success, cloud) :=
        match env.ReadPointCloud path with
        | .returned ok c => (ok, c)
        | .threw => (false, cloud)
      if success then
        let s := s.log (Call.LogInfo ("Successfully read " ++ path))
        let cloud := if !cloud.HasNormals then env.EstimateNormals cloud else cloud
        let cloud := env.NormalizeNormals cloud
        (some (Geometry.pointCloud cloud), s)
      else (geometry, s.log (Call.LogWarning ("Failed to read points " ++ path)))
    else (geometry, s)
  match geometry with
  | some g => (true, SetGeometry env s [g])
  | none => (false, s)

/-- The method `GuiVisualizer::OnDragDropped` (with `LOAD_IN_NEW_WINDOW` equal to `0`). -/
def OnDragDropped (env : Env) (s : State) (path : String) : State :=
  let title := "Open3D - " ++ path
  let s := { s with title := title }
  let (ok, s) := LoadGeometry env s path
  let s :=
    if !ok then
      let err := "Error reading geometry file " ++ path
      s.log (Call.ShowMessageBox "Error loading geometry" err)
    else s
  s.log Call.PostRedraw

/-! ### Mouse-mode buttons -/

/-- The five toggle buttons set to the given values, in the order Arcball, Fly, Sun,
Environment, Model in which every handler writes them. -/
def setMouseButtons (st : Settings) (arcball fly sun ibl model : Bool) : Settings :=
  { st with wgtMouseArcball := st.wgtMouseArcball.SetOn arcball,
            wgtMouseFly := st.wgtMouseFly.SetOn fly,
            wgtMouseSun := st.wgtMouseSun.SetOn sun,
            wgtMouseIBL := st.wgtMouseIBL.SetOn ibl,
            wgtMouseModel := st.wgtMouseModel.SetOn model }

/-- The on-clicked handler of `wgtMouseArcball`. -/
def wgtMouseArcball_OnClicked (s : State) : State :=
  let s := { s with scene := s.scene.SetViewControls Controls.ROTATE_OBJ }
  let s := { s with tickEventsEnabled := false }
  s.onSettings (fun st => setMouseButtons st true false false false false)

/-- The on-clicked handler of `wgtMouseFly`. -/
def wgtMouseFly_OnClicked (s : State) : State :=
  let s := { s with scene := s.scene.SetViewControls Controls.FPS }
  let s := { s with tickEventsEnabled := true }
  s.onSettings (fun st => setMouseButtons st false true false false false)

/-- The on-clicked handler of `wgtMouseModel`. -/
def wgtMouseModel_OnClicked (s : State) : State :=
  let s := { s with scene := s.scene.SetViewControls Controls.ROTATE_MODEL }
  let s := { s with tickEventsEnabled := false }
  s.onSettings (fun st => setMouseButtons st false false false false true)

/-- The on-clicked handler of `wgtMouseSun`. -/
def wgtMouseSun_OnClicked (s : State) : State :=
  let s := { s with scene := s.scene.SetViewControls Controls.ROTATE_SUN }
  let s := { s with tickEventsEnabled := false }
  s.onSettings (fun st => setMouseButtons st false false true false false)

/-- The on-clicked handler of `wgtMouseIBL`. -/
def wgtMouseIBL_OnClicked (s : State) : State :=
  let s := { s with scene := s.scene.SetViewControls Controls.ROTATE_IBL }
  let s := { s with tickEventsEnabled := false }
  s.onSettings (fun st => setMouseButtons st false false false true false)

/-! ### The constructor -/

/-- Modelled from the spec: `utility::filesystem::GetFileNameWithoutDirectory`: what follows
the last slash or backslash. -/
def GetFileNameWithoutDirectory (f : String) : String :=
  String.mk (f.toList.reverse.takeWhile
    (fun c => c != Char.ofNat 47 && c != Char.ofNat 92)).reverse

/-- The loop of the constructor that fills `wgtIBLs` from the sorted resource files; the
second component is the counter `n`. -/
def addIBLItem (acc : Combobox × Nat) (f : String) : Combobox × Nat :=
  if stdFind f "_ibl.ktx" = sizeSub (stdSize f) 8 then
    let name := GetFileNameWithoutDirectory f
    let name := substr0 name (sizeSub (stdSize name) 8)
    let w := acc.1.AddItem name
    let w := if name = kDefaultIBL then w.SetSelectedIndex acc.2 else w
    (w, acc.2 + 1)
  else acc

/-- The items of the lighting-profile selector as the constructor adds them: one per profile
of the table, then "Custom". -/
def lightingProfileItems : Combobox :=
  (gLightingProfiles.foldl (fun (w : Combobox) p => w.AddItem p.name) {}).AddItem "Custom"

/-- The constructor `GuiVisualizer::GuiVisualizer`, as far as it builds the state kept in
`State`; the menus, layouts and labels are left out. -/
def new (env : Env) (geometries : List Geometry) (title : String) : State :=
  let s : State := { title := title }
  let s := { s with scene := ({} : SceneWidget).SetBackgroundColor ⟨1, 1, 1, 1⟩ }
  let defaultLightingProfileIdx := 0
  let lightingProfile := gLightingProfiles.getD defaultLightingProfileIdx
    { name := "", iblIntensity := 0, sunIntensity := 0, sunDir := Vector3.zero }
  let lightDescription : LightDescription :=
    { intensity := lightingProfile.sunIntensity, direction := lightingProfile.sunDir,
      castShadows := true, customType := "SUN" }
  let (hDirectionalLight, scene3d) := s.scene.scene3d.AddLight lightDescription
  let s := s.onScene3d (fun _ => scene3d)
  let s := s.onSettings (fun st => { st with hDirectionalLight := hDirectionalLight })
  let rsrcPath := env.resourcePath
  let iblPath := rsrcPath ++ "/default_ibl.ktx"
  let (hIbl, renderer) := s.renderer.AddIndirectLight env iblPath
  let s := { s with renderer := renderer }
  let s := s.onSettings (fun st => { st with hIbl := hIbl })
  let s := s.onScene3d (fun sc => sc.SetIndirectLight env s.settings.hIbl)
  let s := s.onScene3d (fun sc => sc.SetIndirectLightIntensity lightingProfile.iblIntensity)
  let s := s.onScene3d (fun sc => sc.SetIndirectLightRotation lightingProfile.iblRotation)
  let skyPath := rsrcPath ++ "/" ++ kDefaultIBL ++ "_skybox.ktx"
  let (hSky, renderer) := s.renderer.AddSkybox env skyPath
  let s := { s with renderer := renderer }
  let s := s.onSettings (fun st => { st with hSky := hSky })
  let s := { s with scene := s.scene.SetSkyboxHandle s.settings.hSky kDefaultShowSkybox }
  let litPath := rsrcPath ++ "/defaultLit.filamat"
  let (hLitMaterial, renderer) := s.renderer.AddMaterial env litPath
  let s := { s with renderer := renderer, hLitMaterial := hLitMaterial }
  let unlitPath := rsrcPath ++ "/defaultUnlit.filamat"
  let (hUnlitMaterial, renderer) := s.renderer.AddMaterial env unlitPath
  let s := { s with renderer := renderer, hUnlitMaterial := hUnlitMaterial }
  let resourceFiles := env.resourceFiles.mergeSort (fun a b => !decide (b < a))
  let wgtIBLs := ((resourceFiles.foldl addIBLItem (({} : Combobox), 0)).1).AddItem "Custom..."
  let prefabNames := (prefabMaterials.map Prod.fst).mergeSort (fun a b => !decide (b < a))
  let wgtPrefabMaterial := prefabNames.foldl (fun (w : Combobox) name => w.AddItem name) {}
  let s := s.onSettings (fun st =>
    { st with
      wgtMouseArcball := ⟨true⟩,
      wgtMouseFly := ⟨false⟩,
      wgtMouseModel := ⟨false⟩,
      wgtMouseSun := ⟨false⟩,
      wgtMouseIBL := ⟨false⟩,
      wgtSkyEnabled := ⟨kDefaultShowSkybox⟩,
      wgtBGColor := { value := ⟨1, 1, 1, 1⟩ },
      wgtShowAxes := ⟨kDefaultShowAxes⟩,
      wgtLightingProfile := lightingProfileItems.SetSelectedIndex defaultLightingProfileIdx,
      wgtAdvanced := ⟨false⟩,
      wgtIBLEnabled := ⟨true⟩,
      wgtDirectionalEnabled := ⟨true⟩,
      wgtIBLs := wgtIBLs,
      wgtIBLIntensity := MakeSlider SliderType.INT 0 150000 lightingProfile.iblIntensity,
      wgtSunIntensity := MakeSlider SliderType.INT 0 500000 lightingProfile.sunIntensity,
      wgtSunDir := ⟨lightDescription.direction⟩,
      wgtSunColor := { value := ⟨1, 1, 1, 1⟩ },
      wgtMaterialType := { items := ["Lit", "Unlit", "Normal map", "Depth"] },
      wgtPrefabMaterial := wgtPrefabMaterial.SetSelectedValue kDefaultMaterialName,
      wgtPointSize := MakeSlider SliderType.INT 1 10 3 })
  let s := { s with helpKeysVisible := false }
  SetGeometry env s geometries

/-! ### The destructor -/

/-- What the destructor of the base class `gui::Window` finds once `~GuiVisualizer` has run
its body and destroyed its member `impl_`: the renderer, which the base class owns, and the
scene widget, which is a child of the window. The members of `Impl` are gone. -/
structure WindowRemains where
  renderer : Renderer
  scene : SceneWidget

/-- The destructor `GuiVisualizer::~GuiVisualizer() {}` as this file writes it. Its body
holds no statement. The member `impl_` is destroyed after it: `Impl` declares no destructor
and its members are handles, which are plain values, containers of handles and shared
pointers to widgets, so `geometryHandles`, `geometryMaterials` and the handles of the
settings go away without a call on the renderer or on the scene. The destructor of the base
class, which is not part of this file, runs on the result. -/
def destructor (s : State) : WindowRemains :=
  { renderer := s.renderer, scene := s.scene }

end GuiVisualizer

/-! ## Notions used to state the properties -/

/-- The lighting state of the window: the copy the scene holds (indirect light, skybox, the
lights), the handles the settings keep for it, and the copy the widgets of the panel show,
the lighting-profile selector included. -/
structure Lighting where
  hIbl : Nat
  hSky : Nat
  hDirectionalLight : Nat
  indirectLight : Nat
  indirectLightIntensity : ℚ
  indirectLightRotation : Matrix4
  skybox : Nat
  lights : Nat → Light
  skyboxHandle : Nat
  skyboxIsOn : Bool
  wgtLightingProfile : Combobox
  wgtIBLEnabled : Checkbox
  wgtSkyEnabled : Checkbox
  wgtDirectionalEnabled : Checkbox
  wgtIBLs : Combobox
  wgtIBLIntensity : Slider
  wgtSunIntensity : Slider
  wgtSunDir : VectorEdit
  wgtSunColor : ColorEdit

/-- The lighting state of a window. -/
def State.lighting (s : State) : Lighting :=
  { hIbl := s.settings.hIbl,
    hSky := s.settings.hSky,
    hDirectionalLight := s.settings.hDirectionalLight,
    indirectLight := s.scene.scene3d.indirectLight,
    indirectLightIntensity := s.scene.scene3d.indirectLightIntensity,
    indirectLightRotation := s.scene.scene3d.indirectLightRotation,
    skybox := s.scene.scene3d.skybox,
    lights := s.scene.scene3d.lights,
    skyboxHandle := s.scene.skyboxHandle,
    skyboxIsOn := s.scene.skyboxIsOn,
    wgtLightingProfile := s.settings.wgtLightingProfile,
    wgtIBLEnabled := s.settings.wgtIBLEnabled,
    wgtSkyEnabled := s.settings.wgtSkyEnabled,
    wgtDirectionalEnabled := s.settings.wgtDirectionalEnabled,
    wgtIBLs := s.settings.wgtIBLs,
    wgtIBLIntensity := s.settings.wgtIBLIntensity,
    wgtSunIntensity := s.settings.wgtSunIntensity,
    wgtSunDir := s.settings.wgtSunDir,
    wgtSunColor := s.settings.wgtSunColor }

/-- The values of a profile as the scene holds them once the profile is applied. -/
def RendererShows (s : State) (p : LightingProfile) : Prop :=
  s.scene.scene3d.indirectLight = (if p.iblEnabled then s.settings.hIbl else kBad) ∧
  s.scene.scene3d.indirectLightIntensity = p.iblIntensity ∧
  s.scene.scene3d.indirectLightRotation = p.iblRotation ∧
  s.scene.scene3d.skybox = kBad ∧
  s.scene.scene3d.lights s.settings.hDirectionalLight =
    ⟨p.sunEnabled, p.sunIntensity, p.sunDir, p.sunColor⟩

/-- The values of a profile as the widgets of the panel show them. -/
def WidgetsShow (s : State) (p : LightingProfile) : Prop :=
  s.settings.wgtIBLEnabled.IsChecked = p.iblEnabled ∧
  s.settings.wgtDirectionalEnabled.IsChecked = p.sunEnabled ∧
  s.settings.wgtIBLIntensity.GetDoubleValue = p.iblIntensity ∧
  s.settings.wgtSunIntensity.GetDoubleValue = p.sunIntensity ∧
  s.settings.wgtSunDir.value = p.sunDir ∧
  s.settings.wgtSunColor.value = ⟨p.sunColor.x, p.sunColor.y, p.sunColor.z, 1⟩ ∧
  s.settings.wgtSkyEnabled.IsChecked = false

/-- The widgets of the lighting panel are as the constructor built them: the selector holds
the profile names followed by "Custom", and the two intensity sliders have the limits
`[0, 150000]` and `[0, 500000]`. -/
def PanelAsConstructed (s : State) : Prop :=
  s.settings.wgtLightingProfile.items = GuiVisualizer.lightingProfileItems.items ∧
  (s.settings.wgtIBLIntensity.minValue = 0 ∧ s.settings.wgtIBLIntensity.maxValue = 150000) ∧
  (s.settings.wgtSunIntensity.minValue = 0 ∧ s.settings.wgtSunIntensity.maxValue = 500000)

/-- The arguments of the `AddGeometry` calls of a trace, in order. -/
def addGeometryCalls (calls : List Call) : List (Geometry × Option Nat) :=
  calls.filterMap (fun c =>
    match c with
    | .AddGeometry g material => some (g, material)
    | _ => none)

/-- The names with which `SetLightingProfile(renderer, name)` is called in a trace. -/
def setLightingProfileCalls (calls : List Call) : List String :=
  calls.filterMap (fun c =>
    match c with
    | .SetLightingProfile name => some name
    | _ => none)

/-- The arguments of the `SetGeometry` calls of a trace, in order. -/
def setGeometryCalls (calls : List Call) : List (List Geometry) :=
  calls.filterMap (fun c =>
    match c with
    | .SetGeometry geometries => some geometries
    | _ => none)

/-- The paths with which `io::ReadPointCloud` is called in a trace. -/
def readPointCloudCalls (calls : List Call) : List String :=
  calls.filterMap (fun c =>
    match c with
    | .ReadPointCloud path => some path
    | _ => none)

/-- Whether the type tag of a geometry is `PointCloud`. -/
def isPointCloud (g : Geometry) : Bool := decide (g.GetGeometryType = GeometryType.PointCloud)

/-- The material the policy of `SetGeometry` picks for a geometry of a recognised type, out
of the two instances created for it: whether it is the unlit one. -/
def wantsUnlit : Geometry → Bool
  | .pointCloud pcd => pcd.HasColors && !SmartMode.PointCloudHasUniformColor pcd
  | .lineSet _ => true
  | .triangleMesh mesh => mesh.HasVertexColors
  | .other _ => false

/-- The lighting-profile selector is on the sentinel: its index is the number of named
profiles and the item there is "Custom". -/
def ShowsCustom (s : State) : Prop :=
  s.settings.wgtLightingProfile.GetSelectedIndex = gLightingProfiles.length ∧
  s.settings.wgtLightingProfile.GetSelectedValue = some "Custom"

/-- The pair of material instances an iteration of the loop of `SetGeometry` creates when
the renderer has handed out `base` ids before it: the lit instance gets the next id and
the unlit instance the one after. -/
def materialsAt (base : Nat) : Materials :=
  { lit := { handle := base + 1 }, unlit := { handle := base + 1 + 1 } }

/-- The material `SetGeometry` passes to `AddGeometry` for a geometry, out of the pair
`materialsAt base`: the unlit or the lit instance for a recognised type, by `wantsUnlit`,
and the default-constructed handle for any other type. -/
def expectedMaterial (base : Nat) : Geometry → Nat
  | .other _ => kBad
  | g => if wantsUnlit g then (materialsAt base).unlit.handle else (materialsAt base).lit.handle

/-- The arguments of the `AddGeometry` calls of the loop of `SetGeometry`, when the renderer
has handed out `base` ids before the loop. -/
def expectedAdds (base : Nat) : List Geometry → List (Geometry × Option Nat)
  | [] => []
  | g :: rest => (g, some (expectedMaterial base g)) :: expectedAdds (base + 2) rest

/-- The entries the loop of `SetGeometry` records in `geometryMaterials`, when the scene has
handed out `h` ids and the renderer `base` ids before the loop. -/
def expectedMaterials (h base : Nat) : List Geometry → List (Nat × Materials)
  | [] => []
  | _ :: rest => (h + 1, materialsAt base) :: expectedMaterials (h + 1) (base + 2) rest

/-- The mesh stage of `LoadGeometry` fails: the reader throws, returns false, or returns a
mesh without triangles. -/
def meshStageFails (env : Env) (path : String) : Prop :=
  match env.ReadTriangleMesh path with
  | .threw => True
  | .returned ok mesh => ok = false ∨ mesh.triangles_.length = 0

/-- The point-cloud stage of `LoadGeometry` fails: the reader throws or returns false. -/
def cloudStageFails (env : Env) (path : String) : Prop :=
  match env.ReadPointCloud path with
  | .threw => True
  | .returned ok _ => ok = false

/-- The warning the mesh stage of `LoadGeometry` logs when it fails. -/
def meshStageWarning (env : Env) (path : String) : Call :=
  match env.ReadTriangleMesh path with
  | .returned true _ => Call.LogWarning "Contains 0 triangles, will read as point cloud"
  | _ => Call.LogWarning ("Failed to read " ++ path)

/-- The window when the point-cloud reader of `LoadGeometry` is about to be called: the
trace holds the call of the mesh reader and the warning of the mesh stage. -/
def afterMeshStage (env : Env) (s : State) (path : String) : State :=
  ((s.log (Call.ReadTriangleMesh path)).log (meshStageWarning env path)).log
    (Call.ReadPointCloud path)

/-- The cloud `LoadGeometry` displays for what the point-cloud reader returned: normals are
estimated when there are none, then normalised. -/
def preparedCloud (env : Env) (cloud : PointCloud) : PointCloud :=
  env.NormalizeNormals (if !cloud.HasNormals then env.EstimateNormals cloud else cloud)

/-- The path of the skybox `Impl::SetIBL` derives from `iblPath`: what `substr(0, size - 8)`
keeps of it, followed by "_skybox.ktx". -/
def Impl.derivedSkyboxPath (iblPath : String) : String :=
  substr0 iblPath (sizeSub (stdSize iblPath) 8) ++ "_skybox.ktx"

/-- A string ends with a suffix. -/
def endsWith (s suffix : String) : Prop := suffix.toList <:+ s.toList

/-- One string is another with the suffix `old` replaced by `new`: what precedes the suffix
is the same in both. -/
def suffixReplaced (s old new t : String) : Prop :=
  ∃ stem : List Char, s.toList = stem ++ old.toList ∧ t.toList = stem ++ new.toList

/-- The handles of the geometries a scene holds. -/
def Scene.handles (sc : Scene) : List Nat := sc.geometries.map (fun e => e.handle)

/-- The handles of the material instances that are live in the renderer. -/
def Renderer.instanceHandles (r : Renderer) : List Nat :=
  r.materialInstances.map (fun m => m.handle)

/-- Every handle the window keeps was handed out by the scene or by the renderer: none is
beyond the id counter of its owner, so a handle handed out later is distinct from it. -/
def HandlesIssued (s : State) : Prop :=
  (∀ h ∈ s.geometryHandles, h ≤ s.scene.scene3d.lastId) ∧
  s.settings.hAxes ≤ s.scene.scene3d.lastId ∧
  ∀ pair ∈ s.geometryMaterials,
    pair.2.lit.handle ≤ s.renderer.lastId ∧ pair.2.unlit.handle ≤ s.renderer.lastId

/-- The value of the parameter "pointSize" of the material instance with that handle. -/
def pointSizeOf (r : Renderer) (handle : Nat) : Option ParamValue :=
  (r.materialInstances.find? (fun m => m.handle == handle)).bind
    (fun m => getParam m.params "pointSize")

/-- The value `axisLength` has when `SetGeometry` calls `CreateAxes`, for the combined
bounding box `bounds` of the loop: the largest extent, or 1 when that is below 0.001. -/
def axisLengthFor (bounds : AxisAlignedBoundingBox) : ℚ :=
  if bounds.GetMaxExtent < 1 / 1000 then 1 else bounds.GetMaxExtent

/-- The test of the filter of the constructor, `f.find("_ibl.ktx") == f.size() - 8`. -/
def iblFilter (f : String) : Bool := decide (stdFind f "_ibl.ktx" = sizeSub (stdSize f) 8)

/-- The item the constructor adds to `wgtIBLs` for a resource file: the name of the file
without its directory, cut by `substr(0, size - 8)`. -/
def iblItemName (f : String) : String :=
  substr0 (GuiVisualizer.GetFileNameWithoutDirectory f)
    (sizeSub (stdSize (GuiVisualizer.GetFileNameWithoutDirectory f)) 8)

/-- The parameters the handler of `wgtPrefabMaterial` leaves on a lit instance: the seven
values of the prefab, and the point size given apart. -/
def HoldsPrefab (prefab : LitMaterial) (pointSize : ℚ) (params : List (String × ParamValue)) :
    Prop :=
  getParam params "baseColor" = some (ParamValue.color prefab.baseColor) ∧
  getParam params "roughness" = some (ParamValue.scalar prefab.roughness) ∧
  getParam params "metallic" = some (ParamValue.scalar prefab.metallic) ∧
  getParam params "reflectance" = some (ParamValue.scalar prefab.reflectance) ∧
  getParam params "clearCoat" = some (ParamValue.scalar prefab.clearCoat) ∧
  getParam params "clearCoatRoughness" = some (ParamValue.scalar prefab.clearCoatRoughness) ∧
  getParam params "anisotropy" = some (ParamValue.scalar prefab.anisotropy) ∧
  getParam params "pointSize" = some (ParamValue.scalar pointSize)

/-- The parameters the handler of `wgtPrefabMaterial` writes to a lit instance, in the
order of its `SetColor` and `SetParameter` calls. -/
def prefabWrites (prefab : LitMaterial) (pointSize : ℚ) : List (String × ParamValue) :=
  [("baseColor", ParamValue.color prefab.baseColor),
   ("roughness", ParamValue.scalar prefab.roughness),
   ("metallic", ParamValue.scalar prefab.metallic),
   ("reflectance", ParamValue.scalar prefab.reflectance),
   ("clearCoat", ParamValue.scalar prefab.clearCoat),
   ("clearCoatRoughness", ParamValue.scalar prefab.clearCoatRoughness),
   ("anisotropy", ParamValue.scalar prefab.anisotropy),
   ("pointSize", ParamValue.scalar pointSize)]

/-- The display of the skybox agrees with the "Show skymap" checkbox: the flag last given
to `SetSkyboxHandle` is the state of the box, the skybox of the scene is `settings.hSky`
when the box is checked and none when it is not, and the background-colour editor is
enabled when the box is not checked. -/
def SkyboxInSync (s : State) : Prop :=
  s.scene.skyboxIsOn = s.settings.wgtSkyEnabled.IsChecked ∧
  s.scene.scene3d.skybox =
    (if s.settings.wgtSkyEnabled.IsChecked then s.settings.hSky else kBad) ∧
  s.settings.wgtBGColor.enabled = !s.settings.wgtSkyEnabled.IsChecked

/-- Modelled from the spec: a click on the "Show skymap" checkbox: the box takes its new
state, then its on-checked handler is called with that state. -/
def GuiVisualizer.clickSkyEnabled (s : State) (checked : Bool) : State :=
  GuiVisualizer.wgtSkyEnabled_OnChecked
    (s.onSettings (fun st => { st with wgtSkyEnabled := st.wgtSkyEnabled.SetChecked checked }))
    checked

/-- The five mouse modes, one per toggle button of the view controls. -/
inductive MouseMode where
  | Arcball
  | Fly
  | Model
  | Sun
  | Environment
deriving DecidableEq

/-- The on-clicked handler of the button of a mouse mode. -/
def GuiVisualizer.clickMouse (s : State) : MouseMode → State
  | .Arcball => GuiVisualizer.wgtMouseArcball_OnClicked s
  | .Fly => GuiVisualizer.wgtMouseFly_OnClicked s
  | .Model => GuiVisualizer.wgtMouseModel_OnClicked s
  | .Sun => GuiVisualizer.wgtMouseSun_OnClicked s
  | .Environment => GuiVisualizer.wgtMouseIBL_OnClicked s

/-- Whether the toggle button of a mouse mode is on. -/
def mouseButton (s : State) : MouseMode → Bool
  | .Arcball => s.settings.wgtMouseArcball.isOn
  | .Fly => s.settings.wgtMouseFly.isOn
  | .Model => s.settings.wgtMouseModel.isOn
  | .Sun => s.settings.wgtMouseSun.isOn
  | .Environment => s.settings.wgtMouseIBL.isOn

/-- The material type an iteration of the loop of `SetGeometry` selects in the material-type
selector: by the mode of the view, and in mode Color by the material picked for the
geometry (unlit by `wantsUnlit`, lit otherwise, a geometry of an unrecognised type
included). -/
def materialTypeFor (viewMode : ViewMode) (g : Geometry) : MaterialType :=
  if viewMode = ViewMode.Normals then MaterialType.NORMAL_MAP
  else if viewMode = ViewMode.Depth then MaterialType.DEPTH
  else if wantsUnlit g then MaterialType.UNLIT
  else MaterialType.LIT

/-- The transform `CreateAxes` gives to the red arrow. -/
def axesTransformX : Matrix4 := !![0, 0, 1, 0; 1, 0, 0, 0; 0, 1, 0, 0; 0, 0, 0, 1]

/-- The transform `CreateAxes` gives to the green arrow. -/
def axesTransformY : Matrix4 := !![0, 1, 0, 0; 0, 0, 1, 0; 1, 0, 0, 0; 0, 0, 0, 1]

/-- The transform `CreateAxes` gives to the blue arrow. -/
def axesTransformZ : Matrix4 := !![1, 0, 0, 0; 0, 1, 0, 0; 0, 0, 1, 0; 0, 0, 0, 1]

/-- One arrow of `CreateAxes` for the axis length `axisLength`: created along +Z, painted,
then transformed. -/
def axesArrow (env : Env) (axisLength : ℚ) (color : Vector3) (transformation : Matrix4) :
    TriangleMesh :=
  env.Transform
    (env.PaintUniformColor
      (env.ComputeVertexNormals
        (env.CreateArrow (25 / 10000 * axisLength) (75 / 10000 * axisLength)
          (975 / 1000 * axisLength) (25 / 1000 * axisLength)))
      color)
    transformation

/-! ## Sample inputs -/

namespace Examples

/-- A unit vector along X, used as a sample point. -/
def px : Vector3 := ⟨1, 0, 0⟩

/-- A sample mesh: one triangle, no colours. -/
def triangle : TriangleMesh :=
  { vertices_ := [Vector3.zero, px, ⟨0, 1, 0⟩], vertex_normals_ := [], vertex_colors_ := [],
    triangles_ := [(0, 1, 2)] }

/-- A sample cloud: two points, one black and one white. -/
def cloud : PointCloud :=
  { points_ := [Vector3.zero, px], normals_ := [], colors_ := [Vector3.zero, ⟨1, 1, 1⟩] }

/-- A sample world: the default assets exist, the file "mesh.ply" holds `triangle`, the file
"cloud.pcd" holds `cloud` and parses as a mesh without triangles, any other file makes
both readers throw; the geometry algorithms leave their argument as it is. -/
def env : Env :=
  { resourcePath := "/res",
    resourceFiles := [],
    indirectLightLoads := fun path => path == "/res/default_ibl.ktx",
    skyboxLoads := fun path => path == "/res/default_skybox.ktx",
    materialLoads := fun _ => true,
    intensityAfterSwap := fun _ _ => 30000,
    ReadTriangleMesh := fun path =>
      if path == "mesh.ply" then .returned true triangle
      else if path == "cloud.pcd" then .returned true ⟨[], [], [], []⟩
      else .threw,
    ReadPointCloud := fun path =>
      if path == "cloud.pcd" then .returned true cloud else .threw,
    ComputeVertexNormals := fun m => m,
    EstimateNormals := fun c => c,
    NormalizeNormals := fun c => c,
    CreateSphere := fun _ => ⟨[], [], [], []⟩,
    CreateArrow := fun _ _ _ _ => ⟨[], [], [], []⟩,
    PaintUniformColor := fun m _ => m,
    Transform := fun m _ => m,
    meshAdd := fun a _ => a,
    boundingBoxOf := fun _ => {},
    normalized := fun v => v }

/-- A sample profile: the fourth entry of `gLightingProfiles`. -/
def profile : LightingProfile :=
  { name := "Less bright day with sun at +Y",
    iblIntensity := 75000,
    sunIntensity := 100000,
    sunDir := ⟨577 / 1000, -577 / 1000, -577 / 1000⟩ }

/-- A sample window: the one the constructor builds in the sample world for an empty list
of geometries. -/
def window : State := GuiVisualizer.new env [] "Open3D"

/-- A second sample world: besides the default assets a map "park" is installed, which has
no skybox file of its own; its file loads as a skybox too. -/
def envPark : Env :=
  { env with
    resourceFiles := ["/res/default_ibl.ktx", "/res/park_ibl.ktx"],
    indirectLightLoads := fun path =>
      path == "/res/default_ibl.ktx" || path == "/res/park_ibl.ktx",
    skyboxLoads := fun path =>
      path == "/res/default_skybox.ktx" || path == "/res/park_ibl.ktx" }

/-- A third sample world: the file "sky_ibl.ktx_v2.ktx" loads as an indirect light, and the
file "sky_ibl.kt_skybox.ktx" as a skybox. -/
def envCopy : Env :=
  { env with
    indirectLightLoads := fun path => path == "sky_ibl.ktx_v2.ktx",
    skyboxLoads := fun path => path == "sky_ibl.kt_skybox.ktx" }

/-- A second sample cloud: two points, no colours. -/
def plain : PointCloud := { points_ := [Vector3.zero, px], normals_ := [], colors_ := [] }

/-- The sample window once the cloud without colours is on display. -/
def shown : State := GuiVisualizer.SetGeometry env window [Geometry.pointCloud plain]

/-- The sample window with the point-size slider at 7. -/
def moved : State :=
  window.onSettings (fun st => { st with wgtPointSize := st.wgtPointSize.SetValue 7 })

/-- A sample cloud of three greys whose first colour is the middle one, 1/255 away from
each of the other two in every channel. -/
def greysMiddleFirst : PointCloud :=
  { points_ := [px, Vector3.zero, ⟨0, 1, 0⟩], normals_ := [],
    colors_ := [⟨1 / 255, 1 / 255, 1 / 255⟩, ⟨0, 0, 0⟩, ⟨2 / 255, 2 / 255, 2 / 255⟩] }

/-- The same three points with the same colours, the first two exchanged: the first colour is
black. -/
def greysBlackFirst : PointCloud :=
  { points_ := [Vector3.zero, px, ⟨0, 1, 0⟩], normals_ := [],
    colors_ := [⟨0, 0, 0⟩, ⟨1 / 255, 1 / 255, 1 / 255⟩, ⟨2 / 255, 2 / 255, 2 / 255⟩] }

/-- A sample listing of the resource directory "/res", in ascending order: a file whose name
holds "_ibl.ktx" twice, the file "ab", whose path has seven characters, and the default
map. -/
def listing : List String := ["/res/a_ibl.ktx_ibl.ktx", "/res/ab", "/res/default_ibl.ktx"]

/-- The sample world with that listing as the content of the resource directory. -/
def envListing : Env := { env with resourceFiles := listing }

end Examples

/-! ## Theorems -/

/-! ### `SmartMode::PointCloudHasUniformColor` -/

namespace SmartMode

lemma kSqEpsilon_eq : kSqEpsilon = 3 * (1 / 255) ^ 2 := by
  norm_num [kSqEpsilon, e, Vector3.squaredNorm]

lemma squaredNorm_sub_comm (a b : Vector3) :
    (a.sub b).squaredNorm = (b.sub a).squaredNorm := by
  simp only [Vector3.sub, Vector3.squaredNorm]
  ring

lemma squaredNorm_sub_self (a : Vector3) : (a.sub a).squaredNorm = 0 := by
  simp [Vector3.sub, Vector3.squaredNorm]

lemma uniformColorLoop_eq_true_iff (color : Vector3) (cs : List Vector3) :
    uniformColorLoop color cs = true ↔
      ∀ c ∈ cs, (color.sub c).squaredNorm ≤ kSqEpsilon := by
  induction cs with
  | nil => simp [uniformColorLoop]
  | cons c rest ih =>
    by_cases h : (color.sub c).squaredNorm > kSqEpsilon
    · simp only [uniformColorLoop, h, if_true, List.mem_cons, forall_eq_or_imp]
      constructor
      · intro hf
        exact absurd hf (by simp)
      · intro hall
        exact absurd hall.1 (not_le.mpr h)
    · simp only [uniformColorLoop, h, if_false, List.mem_cons, forall_eq_or_imp, ih]
      constructor
      · intro hall
        exact ⟨not_lt.mp h, hall⟩
      · intro hall
        exact hall.2

lemma hasColors_cons (pcd : PointCloud) (h : pcd.HasColors = true) :
    ∃ c0 rest, pcd.colors_ = c0 :: rest := by
  simp only [PointCloud.HasColors, Bool.and_eq_true, decide_eq_true_eq] at h
  cases hc : pcd.colors_ with
  | nil =>
    rw [hc] at h
    simp only [List.length_nil] at h
    omega
  | cons c0 rest => exact ⟨c0, rest, rfl⟩

/-- C2: `PointCloudHasUniformColor` returns true for a cloud without colours; for a cloud
with colours, whose first colour is `c0`, it returns true exactly when every colour `c` of
the cloud has `|c - c0|^2 <= 3 * (1/255)^2`, so it returns false once one colour is farther
from the first than that, and it returns true when all colours are the same. -/
theorem pointCloudHasUniformColor_spec (pcd : PointCloud) :
    (pcd.HasColors = false → PointCloudHasUniformColor pcd = true) ∧
    (pcd.HasColors = true →
      ∃ c0 rest, pcd.colors_ = c0 :: rest ∧
        (PointCloudHasUniformColor pcd = true ↔
          ∀ c ∈ pcd.colors_, (c.sub c0).squaredNorm ≤ 3 * (1 / 255) ^ 2) ∧
        ((∃ c ∈ pcd.colors_, (c.sub c0).squaredNorm > 3 * (1 / 255) ^ 2) →
          PointCloudHasUniformColor pcd = false) ∧
        ((∀ c ∈ pcd.colors_, c = c0) → PointCloudHasUniformColor pcd = true)) := by
  refine ⟨fun h => by simp [PointCloudHasUniformColor, h], fun h => ?_⟩
  obtain ⟨c0, rest, hc⟩ := hasColors_cons pcd h
  have hiff : PointCloudHasUniformColor pcd = true ↔
      ∀ c ∈ pcd.colors_, (c.sub c0).squaredNorm ≤ 3 * (1 / 255) ^ 2 := by
    have hdef : PointCloudHasUniformColor pcd = uniformColorLoop c0 pcd.colors_ := by
      simp [PointCloudHasUniformColor, h, hc]
    rw [hdef, uniformColorLoop_eq_true_iff, kSqEpsilon_eq]
    constructor
    · intro hall c hmem
      rw [squaredNorm_sub_comm]
      exact hall c hmem
    · intro hall c hmem
      rw [squaredNorm_sub_comm]
      exact hall c hmem
  refine ⟨c0, rest, hc, hiff, ?_, ?_⟩
  · rintro ⟨c, hmem, hgt⟩
    cases hres : PointCloudHasUniformColor pcd with
    | false => rfl
    | true => exact absurd (hiff.mp hres c hmem) (not_le.mpr hgt)
  · intro hall
    refine hiff.mpr (fun c hmem => ?_)
    rw [hall c hmem, squaredNorm_sub_self]
    norm_num

end SmartMode

/-! ### Loading the indirect light and applying a profile -/

namespace Impl

lemma SetIBLSkybox_shape (env : Env) (s : State) (iblPath : String) :
      SetIBLSkybox env s iblPath =
        { s with
          renderer := { s.renderer with
            lastId := (SetIBLSkybox env s iblPath).renderer.lastId },
          settings := { s.settings with hSky := (SetIBLSkybox env s iblPath).settings.hSky },
          scene := { s.scene with
            skyboxHandle := (SetIBLSkybox env s iblPath).scene.skyboxHandle,
            skyboxIsOn := (SetIBLSkybox env s iblPath).scene.skyboxIsOn,
            scene3d := { s.scene.scene3d with
              skybox := (SetIBLSkybox env s iblPath).scene.scene3d.skybox } } } := by
  unfold SetIBLSkybox Renderer.AddSkybox Renderer.loadAsset
  dsimp only
  split_ifs <;> rfl

lemma SetIBLSkybox_lastId (env : Env) (s : State) (iblPath : String) :
    s.renderer.lastId ≤ (SetIBLSkybox env s iblPath).renderer.lastId := by
  unfold SetIBLSkybox Renderer.AddSkybox Renderer.loadAsset
  dsimp only
  split_ifs <;>
    (try dsimp only [State.onSettings, State.onScene3d, SceneWidget.SetSkyboxHandle]) <;> omega

lemma SetIBL_of_loads (env : Env) (s : State) (path : Option String)
    (h : env.indirectLightLoads (iblPathOf env path) = true) :
    SetIBL env s path =
      (true, SetIBLSkybox env
        { s with
          renderer := { s.renderer with lastId := s.renderer.lastId + 1 },
          settings := { s.settings with hIbl := s.renderer.lastId + 1 },
          scene := { s.scene with
            scene3d := { s.scene.scene3d with
              indirectLight := s.renderer.lastId + 1,
              indirectLightIntensity := s.scene.scene3d.indirectLightIntensity } } }
        (iblPathOf env path)) := by
  unfold SetIBL Renderer.AddIndirectLight Renderer.loadAsset
  simp only [h, if_true, isValid, kBad]
  rw [if_pos (by simp)]
  rfl

lemma SetIBL_of_not_loads (env : Env) (s : State) (path : Option String)
    (h : env.indirectLightLoads (iblPathOf env path) = false) :
    SetIBL env s path = (false, s) := by
  unfold SetIBL Renderer.AddIndirectLight Renderer.loadAsset
  simp only [h, isValid, kBad]
  rfl

lemma SetIBL_shape (env : Env) (s : State) (path : Option String) :
    (SetIBL env s path).2 =
      { s with
        renderer := { s.renderer with lastId := (SetIBL env s path).2.renderer.lastId },
        settings := { s.settings with
          hIbl := (SetIBL env s path).2.settings.hIbl,
          hSky := (SetIBL env s path).2.settings.hSky },
        scene := { s.scene with
          skyboxHandle := (SetIBL env s path).2.scene.skyboxHandle,
          skyboxIsOn := (SetIBL env s path).2.scene.skyboxIsOn,
          scene3d := { s.scene.scene3d with
            indirectLight := (SetIBL env s path).2.scene.scene3d.indirectLight,
            indirectLightIntensity :=
              (SetIBL env s path).2.scene.scene3d.indirectLightIntensity,
            skybox := (SetIBL env s path).2.scene.scene3d.skybox } } } := by
  cases h : env.indirectLightLoads (iblPathOf env path)
  · rw [SetIBL_of_not_loads env s path h]
  · rw [SetIBL_of_loads env s path h]
    dsimp only
    rw [SetIBLSkybox_shape]

lemma SetIBL_lastId (env : Env) (s : State) (path : Option String) :
    s.renderer.lastId ≤ (SetIBL env s path).2.renderer.lastId := by
  cases h : env.indirectLightLoads (iblPathOf env path)
  · rw [SetIBL_of_not_loads env s path h]
  · rw [SetIBL_of_loads env s path h]
    refine le_trans ?_ (SetIBLSkybox_lastId _ _ _)
    dsimp only
    omega

lemma SetLightingProfileDefaultIBL_shape (env : Env) (s : State) (p : LightingProfile) :
    SetLightingProfileDefaultIBL env s p =
      { s with
        renderer := { s.renderer with
          lastId := (SetLightingProfileDefaultIBL env s p).renderer.lastId },
        settings := { s.settings with
          hIbl := (SetLightingProfileDefaultIBL env s p).settings.hIbl,
          hSky := (SetLightingProfileDefaultIBL env s p).settings.hSky,
          wgtIBLs := (SetLightingProfileDefaultIBL env s p).settings.wgtIBLs },
        scene := { s.scene with
          skyboxHandle := (SetLightingProfileDefaultIBL env s p).scene.skyboxHandle,
          skyboxIsOn := (SetLightingProfileDefaultIBL env s p).scene.skyboxIsOn,
          scene3d := { s.scene.scene3d with
            indirectLight := (SetLightingProfileDefaultIBL env s p).scene.scene3d.indirectLight,
            indirectLightIntensity :=
              (SetLightingProfileDefaultIBL env s p).scene.scene3d.indirectLightIntensity,
            skybox := (SetLightingProfileDefaultIBL env s p).scene.scene3d.skybox } } } := by
  unfold SetLightingProfileDefaultIBL
  cases h : p.useDefaultIBL
  · rfl
  · simp only [if_true]
    rw [SetIBL_shape]
    rfl

lemma SetLightingProfileDefaultIBL_lastId (env : Env) (s : State) (p : LightingProfile) :
    s.renderer.lastId ≤ (SetLightingProfileDefaultIBL env s p).renderer.lastId := by
  unfold SetLightingProfileDefaultIBL
  cases h : p.useDefaultIBL
  · exact le_refl _
  · exact SetIBL_lastId env s none

lemma SetLightingProfile_eq (env : Env) (s : State) (p : LightingProfile) (S : State)
    (hS : S = SetLightingProfileDefaultIBL env s p) :
    SetLightingProfile env s p =
      { S with
        settings := { S.settings with
          wgtIBLs := S.settings.wgtIBLs.SetSelectedValue kDefaultIBL,
          wgtIBLEnabled := ⟨p.iblEnabled⟩,
          wgtSkyEnabled := ⟨false⟩,
          wgtDirectionalEnabled := ⟨p.sunEnabled⟩,
          wgtIBLIntensity := S.settings.wgtIBLIntensity.SetValue p.iblIntensity,
          wgtSunIntensity := S.settings.wgtSunIntensity.SetValue p.sunIntensity,
          wgtSunDir := ⟨p.sunDir⟩,
          wgtSunColor := S.settings.wgtSunColor.SetValue
            (Color.mk p.sunColor.x p.sunColor.y p.sunColor.z 1) },
        scene := { S.scene with
          scene3d := { S.scene.scene3d with
            indirectLight := if p.iblEnabled then S.settings.hIbl else kBad,
            indirectLightIntensity := p.iblIntensity,
            indirectLightRotation := p.iblRotation,
            skybox := kBad,
            lights := Function.update S.scene.scene3d.lights S.settings.hDirectionalLight
              ⟨p.sunEnabled, p.sunIntensity, p.sunDir, p.sunColor⟩ } } } := by
  unfold SetLightingProfile
  rw [← hS]
  cases h2 : p.iblEnabled <;>
    simp [State.onScene3d, State.onSettings, Scene.SetIndirectLight, Scene.SetIndirectLightIntensity,
      Scene.SetIndirectLightRotation, Scene.SetSkybox, Scene.SetLightEnabled,
      Scene.SetLightIntensity, Scene.SetLightDirection, Scene.SetLightColor,
      Checkbox.SetChecked, VectorEdit.SetValue]

lemma SetLightingProfile_shape (env : Env) (s : State) (p : LightingProfile) :
    SetLightingProfile env s p =
      { s with
        renderer := { s.renderer with lastId := (SetLightingProfile env s p).renderer.lastId },
        settings := { s.settings with
          hIbl := (SetLightingProfile env s p).settings.hIbl,
          hSky := (SetLightingProfile env s p).settings.hSky,
          wgtIBLs := (SetLightingProfile env s p).settings.wgtIBLs,
          wgtIBLEnabled := ⟨p.iblEnabled⟩,
          wgtSkyEnabled := ⟨false⟩,
          wgtDirectionalEnabled := ⟨p.sunEnabled⟩,
          wgtIBLIntensity := s.settings.wgtIBLIntensity.SetValue p.iblIntensity,
          wgtSunIntensity := s.settings.wgtSunIntensity.SetValue p.sunIntensity,
          wgtSunDir := ⟨p.sunDir⟩,
          wgtSunColor := s.settings.wgtSunColor.SetValue
            (Color.mk p.sunColor.x p.sunColor.y p.sunColor.z 1) },
        scene := { s.scene with
          skyboxHandle := (SetLightingProfile env s p).scene.skyboxHandle,
          skyboxIsOn := (SetLightingProfile env s p).scene.skyboxIsOn,
          scene3d := { s.scene.scene3d with
            indirectLight :=
              if p.iblEnabled then (SetLightingProfile env s p).settings.hIbl else kBad,
            indirectLightIntensity := p.iblIntensity,
            indirectLightRotation := p.iblRotation,
            skybox := kBad,
            lights := Function.update s.scene.scene3d.lights s.settings.hDirectionalLight
              ⟨p.sunEnabled, p.sunIntensity, p.sunDir, p.sunColor⟩ } } } := by
  rw [SetLightingProfile_eq env s p _ rfl, SetLightingProfileDefaultIBL_shape]

lemma SetLightingProfile_lastId (env : Env) (s : State) (p : LightingProfile) :
    s.renderer.lastId ≤ (SetLightingProfile env s p).renderer.lastId := by
  rw [SetLightingProfile_eq env s p _ rfl]
  exact SetLightingProfileDefaultIBL_lastId env s p

end Impl

lemma roundHalfAway_natCast (n : ℕ) : roundHalfAway (n : ℚ) = n := by
  unfold roundHalfAway
  rw [if_pos (Nat.cast_nonneg n)]
  have h : Int.floor ((n : ℚ) + 1 / 2) = (n : ℤ) := by
    rw [Int.floor_eq_iff]
    constructor
    · push_cast
      linarith
    · push_cast
      linarith
  rw [h]
  simp

lemma Slider.SetValue_value_natCast (w : Slider) (n : ℕ)
    (hlo : w.minValue ≤ n) (hhi : (n : ℚ) ≤ w.maxValue) :
    (w.SetValue n).value = n := by
  unfold Slider.SetValue
  have hc : max w.minValue (min w.maxValue (n : ℚ)) = n := by
    rw [min_eq_right hhi, max_eq_right hlo]
  cases ht : w.type <;> simp only [hc, roundHalfAway_natCast]

lemma Slider.SetValue_limits (w : Slider) (v : ℚ) :
    (w.SetValue v).minValue = w.minValue ∧ (w.SetValue v).maxValue = w.maxValue := ⟨rfl, rfl⟩

/-- Every preset intensity is a natural number inside the limits of its slider. -/
lemma preset_intensities (p : LightingProfile) (hp : p ∈ gLightingProfiles) :
    ∃ a b : ℕ, p.iblIntensity = a ∧ p.sunIntensity = b ∧ (a : ℚ) ≤ 150000 ∧ (b : ℚ) ≤ 500000 := by
  simp only [gLightingProfiles, List.mem_cons, List.mem_singleton, List.not_mem_nil,
    or_false] at hp
  rcases hp with rfl | rfl | rfl | rfl | rfl | rfl | rfl
  · exact ⟨100000, 100000, by norm_num, by norm_num, by norm_num, by norm_num⟩
  · exact ⟨100000, 100000, by norm_num, by norm_num, by norm_num, by norm_num⟩
  · exact ⟨100000, 100000, by norm_num, by norm_num, by norm_num, by norm_num⟩
  · exact ⟨75000, 100000, by norm_num, by norm_num, by norm_num, by norm_num⟩
  · exact ⟨75000, 100000, by norm_num, by norm_num, by norm_num, by norm_num⟩
  · exact ⟨75000, 100000, by norm_num, by norm_num, by norm_num, by norm_num⟩
  · exact ⟨60000, 100000, by norm_num, by norm_num, by norm_num, by norm_num⟩

/-- Applying a profile to a window whose sliders have room for its intensities makes the
widgets show the profile. -/
lemma SetLightingProfile_widgetsShow (env : Env) (s : State) (p : LightingProfile)
    (hp : p ∈ gLightingProfiles)
    (hibl : s.settings.wgtIBLIntensity.minValue = 0 ∧ s.settings.wgtIBLIntensity.maxValue = 150000)
    (hsun : s.settings.wgtSunIntensity.minValue = 0 ∧ s.settings.wgtSunIntensity.maxValue = 500000) :
    WidgetsShow (Impl.SetLightingProfile env s p) p := by
  obtain ⟨a, b, ha, hb, ha2, hb2⟩ := preset_intensities p hp
  rw [Impl.SetLightingProfile_shape]
  refine ⟨rfl, rfl, ?_, ?_, rfl, rfl, rfl⟩
  · show (s.settings.wgtIBLIntensity.SetValue p.iblIntensity).value = p.iblIntensity
    rw [ha]
    apply Slider.SetValue_value_natCast
    · rw [hibl.1]; exact Nat.cast_nonneg a
    · rw [hibl.2]; exact ha2
  · show (s.settings.wgtSunIntensity.SetValue p.sunIntensity).value = p.sunIntensity
    rw [hb]
    apply Slider.SetValue_value_natCast
    · rw [hsun.1]; exact Nat.cast_nonneg b
    · rw [hsun.2]; exact hb2

lemma SetLightingProfile_rendererShows (env : Env) (s : State) (p : LightingProfile) :
    RendererShows (Impl.SetLightingProfile env s p) p := by
  rw [Impl.SetLightingProfile_shape]
  refine ⟨rfl, rfl, rfl, rfl, ?_⟩
  show Function.update s.scene.scene3d.lights s.settings.hDirectionalLight _
    s.settings.hDirectionalLight = _
  rw [Function.update_same]

/-- C9: for every profile `p` of `gLightingProfiles`, after `SetLightingProfile(p)` on a
window whose two intensity sliders have the limits `[0, 150000]` and `[0, 500000]` given
by the constructor, the widgets read back the values of `p`: the HDR-map checkbox is
`p.iblEnabled`, the Sun checkbox is `p.sunEnabled`, the two sliders hold `p.iblIntensity`
and `p.sunIntensity` exactly, the direction editor holds `p.sunDir`, the colour editor
holds `p.sunColor`, and the skymap checkbox is unchecked; both intensities of `p` lie
inside the limits of their slider. -/
theorem setLightingProfile_roundTrip (env : Env) (s : State) (p : LightingProfile)
    (hp : p ∈ gLightingProfiles)
    (hibl : s.settings.wgtIBLIntensity.minValue = 0 ∧ s.settings.wgtIBLIntensity.maxValue = 150000)
    (hsun : s.settings.wgtSunIntensity.minValue = 0 ∧ s.settings.wgtSunIntensity.maxValue = 500000) :
    (Impl.SetLightingProfile env s p).settings.wgtIBLEnabled.IsChecked = p.iblEnabled ∧
    (Impl.SetLightingProfile env s p).settings.wgtDirectionalEnabled.IsChecked = p.sunEnabled ∧
    (Impl.SetLightingProfile env s p).settings.wgtIBLIntensity.GetDoubleValue = p.iblIntensity ∧
    (Impl.SetLightingProfile env s p).settings.wgtSunIntensity.GetDoubleValue = p.sunIntensity ∧
    (Impl.SetLightingProfile env s p).settings.wgtSunDir.value = p.sunDir ∧
    (Impl.SetLightingProfile env s p).settings.wgtSunColor.value =
      ⟨p.sunColor.x, p.sunColor.y, p.sunColor.z, 1⟩ ∧
    (Impl.SetLightingProfile env s p).settings.wgtSkyEnabled.IsChecked = false ∧
    (0 ≤ p.iblIntensity ∧ p.iblIntensity ≤ 150000) ∧
    (0 ≤ p.sunIntensity ∧ p.sunIntensity ≤ 500000) := by
  obtain ⟨h1, h2, h3, h4, h5, h6, h7⟩ := SetLightingProfile_widgetsShow env s p hp hibl hsun
  obtain ⟨a, b, ha, hb, ha2, hb2⟩ := preset_intensities p hp
  refine ⟨h1, h2, h3, h4, h5, h6, h7, ⟨?_, ?_⟩, ⟨?_, ?_⟩⟩
  · rw [ha]; exact Nat.cast_nonneg a
  · rw [ha]; exact ha2
  · rw [hb]; exact Nat.cast_nonneg b
  · rw [hb]; exact hb2

namespace Impl

lemma SetLightingProfileScan_cases (env : Env) (s : State) (name : String)
    (table : List LightingProfile) :
    (∃ p ∈ table, p.name = name ∧
      SetLightingProfileScan env s name table =
        (SetLightingProfile env s p).onSettings (fun st =>
          { st with wgtLightingProfile := st.wgtLightingProfile.SetSelectedValue name })) ∨
    ((∀ p ∈ table, p.name ≠ name) ∧
      SetLightingProfileScan env s name table =
        s.log (Call.LogWarning ("Could not find lighting profile " ++ name))) := by
  induction table with
  | nil => exact Or.inr ⟨by simp, rfl⟩
  | cons p rest ih =>
    by_cases h : p.name = name
    · left
      refine ⟨p, List.mem_cons_self _ _, h, ?_⟩
      simp only [SetLightingProfileScan, h, if_true]
    · rcases ih with ⟨q, hq, hqn, heq⟩ | ⟨hall, heq⟩
      · left
        refine ⟨q, List.mem_cons_of_mem _ hq, hqn, ?_⟩
        simp only [SetLightingProfileScan, h, if_false, heq]
      · right
        refine ⟨?_, ?_⟩
        · intro r hr
          rcases List.mem_cons.mp hr with rfl | hr
          · exact h
          · exact hall r hr
        · simp only [SetLightingProfileScan, h, if_false, heq]

end Impl

lemma selector_shows_named (w : Combobox) (p : LightingProfile) (hp : p ∈ gLightingProfiles)
    (hitems : w.items = GuiVisualizer.lightingProfileItems.items) :
    (w.SetSelectedValue p.name).GetSelectedValue = some p.name ∧
    (w.SetSelectedValue p.name).items = GuiVisualizer.lightingProfileItems.items := by
  obtain ⟨items, idx, en⟩ := w
  simp only at hitems
  subst hitems
  simp only [gLightingProfiles, List.mem_cons, List.mem_singleton, List.not_mem_nil,
    or_false] at hp
  rcases hp with rfl | rfl | rfl | rfl | rfl | rfl | rfl <;> exact ⟨rfl, rfl⟩

lemma selector_custom (w : Combobox)
    (hitems : w.items = GuiVisualizer.lightingProfileItems.items) :
    (w.SetSelectedIndex gLightingProfiles.length).GetSelectedIndex = gLightingProfiles.length ∧
    (w.SetSelectedIndex gLightingProfiles.length).GetSelectedValue = some "Custom" := by
  obtain ⟨items, idx, en⟩ := w
  simp only at hitems
  subst hitems
  exact ⟨rfl, rfl⟩

lemma SetLightingProfileNamed_selector (env : Env) (s : State) (p : LightingProfile)
    (hp : p ∈ gLightingProfiles) :
    (Impl.SetLightingProfileNamed env s p.name).settings.wgtLightingProfile =
      s.settings.wgtLightingProfile.SetSelectedValue p.name := by
  unfold Impl.SetLightingProfileNamed
  rcases Impl.SetLightingProfileScan_cases env (s.log (Call.SetLightingProfile p.name)) p.name
    gLightingProfiles with ⟨q, _, _, heq⟩ | ⟨hall, _⟩
  · rw [heq]
    rw [Impl.SetLightingProfile_shape]
    rfl
  · exact absurd rfl (hall p hp)

/-- C10: on a window whose lighting-profile selector holds the items the constructor gave
it, after the named profile `p` of the table has been applied (the selector then shows
`p.name`), each handler of a lighting control of the advanced panel (HDR-map checkbox, Sun
checkbox, IBL-intensity slider, sun-intensity slider, sun-direction editor, mouse-driven
sun rotation, sun-colour editor) leaves the selector at index `gLightingProfiles.size()`,
which is 7 and is the index of the item "Custom". -/
theorem lighting_handlers_select_custom (env : Env) (s0 : State) (p : LightingProfile)
    (hp : p ∈ gLightingProfiles)
    (hitems : s0.settings.wgtLightingProfile.items = GuiVisualizer.lightingProfileItems.items) :
    (Impl.SetLightingProfileNamed env s0 p.name).settings.wgtLightingProfile.GetSelectedValue
      = some p.name ∧
    gLightingProfiles.length = 7 ∧
    GuiVisualizer.lightingProfileItems.items.get? 7 = some "Custom" ∧
    (∀ checked, ShowsCustom (GuiVisualizer.wgtIBLEnabled_OnChecked env
      (Impl.SetLightingProfileNamed env s0 p.name) checked)) ∧
    (∀ checked, ShowsCustom (GuiVisualizer.wgtDirectionalEnabled_OnChecked
      (Impl.SetLightingProfileNamed env s0 p.name) checked)) ∧
    (∀ newValue, ShowsCustom (GuiVisualizer.wgtIBLIntensity_OnValueChanged
      (Impl.SetLightingProfileNamed env s0 p.name) newValue)) ∧
    (∀ newValue, ShowsCustom (GuiVisualizer.wgtSunIntensity_OnValueChanged
      (Impl.SetLightingProfileNamed env s0 p.name) newValue)) ∧
    (∀ dir, ShowsCustom (GuiVisualizer.setSunDir env
      (Impl.SetLightingProfileNamed env s0 p.name) dir)) ∧
    (∀ newDir, ShowsCustom (GuiVisualizer.SelectDirectionalLight_OnDirChanged
      (Impl.SetLightingProfileNamed env s0 p.name) newDir)) ∧
    (∀ newColor, ShowsCustom (GuiVisualizer.wgtSunColor_OnValueChanged
      (Impl.SetLightingProfileNamed env s0 p.name) newColor)) := by
  have hsel := SetLightingProfileNamed_selector env s0 p hp
  have hnamed := selector_shows_named s0.settings.wgtLightingProfile p hp hitems
  have hitems1 : (Impl.SetLightingProfileNamed env s0 p.name).settings.wgtLightingProfile.items =
      GuiVisualizer.lightingProfileItems.items := by rw [hsel]; exact hnamed.2
  have hcustom := selector_custom _ hitems1
  refine ⟨by rw [hsel]; exact hnamed.1, rfl, rfl, ?_, ?_, ?_, ?_, ?_, ?_, ?_⟩
  · intro checked
    cases checked <;> exact hcustom
  all_goals
    intro _
    exact hcustom

/-! ### The loop of `SetGeometry` -/

/-- The pair of material instances an iteration creates when the renderer has handed out
`base` ids so far. -/
lemma SetMaterialsDefaults_fst (m : Materials) (r : Renderer) :
    (Impl.SetMaterialsDefaults m r).1 = m := rfl

lemma SetMaterialsDefaults_lastId (m : Materials) (r : Renderer) :
    (Impl.SetMaterialsDefaults m r).2.lastId = r.lastId := rfl

namespace GuiVisualizer

lemma selectMaterial_fst (g : Geometry) (m : Materials) (n : Nat) :
    (selectMaterial g m n).1 = n + (if g.GetGeometryType = GeometryType.PointCloud then 1 else 0) := by
  cases g with
  | pointCloud pcd =>
    simp only [selectMaterial, Geometry.GetGeometryType, if_true]
    split_ifs <;> rfl
  | lineSet ls => rfl
  | triangleMesh mesh =>
    simp only [selectMaterial, Geometry.GetGeometryType, reduceCtorEq, if_false]
    split_ifs <;> rfl
  | other tag => rfl

lemma selectMaterial_material (g : Geometry) (m : Materials) (n : Nat)
    (hg : g.GetGeometryType = GeometryType.PointCloud ∨ g.GetGeometryType = GeometryType.LineSet ∨
      g.GetGeometryType = GeometryType.TriangleMesh) :
    (selectMaterial g m n).2.1 = if wantsUnlit g then m.unlit.handle else m.lit.handle := by
  cases g with
  | pointCloud pcd =>
    simp only [selectMaterial, wantsUnlit]
    split_ifs <;> simp_all
  | lineSet ls => rfl
  | triangleMesh mesh =>
    simp only [selectMaterial, wantsUnlit]
    split_ifs <;> simp_all
  | other tag => simp [Geometry.GetGeometryType] at hg

lemma selectMaterial_warning (g : Geometry) (m : Materials) (n : Nat) :
    (selectMaterial g m n).2.2 = none ∨ ∃ msg, (selectMaterial g m n).2.2 = some (Call.LogWarning msg) := by
  cases g with
  | pointCloud pcd =>
    left
    simp only [selectMaterial]
    split_ifs <;> rfl
  | lineSet ls => exact Or.inl rfl
  | triangleMesh mesh =>
    left
    simp only [selectMaterial]
    split_ifs <;> rfl
  | other tag => exact Or.inr ⟨_, rfl⟩

/-- The pair of material instances created by an iteration that starts with the renderer
counter at `base`. -/
lemma SetGeometryAdd_materials (env : Env) (l : SetGeometryLoop) (g : Geometry) :
    (SetGeometryAdd env l g).materials =
      { lit := { handle := l.state.renderer.lastId + 1 },
        unlit := { handle := l.state.renderer.lastId + 1 + 1 } } := rfl

lemma SetGeometryAdd_handle (env : Env) (l : SetGeometryLoop) (g : Geometry) :
    (SetGeometryAdd env l g).handle = l.state.scene.scene3d.lastId + 1 := rfl

lemma SetGeometryAdd_nPointClouds (env : Env) (l : SetGeometryLoop) (g : Geometry) :
    (SetGeometryAdd env l g).nPointClouds =
      l.nPointClouds + (if g.GetGeometryType = GeometryType.PointCloud then 1 else 0) := by
  rw [← selectMaterial_fst g (SetGeometryAdd env l g).materials]
  rfl

lemma SetGeometryAdd_selectedMaterial (env : Env) (l : SetGeometryLoop) (g : Geometry) :
    (SetGeometryAdd env l g).selectedMaterial =
      (selectMaterial g (SetGeometryAdd env l g).materials l.nPointClouds).2.1 := rfl

lemma SetGeometryAdd_state (env : Env) (l : SetGeometryLoop) (g : Geometry) :
    (SetGeometryAdd env l g).state =
      { l.state with
        renderer := { l.state.renderer with
          lastId := l.state.renderer.lastId + 2,
          materialInstances := (SetGeometryAdd env l g).state.renderer.materialInstances },
        calls := l.state.calls ++
          (selectMaterial g (SetGeometryAdd env l g).materials l.nPointClouds).2.2.toList ++
          [Call.AddGeometry g (some (SetGeometryAdd env l g).selectedMaterial)],
        geometryHandles := l.state.geometryHandles ++ [l.state.scene.scene3d.lastId + 1],
        scene := { l.state.scene with
          scene3d := { l.state.scene.scene3d with
            lastId := l.state.scene.scene3d.lastId + 1,
            geometries := l.state.scene.scene3d.geometries ++
              [⟨l.state.scene.scene3d.lastId + 1, g,
                some (SetGeometryAdd env l g).selectedMaterial, true, true, true⟩] } },
        settings := { l.state.settings with
          wgtMaterialType := (SetGeometryAdd env l g).state.settings.wgtMaterialType,
          wgtPrefabMaterial := (SetGeometryAdd env l g).state.settings.wgtPrefabMaterial } } := by
  unfold SetGeometryAdd
  dsimp only
  split_ifs <;> rfl

end GuiVisualizer

namespace Impl

lemma SetLightingProfileNamed_shape (env : Env) (s : State) (name : String) :
    SetLightingProfileNamed env s name =
      { s with
        renderer := { s.renderer with
          lastId := (SetLightingProfileNamed env s name).renderer.lastId },
        calls := (SetLightingProfileNamed env s name).calls,
        settings := { s.settings with
          hIbl := (SetLightingProfileNamed env s name).settings.hIbl,
          hSky := (SetLightingProfileNamed env s name).settings.hSky,
          wgtLightingProfile := (SetLightingProfileNamed env s name).settings.wgtLightingProfile,
          wgtIBLs := (SetLightingProfileNamed env s name).settings.wgtIBLs,
          wgtIBLEnabled := (SetLightingProfileNamed env s name).settings.wgtIBLEnabled,
          wgtSkyEnabled := (SetLightingProfileNamed env s name).settings.wgtSkyEnabled,
          wgtDirectionalEnabled :=
            (SetLightingProfileNamed env s name).settings.wgtDirectionalEnabled,
          wgtIBLIntensity := (SetLightingProfileNamed env s name).settings.wgtIBLIntensity,
          wgtSunIntensity := (SetLightingProfileNamed env s name).settings.wgtSunIntensity,
          wgtSunDir := (SetLightingProfileNamed env s name).settings.wgtSunDir,
          wgtSunColor := (SetLightingProfileNamed env s name).settings.wgtSunColor },
        scene := { s.scene with
          skyboxHandle := (SetLightingProfileNamed env s name).scene.skyboxHandle,
          skyboxIsOn := (SetLightingProfileNamed env s name).scene.skyboxIsOn,
          scene3d := { s.scene.scene3d with
            indirectLight := (SetLightingProfileNamed env s name).scene.scene3d.indirectLight,
            indirectLightIntensity :=
              (SetLightingProfileNamed env s name).scene.scene3d.indirectLightIntensity,
            indirectLightRotation :=
              (SetLightingProfileNamed env s name).scene.scene3d.indirectLightRotation,
            skybox := (SetLightingProfileNamed env s name).scene.scene3d.skybox,
            lights := (SetLightingProfileNamed env s name).scene.scene3d.lights } } } := by
  unfold SetLightingProfileNamed
  rcases SetLightingProfileScan_cases env (s.log (Call.SetLightingProfile name)) name
    gLightingProfiles with ⟨q, _, _, heq⟩ | ⟨_, heq⟩
  · rw [heq, SetLightingProfile_shape]
    rfl
  · rw [heq]
    rfl

lemma SetLightingProfileNamed_calls (env : Env) (s : State) (name : String) :
    ∃ w, (SetLightingProfileNamed env s name).calls = s.calls ++ Call.SetLightingProfile name :: w ∧
      (w = [] ∨ ∃ msg, w = [Call.LogWarning msg]) := by
  unfold SetLightingProfileNamed
  rcases SetLightingProfileScan_cases env (s.log (Call.SetLightingProfile name)) name
    gLightingProfiles with ⟨q, _, _, heq⟩ | ⟨_, heq⟩
  · refine ⟨[], ?_, Or.inl rfl⟩
    rw [heq, SetLightingProfile_shape]
    rfl
  · refine ⟨[Call.LogWarning ("Could not find lighting profile " ++ name)], ?_,
      Or.inr ⟨_, rfl⟩⟩
    rw [heq]
    simp [State.log]

lemma SetLightingProfileNamed_lastId (env : Env) (s : State) (name : String) :
    s.renderer.lastId ≤ (SetLightingProfileNamed env s name).renderer.lastId := by
  unfold SetLightingProfileNamed
  rcases SetLightingProfileScan_cases env (s.log (Call.SetLightingProfile name)) name
    gLightingProfiles with ⟨q, _, _, heq⟩ | ⟨_, heq⟩
  · rw [heq]
    exact SetLightingProfile_lastId env (s.log (Call.SetLightingProfile name)) q
  · rw [heq]
    exact le_refl _

end Impl

namespace GuiVisualizer

lemma SetGeometryStep_nPointClouds (env : Env) (size : Nat) (l : SetGeometryLoop) (g : Geometry) :
    (SetGeometryStep env size l g).nPointClouds =
      l.nPointClouds + (if g.GetGeometryType = GeometryType.PointCloud then 1 else 0) :=
  SetGeometryAdd_nPointClouds env l g

lemma SetGeometryStep_state_of_ne (env : Env) (size : Nat) (l : SetGeometryLoop) (g : Geometry)
    (h : (SetGeometryAdd env l g).nPointClouds ≠ size) :
    (SetGeometryStep env size l g).state =
      { (SetGeometryAdd env l g).state with
        settings := { (SetGeometryAdd env l g).state.settings with
          wgtPointSize := (SetGeometryAdd env l g).state.settings.wgtPointSize.SetEnabled
            (decide ((SetGeometryAdd env l g).nPointClouds > 0)) },
        geometryMaterials := emplace (SetGeometryAdd env l g).state.geometryMaterials
          (SetGeometryAdd env l g).handle (SetGeometryAdd env l g).materials } := by
  unfold SetGeometryStep
  dsimp only
  rw [if_neg h]
  rfl

lemma SetGeometryStep_state_of_eq (env : Env) (size : Nat) (l : SetGeometryLoop) (g : Geometry)
    (h : (SetGeometryAdd env l g).nPointClouds = size) :
    (SetGeometryStep env size l g).state =
      { Impl.SetLightingProfileNamed env (SetGeometryAdd env l g).state kPointCloudProfileName with
        settings := {
          (Impl.SetLightingProfileNamed env (SetGeometryAdd env l g).state
            kPointCloudProfileName).settings with
          wgtPointSize := (Impl.SetLightingProfileNamed env (SetGeometryAdd env l g).state
            kPointCloudProfileName).settings.wgtPointSize.SetEnabled
              (decide ((SetGeometryAdd env l g).nPointClouds > 0)) },
        geometryMaterials := emplace
          (Impl.SetLightingProfileNamed env (SetGeometryAdd env l g).state
            kPointCloudProfileName).geometryMaterials
          (SetGeometryAdd env l g).handle (SetGeometryAdd env l g).materials } := by
  unfold SetGeometryStep
  dsimp only
  rw [if_pos h]
  generalize Impl.SetLightingProfileNamed env (SetGeometryAdd env l g).state
    kPointCloudProfileName = N
  rfl

/-- What a call of `SetLightingProfile(renderer, name)` leaves alone. -/
lemma SetLightingProfileNamed_frame (env : Env) (s : State) (name : String) :
    (Impl.SetLightingProfileNamed env s name).geometryMaterials = s.geometryMaterials ∧
    (Impl.SetLightingProfileNamed env s name).geometryHandles = s.geometryHandles ∧
    (Impl.SetLightingProfileNamed env s name).scene.scene3d.lastId = s.scene.scene3d.lastId ∧
    (Impl.SetLightingProfileNamed env s name).scene.scene3d.geometries =
      s.scene.scene3d.geometries ∧
    (Impl.SetLightingProfileNamed env s name).renderer.materialInstances =
      s.renderer.materialInstances ∧
    (Impl.SetLightingProfileNamed env s name).hLitMaterial = s.hLitMaterial ∧
    (Impl.SetLightingProfileNamed env s name).hUnlitMaterial = s.hUnlitMaterial ∧
    (Impl.SetLightingProfileNamed env s name).scene.viewMode = s.scene.viewMode ∧
    (Impl.SetLightingProfileNamed env s name).settings.wgtPointSize = s.settings.wgtPointSize ∧
    (Impl.SetLightingProfileNamed env s name).settings.hAxes = s.settings.hAxes ∧
    (Impl.SetLightingProfileNamed env s name).settings.hDirectionalLight =
      s.settings.hDirectionalLight := by
  have h := Impl.SetLightingProfileNamed_shape env s name
  have h1 := congrArg State.geometryMaterials h
  have h2 := congrArg State.geometryHandles h
  have h3 := congrArg (fun x => x.scene.scene3d.lastId) h
  have h4 := congrArg (fun x => x.scene.scene3d.geometries) h
  have h5 := congrArg (fun x => x.renderer.materialInstances) h
  have h6 := congrArg State.hLitMaterial h
  have h7 := congrArg State.hUnlitMaterial h
  have h8 := congrArg (fun x => x.scene.viewMode) h
  have h9 := congrArg (fun x => x.settings.wgtPointSize) h
  have h10 := congrArg (fun x => x.settings.hAxes) h
  have h11 := congrArg (fun x => x.settings.hDirectionalLight) h
  exact ⟨h1, h2, h3, h4, h5, h6, h7, h8, h9, h10, h11⟩

end GuiVisualizer

namespace GuiVisualizer



lemma SetGeometryAdd_calls (env : Env) (l : SetGeometryLoop) (g : Geometry) :
    (SetGeometryAdd env l g).state.calls = l.state.calls ++
      ((selectMaterial g (SetGeometryAdd env l g).materials l.nPointClouds).2.2.toList ++
        [Call.AddGeometry g (some (SetGeometryAdd env l g).selectedMaterial)]) := by
  have h := congrArg State.calls (SetGeometryAdd_state env l g)
  rw [h]
  simp

lemma SetGeometryAdd_filters (env : Env) (l : SetGeometryLoop) (g : Geometry) :
    addGeometryCalls (SetGeometryAdd env l g).state.calls =
      addGeometryCalls l.state.calls ++ [(g, some (SetGeometryAdd env l g).selectedMaterial)] ∧
    setLightingProfileCalls (SetGeometryAdd env l g).state.calls =
      setLightingProfileCalls l.state.calls ∧
    setGeometryCalls (SetGeometryAdd env l g).state.calls = setGeometryCalls l.state.calls ∧
    readPointCloudCalls (SetGeometryAdd env l g).state.calls =
      readPointCloudCalls l.state.calls := by
  rw [SetGeometryAdd_calls]
  rcases selectMaterial_warning g (SetGeometryAdd env l g).materials l.nPointClouds with h | ⟨m, h⟩ <;>
    rw [h] <;>
    simp [addGeometryCalls, setLightingProfileCalls, setGeometryCalls, readPointCloudCalls,
      List.filterMap_append]

lemma SetGeometryAdd_lighting (env : Env) (l : SetGeometryLoop) (g : Geometry) :
    (SetGeometryAdd env l g).state.lighting = l.state.lighting := by
  have h := congrArg State.lighting (SetGeometryAdd_state env l g)
  exact h

lemma SetGeometryStep_quiet (env : Env) (size : Nat) (l : SetGeometryLoop) (g : Geometry)
    (h : (SetGeometryAdd env l g).nPointClouds ≠ size) :
    (SetGeometryStep env size l g).state.lighting = l.state.lighting ∧
    (SetGeometryStep env size l g).state.renderer.lastId = l.state.renderer.lastId + 2 ∧
    (SetGeometryStep env size l g).state.calls = (SetGeometryAdd env l g).state.calls := by
  have hs := SetGeometryStep_state_of_ne env size l g h
  have h1 := congrArg State.lighting hs
  have h2 := congrArg (fun x => x.renderer.lastId) hs
  have h3 := congrArg State.calls hs
  have hA := SetGeometryAdd_state env l g
  have h4 := congrArg (fun x => x.renderer.lastId) hA
  exact ⟨h1.trans (SetGeometryAdd_lighting env l g), h2.trans h4, h3⟩

lemma fold_nPointClouds (env : Env) (size : Nat) (xs : List Geometry) (l0 : SetGeometryLoop) :
    (xs.foldl (SetGeometryStep env size) l0).nPointClouds =
      l0.nPointClouds + xs.countP isPointCloud := by
  induction xs generalizing l0 with
  | nil => simp
  | cons g rest ih =>
    rw [List.foldl_cons, ih, SetGeometryStep_nPointClouds, List.countP_cons]
    unfold isPointCloud
    by_cases hg : g.GetGeometryType = GeometryType.PointCloud
    · simp [hg]; omega
    · simp [hg]

/-- A run of iterations none of which reaches `nPointClouds == geometries.size()`. -/
lemma fold_quiet (env : Env) (size : Nat) (xs : List Geometry) (l0 : SetGeometryLoop)
    (h : l0.nPointClouds + xs.countP isPointCloud < size) :
    (xs.foldl (SetGeometryStep env size) l0).state.lighting = l0.state.lighting ∧
    (xs.foldl (SetGeometryStep env size) l0).state.renderer.lastId =
      l0.state.renderer.lastId + 2 * xs.length ∧
    setLightingProfileCalls (xs.foldl (SetGeometryStep env size) l0).state.calls =
      setLightingProfileCalls l0.state.calls := by
  induction xs generalizing l0 with
  | nil => simp
  | cons g rest ih =>
    have hcount : l0.nPointClouds + (if g.GetGeometryType = GeometryType.PointCloud then 1 else 0)
        + rest.countP isPointCloud = l0.nPointClouds + (g :: rest).countP isPointCloud := by
      rw [List.countP_cons]
      unfold isPointCloud
      by_cases hg : g.GetGeometryType = GeometryType.PointCloud
      · simp [hg]; omega
      · simp [hg]
    have hne : (SetGeometryAdd env l0 g).nPointClouds ≠ size := by
      rw [SetGeometryAdd_nPointClouds]
      omega
    obtain ⟨q1, q2, q3⟩ := SetGeometryStep_quiet env size l0 g hne
    have hrest : (SetGeometryStep env size l0 g).nPointClouds + rest.countP isPointCloud < size := by
      rw [SetGeometryStep_nPointClouds]
      omega
    obtain ⟨r1, r2, r3⟩ := ih (SetGeometryStep env size l0 g) hrest
    rw [List.foldl_cons]
    refine ⟨r1.trans q1, ?_, ?_⟩
    · rw [r2, q2, List.length_cons]
      ring
    · rw [r3, q3]
      exact (SetGeometryAdd_filters env l0 g).2.1

lemma fold_removeGeometry_shape (hs : List Nat) (s : State) :
    hs.foldl (fun s h => s.onScene3d (fun sc => sc.RemoveGeometry h)) s =
      { s with scene := { s.scene with scene3d := { s.scene.scene3d with
          geometries := (hs.foldl (fun s h => s.onScene3d (fun sc => sc.RemoveGeometry h))
            s).scene.scene3d.geometries } } } := by
  induction hs generalizing s with
  | nil => rfl
  | cons h rest ih =>
    rw [List.foldl_cons, ih]
    rfl

lemma fold_removeMaterials_shape (ms : List (Nat × Materials)) (s : State) :
    ms.foldl (fun s pair =>
      let renderer := s.renderer.RemoveMaterialInstance pair.2.unlit.handle
      let renderer := renderer.RemoveMaterialInstance pair.2.lit.handle
      { s with renderer := renderer }) s =
      { s with renderer := { s.renderer with
          materialInstances := (ms.foldl (fun s pair =>
            let renderer := s.renderer.RemoveMaterialInstance pair.2.unlit.handle
            let renderer := renderer.RemoveMaterialInstance pair.2.lit.handle
            { s with renderer := renderer }) s).renderer.materialInstances } } := by
  induction ms generalizing s with
  | nil => rfl
  | cons m rest ih =>
    rw [List.foldl_cons, ih]
    rfl

lemma SetGeometryClear_shape (s : State) :
    SetGeometryClear s =
      { s with
        geometryHandles := [],
        geometryMaterials := [],
        renderer := { s.renderer with
          materialInstances := (SetGeometryClear s).renderer.materialInstances },
        scene := { s.scene with scene3d := { s.scene.scene3d with
          geometries := (SetGeometryClear s).scene.scene3d.geometries } } } := by
  unfold SetGeometryClear
  dsimp only
  rw [fold_removeMaterials_shape, fold_removeGeometry_shape]
  split_ifs <;> rfl

lemma SetGeometryAxes_shape (env : Env) (l : SetGeometryLoop) :
    SetGeometryAxes env l =
      { l.state with
        calls := (SetGeometryAxes env l).calls,
        settings := { l.state.settings with hAxes := l.state.scene.scene3d.lastId + 1 },
        scene := { l.state.scene with
          modelAxes := (SetGeometryAxes env l).scene.modelAxes,
          modelObjects := (SetGeometryAxes env l).scene.modelObjects,
          camera := (SetGeometryAxes env l).scene.camera,
          scene3d := { l.state.scene.scene3d with
            lastId := l.state.scene.scene3d.lastId + 1,
            geometries := (SetGeometryAxes env l).scene.scene3d.geometries } } } := rfl

lemma SetGeometryAxes_calls (env : Env) (l : SetGeometryLoop) :
    ∃ axes, (SetGeometryAxes env l).calls =
      l.state.calls ++ [Call.AddGeometry (Geometry.triangleMesh axes) none] := ⟨_, rfl⟩

end GuiVisualizer

namespace GuiVisualizer

lemma SetGeometryIterations_nPointClouds (env : Env) (s : State) (gs : List Geometry) (k : Nat) :
    (SetGeometryIterations env s gs k).nPointClouds = (gs.take k).countP isPointCloud := by
  unfold SetGeometryIterations
  rw [fold_nPointClouds]
  simp

lemma countP_lt_of_not_pointCloud (gs : List Geometry)
    (h : ∃ g ∈ gs, g.GetGeometryType ≠ GeometryType.PointCloud) :
    gs.countP isPointCloud < gs.length := by
  refine lt_of_le_of_ne (List.countP_le_length _) ?_
  intro heq
  rw [List.countP_eq_length] at heq
  obtain ⟨g, hg, hne⟩ := h
  have := heq g hg
  simp [isPointCloud] at this
  exact hne this

lemma SetGeometryClear_lighting (s : State) : (SetGeometryClear s).lighting = s.lighting := by
  have h := congrArg State.lighting (SetGeometryClear_shape s)
  exact h

lemma SetGeometryClear_calls (s : State) : (SetGeometryClear s).calls = s.calls := by
  have h := congrArg State.calls (SetGeometryClear_shape s)
  exact h

lemma SetGeometryClear_lastId (s : State) :
    (SetGeometryClear s).renderer.lastId = s.renderer.lastId := by
  have h := congrArg (fun x => x.renderer.lastId) (SetGeometryClear_shape s)
  exact h

lemma SetGeometryAxes_lighting (env : Env) (l : SetGeometryLoop) :
    (SetGeometryAxes env l).lighting = l.state.lighting := by
  have h := congrArg State.lighting (SetGeometryAxes_shape env l)
  exact h

lemma SetGeometry_eq (env : Env) (s : State) (gs : List Geometry) :
    SetGeometry env s gs =
      SetGeometryAxes env (gs.foldl (SetGeometryStep env gs.length)
        { state := SetGeometryClear (s.log (Call.SetGeometry gs)) }) := by
  unfold SetGeometry SetGeometryIterations
  rw [List.take_length]

/-- C5: when the input of `SetGeometry` holds a geometry that is not a point cloud, at
whatever position, the test `nPointClouds == geometries.size()` is false in every
iteration, `SetLightingProfile` is not called, and the lighting state (the values the
scene holds, the values the widgets show and the lighting-profile selector) is the same
after the call as before it. -/
theorem setGeometry_mixed_keeps_lighting (env : Env) (s : State) (gs : List Geometry)
    (h : ∃ g ∈ gs, g.GetGeometryType ≠ GeometryType.PointCloud) :
    (∀ k, k < gs.length →
      (SetGeometryIterations env (s.log (Call.SetGeometry gs)) gs (k + 1)).nPointClouds
        ≠ gs.length) ∧
    setLightingProfileCalls (SetGeometry env s gs).calls = setLightingProfileCalls s.calls ∧
    (SetGeometry env s gs).lighting = s.lighting := by
  have hlt := countP_lt_of_not_pointCloud gs h
  refine ⟨?_, ?_, ?_⟩
  · intro k _
    rw [SetGeometryIterations_nPointClouds]
    have := (List.take_sublist (k + 1) gs).countP_le isPointCloud
    omega
  · obtain ⟨_, _, q3⟩ := fold_quiet env gs.length gs
      { state := SetGeometryClear (s.log (Call.SetGeometry gs)) } (by simpa using hlt)
    rw [SetGeometry_eq]
    obtain ⟨axes, hax⟩ := SetGeometryAxes_calls env (gs.foldl (SetGeometryStep env gs.length)
      { state := SetGeometryClear (s.log (Call.SetGeometry gs)) })
    rw [hax]
    have : setLightingProfileCalls
        ((gs.foldl (SetGeometryStep env gs.length)
          { state := SetGeometryClear (s.log (Call.SetGeometry gs)) }).state.calls ++
            [Call.AddGeometry (Geometry.triangleMesh axes) none]) =
        setLightingProfileCalls (gs.foldl (SetGeometryStep env gs.length)
          { state := SetGeometryClear (s.log (Call.SetGeometry gs)) }).state.calls := by
      simp [setLightingProfileCalls, List.filterMap_append]
    rw [this, q3, SetGeometryClear_calls]
    simp [setLightingProfileCalls, List.filterMap_append, State.log]
  · obtain ⟨q1, _, _⟩ := fold_quiet env gs.length gs
      { state := SetGeometryClear (s.log (Call.SetGeometry gs)) } (by simpa using hlt)
    rw [SetGeometry_eq, SetGeometryAxes_lighting, q1, SetGeometryClear_lighting]
    rfl

end GuiVisualizer

/-! ### An input of point clouds only -/

lemma RendererShows_of_lighting (s1 s2 : State) (p : LightingProfile)
    (h : s1.lighting = s2.lighting) (h2 : RendererShows s2 p) : RendererShows s1 p := by
  have e1 := congrArg Lighting.indirectLight h
  have e2 := congrArg Lighting.indirectLightIntensity h
  have e3 := congrArg Lighting.indirectLightRotation h
  have e4 := congrArg Lighting.skybox h
  have e5 := congrArg Lighting.lights h
  have e6 := congrArg Lighting.hIbl h
  have e7 := congrArg Lighting.hDirectionalLight h
  simp only [State.lighting] at e1 e2 e3 e4 e5 e6 e7
  unfold RendererShows at *
  rw [e1, e2, e3, e4, e5, e6, e7]
  exact h2

lemma WidgetsShow_of_lighting (s1 s2 : State) (p : LightingProfile)
    (h : s1.lighting = s2.lighting) (h2 : WidgetsShow s2 p) : WidgetsShow s1 p := by
  have e1 := congrArg Lighting.wgtIBLEnabled h
  have e2 := congrArg Lighting.wgtDirectionalEnabled h
  have e3 := congrArg Lighting.wgtIBLIntensity h
  have e4 := congrArg Lighting.wgtSunIntensity h
  have e5 := congrArg Lighting.wgtSunDir h
  have e6 := congrArg Lighting.wgtSunColor h
  have e7 := congrArg Lighting.wgtSkyEnabled h
  simp only [State.lighting] at e1 e2 e3 e4 e5 e6 e7
  unfold WidgetsShow at *
  rw [e1, e2, e3, e4, e5, e6, e7]
  exact h2

lemma PanelAsConstructed_of_lighting (s1 s2 : State)
    (h : s1.lighting = s2.lighting) (h2 : PanelAsConstructed s2) : PanelAsConstructed s1 := by
  have e1 := congrArg Lighting.wgtLightingProfile h
  have e3 := congrArg Lighting.wgtIBLIntensity h
  have e4 := congrArg Lighting.wgtSunIntensity h
  simp only [State.lighting] at e1 e3 e4
  unfold PanelAsConstructed at *
  rw [e1, e3, e4]
  exact h2

/-- The only profile of the table named `kPointCloudProfileName` disables the sun and has
the IBL intensity 60000. -/
lemma pointCloudProfile_unique (q : LightingProfile) (hq : q ∈ gLightingProfiles)
    (hname : q.name = kPointCloudProfileName) :
    q.sunEnabled = false ∧ q.iblEnabled = true ∧ q.iblIntensity = 60000 := by
  simp only [gLightingProfiles, List.mem_cons, List.mem_singleton, List.not_mem_nil,
    or_false] at hq
  rcases hq with rfl | rfl | rfl | rfl | rfl | rfl | rfl
  all_goals first
    | exact ⟨rfl, rfl, rfl⟩
    | exact absurd hname (by decide)

lemma pointCloudProfile_mem : ∃ p ∈ gLightingProfiles, p.name = kPointCloudProfileName := by
  refine ⟨_, List.mem_of_mem_getLast? (l := gLightingProfiles) rfl, rfl⟩

lemma RendererShows_selector (X : State) (w : Combobox) (p : LightingProfile)
    (h : RendererShows X p) :
    RendererShows (X.onSettings (fun st => { st with wgtLightingProfile := w })) p := h

lemma WidgetsShow_selector (X : State) (w : Combobox) (p : LightingProfile)
    (h : WidgetsShow X p) :
    WidgetsShow (X.onSettings (fun st => { st with wgtLightingProfile := w })) p := h

/-- Applying the point-cloud profile by name to a window whose panel is as the constructor
built it. -/
lemma SetLightingProfileNamed_pointCloud (env : Env) (s : State) (hpanel : PanelAsConstructed s) :
    ∃ p ∈ gLightingProfiles, p.name = kPointCloudProfileName ∧
      RendererShows (Impl.SetLightingProfileNamed env s kPointCloudProfileName) p ∧
      WidgetsShow (Impl.SetLightingProfileNamed env s kPointCloudProfileName) p ∧
      (Impl.SetLightingProfileNamed env s
        kPointCloudProfileName).settings.wgtLightingProfile.GetSelectedValue
        = some kPointCloudProfileName := by
  unfold Impl.SetLightingProfileNamed
  rcases Impl.SetLightingProfileScan_cases env
    (s.log (Call.SetLightingProfile kPointCloudProfileName))
    kPointCloudProfileName gLightingProfiles with ⟨q, hq, hname, heq⟩ | ⟨hall, _⟩
  · have hr := SetLightingProfile_rendererShows env
      (s.log (Call.SetLightingProfile kPointCloudProfileName)) q
    have hw := SetLightingProfile_widgetsShow env
      (s.log (Call.SetLightingProfile kPointCloudProfileName)) q hq hpanel.2.1 hpanel.2.2
    have hsel : (Impl.SetLightingProfile env
        (s.log (Call.SetLightingProfile kPointCloudProfileName)) q).settings.wgtLightingProfile =
        s.settings.wgtLightingProfile := by
      have h := congrArg (fun x => x.settings.wgtLightingProfile)
        (Impl.SetLightingProfile_shape env
          (s.log (Call.SetLightingProfile kPointCloudProfileName)) q)
      exact h
    have hshown := (selector_shows_named s.settings.wgtLightingProfile q hq hpanel.1).1
    rw [hname] at hshown
    rw [heq]
    generalize Impl.SetLightingProfile env
      (s.log (Call.SetLightingProfile kPointCloudProfileName)) q = X at hr hw hsel
    refine ⟨q, hq, hname, RendererShows_selector X _ q hr, WidgetsShow_selector X _ q hw, ?_⟩
    show (X.settings.wgtLightingProfile.SetSelectedValue
      kPointCloudProfileName).GetSelectedValue = _
    rw [hsel]
    exact hshown
  · obtain ⟨p, hp, hpn⟩ := pointCloudProfile_mem
    exact absurd hpn (hall p hp)

namespace GuiVisualizer

lemma SetGeometryStep_lighting_of_eq (env : Env) (size : Nat) (l : SetGeometryLoop) (g : Geometry)
    (h : (SetGeometryAdd env l g).nPointClouds = size) :
    (SetGeometryStep env size l g).state.lighting =
      (Impl.SetLightingProfileNamed env (SetGeometryAdd env l g).state
        kPointCloudProfileName).lighting := by
  rw [SetGeometryStep_state_of_eq env size l g h]
  generalize Impl.SetLightingProfileNamed env (SetGeometryAdd env l g).state
    kPointCloudProfileName = N
  rfl

/-- C4 (amended): for every non-empty input of `SetGeometry` in which every geometry is a
point cloud, and whatever the lighting selection before the call, on a window whose
lighting panel is as the constructor built it, after `SetGeometry` the lighting state is
that of the preset named "Cloudy day (no direct sun)": its values are applied to the scene
and mirrored in the widgets, and the lighting-profile selector shows that preset. -/
theorem setGeometry_pointClouds_force_profile (env : Env) (s : State) (gs : List Geometry)
    (hne : gs ≠ [])
    (hall : ∀ g ∈ gs, g.GetGeometryType = GeometryType.PointCloud)
    (hpanel : PanelAsConstructed s) :
    ∃ p ∈ gLightingProfiles, p.name = kPointCloudProfileName ∧
      RendererShows (SetGeometry env s gs) p ∧
      WidgetsShow (SetGeometry env s gs) p ∧
      (SetGeometry env s gs).settings.wgtLightingProfile.GetSelectedValue =
        some kPointCloudProfileName := by
  rcases List.eq_nil_or_concat gs with hnil | ⟨init, last, hgs⟩
  · exact absurd hnil hne
  rw [List.concat_eq_append] at hgs
  have hfold : ∀ (sz : Nat) (l0 : SetGeometryLoop),
      gs.foldl (SetGeometryStep env sz) l0 =
        SetGeometryStep env sz (init.foldl (SetGeometryStep env sz) l0) last := by
    intro sz l0
    rw [hgs, List.foldl_append]
    rfl
  have hfinal0 : (SetGeometry env s gs).lighting =
      (SetGeometryStep env gs.length (init.foldl (SetGeometryStep env gs.length)
        { state := SetGeometryClear (s.log (Call.SetGeometry gs)) }) last).state.lighting := by
    rw [SetGeometry_eq, SetGeometryAxes_lighting, hfold]
  have hsize : gs.length = init.length + 1 := by rw [hgs]; simp
  have hinit : init.countP isPointCloud = init.length := by
    rw [List.countP_eq_length]
    intro g hg
    have := hall g (by rw [hgs]; exact List.mem_append_left _ hg)
    simp [isPointCloud, this]
  have hlast : last.GetGeometryType = GeometryType.PointCloud :=
    hall last (by rw [hgs]; simp)
  -- the iterations before the last one
  obtain ⟨q1, _, _⟩ := fold_quiet env gs.length init
    { state := SetGeometryClear (s.log (Call.SetGeometry gs)) }
    (by show 0 + _ < _; omega)
  have hn := fold_nPointClouds env gs.length init
    { state := SetGeometryClear (s.log (Call.SetGeometry gs)) }
  rw [SetGeometryClear_lighting] at q1
  generalize init.foldl (SetGeometryStep env gs.length)
    { state := SetGeometryClear (s.log (Call.SetGeometry gs)) } = L at q1 hn hfinal0
  -- the last iteration
  have hA : (SetGeometryAdd env L last).nPointClouds = gs.length := by
    rw [SetGeometryAdd_nPointClouds, hn, if_pos hlast, hinit, hsize]
    show 0 + init.length + 1 = init.length + 1
    omega
  have hpanelA : PanelAsConstructed (SetGeometryAdd env L last).state :=
    PanelAsConstructed_of_lighting _ s ((SetGeometryAdd_lighting env L last).trans q1) hpanel
  obtain ⟨p, hp, hpn, hr, hw, hsel⟩ :=
    SetLightingProfileNamed_pointCloud env (SetGeometryAdd env L last).state hpanelA
  have hfinal : (SetGeometry env s gs).lighting =
      (Impl.SetLightingProfileNamed env (SetGeometryAdd env L last).state
        kPointCloudProfileName).lighting :=
    hfinal0.trans (SetGeometryStep_lighting_of_eq env gs.length L last hA)
  refine ⟨p, hp, hpn, RendererShows_of_lighting _ _ p hfinal hr,
    WidgetsShow_of_lighting _ _ p hfinal hw, ?_⟩
  have e := congrArg Lighting.wgtLightingProfile hfinal
  simp only [State.lighting] at e
  rw [e]
  exact hsel

end GuiVisualizer

namespace GuiVisualizer

/-! ### The material given to each geometry -/

lemma selectMaterial_expected (g : Geometry) (base n : Nat) :
    (selectMaterial g (materialsAt base) n).2.1 = expectedMaterial base g := by
  cases g with
  | pointCloud pcd =>
    rw [selectMaterial_material (Geometry.pointCloud pcd) _ _ (Or.inl rfl)]
    rfl
  | lineSet ls => rfl
  | triangleMesh mesh =>
    rw [selectMaterial_material (Geometry.triangleMesh mesh) _ _ (Or.inr (Or.inr rfl))]
    rfl
  | other tag => rfl

lemma emplace_fresh (m : List (Nat × Materials)) (h : Nat) (x : Materials)
    (hkeys : ∀ pair ∈ m, pair.1 < h) : emplace m h x = m ++ [(h, x)] := by
  unfold emplace
  rw [if_neg]
  simp only [List.any_eq_true, beq_iff_eq, not_exists, not_and]
  intro pair hp heq
  have := hkeys pair hp
  omega

/-- What every iteration of the loop does to the containers of the window and to the
trace, whether or not it applies the point-cloud profile. -/
lemma SetGeometryStep_frame (env : Env) (size : Nat) (l : SetGeometryLoop) (g : Geometry) :
    addGeometryCalls (SetGeometryStep env size l g).state.calls =
      addGeometryCalls l.state.calls ++ [(g, some (expectedMaterial l.state.renderer.lastId g))] ∧
    setGeometryCalls (SetGeometryStep env size l g).state.calls =
      setGeometryCalls l.state.calls ∧
    readPointCloudCalls (SetGeometryStep env size l g).state.calls =
      readPointCloudCalls l.state.calls ∧
    (SetGeometryStep env size l g).state.geometryHandles =
      l.state.geometryHandles ++ [l.state.scene.scene3d.lastId + 1] ∧
    (SetGeometryStep env size l g).state.scene.scene3d.lastId = l.state.scene.scene3d.lastId + 1 ∧
    (SetGeometryStep env size l g).state.geometryMaterials =
      emplace l.state.geometryMaterials (l.state.scene.scene3d.lastId + 1)
        (materialsAt l.state.renderer.lastId) ∧
    l.state.renderer.lastId + 2 ≤ (SetGeometryStep env size l g).state.renderer.lastId := by
  have hA := SetGeometryAdd_state env l g
  have a1 := congrArg State.geometryHandles hA
  have a2 := congrArg (fun x => x.scene.scene3d.lastId) hA
  have a3 := congrArg State.geometryMaterials hA
  have a4 := congrArg (fun x => x.renderer.lastId) hA
  obtain ⟨f1, f2, f3, f4⟩ := SetGeometryAdd_filters env l g
  have hsel : (SetGeometryAdd env l g).selectedMaterial =
      expectedMaterial l.state.renderer.lastId g := by
    rw [SetGeometryAdd_selectedMaterial, SetGeometryAdd_materials]
    exact selectMaterial_expected g _ _
  rw [hsel] at f1
  have hm : (SetGeometryAdd env l g).materials = materialsAt l.state.renderer.lastId := rfl
  have hh : (SetGeometryAdd env l g).handle = l.state.scene.scene3d.lastId + 1 := rfl
  by_cases h : (SetGeometryAdd env l g).nPointClouds = size
  · have hs := SetGeometryStep_state_of_eq env size l g h
    obtain ⟨n1, n2, n3, _, _, _, _, _, _, _, _⟩ := SetLightingProfileNamed_frame env
      (SetGeometryAdd env l g).state kPointCloudProfileName
    obtain ⟨w, hw, hw2⟩ := Impl.SetLightingProfileNamed_calls env
      (SetGeometryAdd env l g).state kPointCloudProfileName
    have hlast := Impl.SetLightingProfileNamed_lastId env
      (SetGeometryAdd env l g).state kPointCloudProfileName
    have b1 := congrArg State.calls hs
    have b2 := congrArg State.geometryHandles hs
    have b3 := congrArg (fun x => x.scene.scene3d.lastId) hs
    have b4 := congrArg State.geometryMaterials hs
    have b5 := congrArg (fun x => x.renderer.lastId) hs
    generalize Impl.SetLightingProfileNamed env (SetGeometryAdd env l g).state
      kPointCloudProfileName = N at n1 n2 n3 hw hlast b1 b2 b3 b4 b5
    have c1 : (SetGeometryStep env size l g).state.calls = N.calls := b1
    have c2 : (SetGeometryStep env size l g).state.geometryHandles = N.geometryHandles := b2
    have c3 : (SetGeometryStep env size l g).state.scene.scene3d.lastId =
      N.scene.scene3d.lastId := b3
    have c4 : (SetGeometryStep env size l g).state.geometryMaterials =
      emplace N.geometryMaterials (SetGeometryAdd env l g).handle
        (SetGeometryAdd env l g).materials := b4
    have c5 : (SetGeometryStep env size l g).state.renderer.lastId = N.renderer.lastId := b5
    have hfilter : addGeometryCalls N.calls = addGeometryCalls (SetGeometryAdd env l g).state.calls ∧
        setGeometryCalls N.calls = setGeometryCalls (SetGeometryAdd env l g).state.calls ∧
        readPointCloudCalls N.calls = readPointCloudCalls (SetGeometryAdd env l g).state.calls := by
      rw [hw]
      rcases hw2 with rfl | ⟨msg, rfl⟩ <;>
        simp [addGeometryCalls, setGeometryCalls, readPointCloudCalls, List.filterMap_append]
    refine ⟨?_, ?_, ?_, ?_, ?_, ?_, ?_⟩
    · rw [c1, hfilter.1, f1]
    · rw [c1, hfilter.2.1, f3]
    · rw [c1, hfilter.2.2, f4]
    · rw [c2, n2]; exact a1
    · rw [c3, n3]; exact a2
    · rw [c4, n1, hm, hh]
      exact congrArg (fun m => emplace m _ _) a3
    · rw [c5]
      have : (SetGeometryAdd env l g).state.renderer.lastId = l.state.renderer.lastId + 2 := a4
      omega
  · have hs := SetGeometryStep_state_of_ne env size l g h
    have b1 := congrArg State.calls hs
    have b2 := congrArg State.geometryHandles hs
    have b3 := congrArg (fun x => x.scene.scene3d.lastId) hs
    have b4 := congrArg State.geometryMaterials hs
    have b5 := congrArg (fun x => x.renderer.lastId) hs
    have c1 : (SetGeometryStep env size l g).state.calls =
      (SetGeometryAdd env l g).state.calls := b1
    have c4 : (SetGeometryStep env size l g).state.geometryMaterials =
      emplace (SetGeometryAdd env l g).state.geometryMaterials (SetGeometryAdd env l g).handle
        (SetGeometryAdd env l g).materials := b4
    refine ⟨?_, ?_, ?_, ?_, ?_, ?_, ?_⟩
    · rw [c1, f1]
    · rw [c1, f3]
    · rw [c1, f4]
    · exact b2.trans a1
    · exact b3.trans a2
    · rw [c4, hm, hh]
      exact congrArg (fun m => emplace m _ _) a3
    · exact le_of_eq (b5.trans a4).symm

/-- The loop of `SetGeometry` over `xs`, started with room for all of `xs` below `size`:
what it adds to the trace and to the containers of the window. -/
lemma fold_adds (env : Env) (size : Nat) (xs : List Geometry) (l0 : SetGeometryLoop)
    (h : l0.nPointClouds + xs.length ≤ size)
    (hkeys : ∀ pair ∈ l0.state.geometryMaterials, pair.1 ≤ l0.state.scene.scene3d.lastId) :
    addGeometryCalls (xs.foldl (SetGeometryStep env size) l0).state.calls =
      addGeometryCalls l0.state.calls ++ expectedAdds l0.state.renderer.lastId xs ∧
    (xs.foldl (SetGeometryStep env size) l0).state.geometryHandles =
      l0.state.geometryHandles ++ List.range' (l0.state.scene.scene3d.lastId + 1) xs.length ∧
    (xs.foldl (SetGeometryStep env size) l0).state.geometryMaterials =
      l0.state.geometryMaterials ++
        expectedMaterials l0.state.scene.scene3d.lastId l0.state.renderer.lastId xs ∧
    (xs.foldl (SetGeometryStep env size) l0).state.scene.scene3d.lastId =
      l0.state.scene.scene3d.lastId + xs.length ∧
    setGeometryCalls (xs.foldl (SetGeometryStep env size) l0).state.calls =
      setGeometryCalls l0.state.calls ∧
    readPointCloudCalls (xs.foldl (SetGeometryStep env size) l0).state.calls =
      readPointCloudCalls l0.state.calls := by
  induction xs generalizing l0 with
  | nil => simp [expectedAdds, expectedMaterials]
  | cons x rest ih =>
    obtain ⟨s1, s2, s3, s4, s5, s6, s7⟩ := SetGeometryStep_frame env size l0 x
    have hn := SetGeometryStep_nPointClouds env size l0 x
    have hem := emplace_fresh l0.state.geometryMaterials (l0.state.scene.scene3d.lastId + 1)
      (materialsAt l0.state.renderer.lastId)
      (fun pair hp => Nat.lt_succ_of_le (hkeys pair hp))
    rw [hem] at s6
    have hlen : (x :: rest).length = rest.length + 1 := rfl
    have h1 : (SetGeometryStep env size l0 x).nPointClouds + rest.length ≤ size := by
      rw [hn]
      split_ifs <;> omega
    have hkeys1 : ∀ pair ∈ (SetGeometryStep env size l0 x).state.geometryMaterials,
        pair.1 ≤ (SetGeometryStep env size l0 x).state.scene.scene3d.lastId := by
      intro pair hp
      rw [s6] at hp
      rw [s5]
      rcases List.mem_append.mp hp with hp | hp
      · exact Nat.le_succ_of_le (hkeys pair hp)
      · simp only [List.mem_singleton] at hp
        rw [hp]
    obtain ⟨r1, r2, r3, r4, r5, r6⟩ := ih (SetGeometryStep env size l0 x) h1 hkeys1
    rw [List.foldl_cons]
    have hbase : rest ≠ [] →
        (SetGeometryStep env size l0 x).state.renderer.lastId = l0.state.renderer.lastId + 2 := by
      intro hrest
      have hpos : 0 < rest.length := List.length_pos.mpr hrest
      have hne : (SetGeometryAdd env l0 x).nPointClouds ≠ size := by
        rw [SetGeometryAdd_nPointClouds]
        split_ifs <;> omega
      exact (SetGeometryStep_quiet env size l0 x hne).2.1
    refine ⟨?_, ?_, ?_, ?_, ?_, ?_⟩
    · rw [r1, s1, List.append_assoc]
      congr 1
      cases rest with
      | nil => simp [expectedAdds]
      | cons y ys =>
        rw [hbase (by simp)]
        rfl
    · rw [r2, s4, s5, List.append_assoc, hlen]
      congr 1
    · rw [r3, s6, s5, List.append_assoc]
      congr 1
      cases rest with
      | nil => simp [expectedMaterials]
      | cons y ys =>
        rw [hbase (by simp)]
        rfl
    · rw [r4, s5, hlen]
      omega
    · rw [r5, s2]
    · rw [r6, s3]

end GuiVisualizer

namespace GuiVisualizer

lemma expectedAdds_getElem? (base : Nat) (xs : List Geometry) (k : Nat) (g : Geometry)
    (h : xs[k]? = some g) :
    (expectedAdds base xs)[k]? = some (g, some (expectedMaterial (base + 2 * k) g)) := by
  induction xs generalizing base k with
  | nil => simp at h
  | cons x rest ih =>
    cases k with
    | zero =>
      simp only [List.getElem?_cons_zero, Option.some.injEq] at h
      subst h
      simp [expectedAdds]
    | succ k =>
      simp only [List.getElem?_cons_succ] at h
      have := ih (base + 2) k h
      simp only [expectedAdds, List.getElem?_cons_succ]
      rw [this]
      congr 4
      ring

lemma expectedMaterials_mem (h base : Nat) (xs : List Geometry) (k : Nat) (g : Geometry)
    (hk : xs[k]? = some g) :
    (h + k + 1, materialsAt (base + 2 * k)) ∈ expectedMaterials h base xs := by
  induction xs generalizing h base k with
  | nil => simp at hk
  | cons x rest ih =>
    cases k with
    | zero => exact List.mem_cons_self _ _
    | succ k =>
      simp only [List.getElem?_cons_succ] at hk
      have := ih (h + 1) (base + 2) k hk
      simp only [expectedMaterials]
      refine List.mem_cons_of_mem _ ?_
      have e1 : h + 1 + k + 1 = h + (k + 1) + 1 := by ring
      have e2 : base + 2 + 2 * k = base + 2 * (k + 1) := by ring
      rw [e1, e2] at this
      exact this

/-- What `SetGeometry` leaves in the containers of the window and adds to the trace. -/
lemma SetGeometry_containers (env : Env) (s : State) (gs : List Geometry) :
    (∃ axes, addGeometryCalls (SetGeometry env s gs).calls =
      addGeometryCalls s.calls ++ expectedAdds s.renderer.lastId gs ++
        [(Geometry.triangleMesh axes, none)]) ∧
    (SetGeometry env s gs).geometryHandles =
      List.range' (s.scene.scene3d.lastId + 1) gs.length ∧
    (SetGeometry env s gs).geometryMaterials =
      expectedMaterials s.scene.scene3d.lastId s.renderer.lastId gs ∧
    setGeometryCalls (SetGeometry env s gs).calls = setGeometryCalls s.calls ++ [gs] ∧
    readPointCloudCalls (SetGeometry env s gs).calls = readPointCloudCalls s.calls := by
  have hc := SetGeometryClear_shape (s.log (Call.SetGeometry gs))
  have c1 : (SetGeometryClear (s.log (Call.SetGeometry gs))).geometryMaterials = [] :=
    congrArg State.geometryMaterials hc
  have c2 : (SetGeometryClear (s.log (Call.SetGeometry gs))).geometryHandles = [] :=
    congrArg State.geometryHandles hc
  have c3 : (SetGeometryClear (s.log (Call.SetGeometry gs))).scene.scene3d.lastId =
      s.scene.scene3d.lastId := congrArg (fun x => x.scene.scene3d.lastId) hc
  have c4 : (SetGeometryClear (s.log (Call.SetGeometry gs))).renderer.lastId =
      s.renderer.lastId := congrArg (fun x => x.renderer.lastId) hc
  have c5 : (SetGeometryClear (s.log (Call.SetGeometry gs))).calls =
      s.calls ++ [Call.SetGeometry gs] := congrArg State.calls hc
  obtain ⟨f1, f2, f3, _, f5, f6⟩ := fold_adds env gs.length gs
    { state := SetGeometryClear (s.log (Call.SetGeometry gs)) }
    (by show 0 + _ ≤ _; omega)
    (by intro pair hp; rw [c1] at hp; simp at hp)
  simp only [c1, c2, c3, c4, c5, List.nil_append] at f1 f2 f3 f5 f6
  have ha := SetGeometryAxes_shape env (gs.foldl (SetGeometryStep env gs.length)
    { state := SetGeometryClear (s.log (Call.SetGeometry gs)) })
  obtain ⟨axes, hax⟩ := SetGeometryAxes_calls env (gs.foldl (SetGeometryStep env gs.length)
    { state := SetGeometryClear (s.log (Call.SetGeometry gs)) })
  have a1 := congrArg State.geometryHandles ha
  have a2 := congrArg State.geometryMaterials ha
  rw [SetGeometry_eq]
  refine ⟨⟨axes, ?_⟩, a1.trans f2, a2.trans f3, ?_, ?_⟩
  · rw [hax]
    simp only [addGeometryCalls, List.filterMap_append] at f1 ⊢
    rw [f1]
    simp
  · rw [hax]
    simp only [setGeometryCalls, List.filterMap_append] at f5 ⊢
    rw [f5]
    simp
  · rw [hax]
    simp only [readPointCloudCalls, List.filterMap_append] at f6 ⊢
    rw [f6]
    simp

/-- C1: for every geometry `g` of the input of `SetGeometry` (at position `k`) whose type
is PointCloud, LineSet or TriangleMesh, the material passed to `AddGeometry` in the call
made for `g` (the `k`-th `AddGeometry` call that `SetGeometry` adds to the trace) is one of
the two instances created for `g` in its iteration (the pair recorded for the handle of
`g` in `geometryMaterials`, with ids the renderer had not handed out before): the unlit
instance for a point cloud that has colours and for which `PointCloudHasUniformColor` is
false, the lit one for any other point cloud; the unlit instance for a line set; the unlit
instance for a triangle mesh with vertex colours, the lit one for a mesh without. -/
theorem setGeometry_material_policy (env : Env) (s : State) (gs : List Geometry) (k : Nat)
    (g : Geometry) (hk : gs[k]? = some g)
    (hg : g.GetGeometryType = GeometryType.PointCloud ∨ g.GetGeometryType = GeometryType.LineSet ∨
      g.GetGeometryType = GeometryType.TriangleMesh) :
    ∃ handle materials,
      (SetGeometry env s gs).geometryHandles[k]? = some handle ∧
      (handle, materials) ∈ (SetGeometry env s gs).geometryMaterials ∧
      s.renderer.lastId < materials.lit.handle ∧
      s.renderer.lastId < materials.unlit.handle ∧
      materials.lit.handle ≠ materials.unlit.handle ∧
      (addGeometryCalls (SetGeometry env s gs).calls)[(addGeometryCalls s.calls).length + k]? =
        some (g, some
          (match g with
           | .pointCloud pcd =>
             if pcd.HasColors = true ∧ SmartMode.PointCloudHasUniformColor pcd = false
             then materials.unlit.handle else materials.lit.handle
           | .lineSet _ => materials.unlit.handle
           | .triangleMesh mesh =>
             if mesh.HasVertexColors = true then materials.unlit.handle
             else materials.lit.handle
           | .other _ => kBad)) := by
  obtain ⟨⟨axes, h1⟩, h2, h3, _, _⟩ := SetGeometry_containers env s gs
  have hklt : k < gs.length := by
    by_contra hcon
    rw [List.getElem?_eq_none (not_lt.mp hcon)] at hk
    exact absurd hk (by simp)
  refine ⟨s.scene.scene3d.lastId + k + 1, materialsAt (s.renderer.lastId + 2 * k), ?_, ?_, ?_, ?_, ?_, ?_⟩
  · rw [h2, List.getElem?_range' _ _ hklt]
    simp
    omega
  · rw [h3]
    exact expectedMaterials_mem _ _ gs k g hk
  · show s.renderer.lastId < s.renderer.lastId + 2 * k + 1
    omega
  · show s.renderer.lastId < s.renderer.lastId + 2 * k + 1 + 1
    omega
  · show s.renderer.lastId + 2 * k + 1 ≠ s.renderer.lastId + 2 * k + 1 + 1
    omega
  · rw [h1, List.append_assoc, List.getElem?_append_right (Nat.le_add_right _ _)]
    rw [Nat.add_sub_cancel_left]
    have hlen : k < (expectedAdds s.renderer.lastId gs).length := by
      by_contra hcon
      have := expectedAdds_getElem? s.renderer.lastId gs k g hk
      rw [List.getElem?_eq_none (not_lt.mp hcon)] at this
      exact absurd this (by simp)
    rw [List.getElem?_append_left hlen, expectedAdds_getElem? _ _ _ _ hk]
    cases g with
    | pointCloud pcd =>
      simp only [expectedMaterial, wantsUnlit]
      congr 3
      by_cases h1 : pcd.HasColors = true <;>
        by_cases h2 : SmartMode.PointCloudHasUniformColor pcd = true <;> simp [h1, h2]
    | lineSet ls => rfl
    | triangleMesh mesh => rfl
    | other tag => simp [Geometry.GetGeometryType] at hg

end GuiVisualizer

namespace GuiVisualizer

/-! ### The two stages of `LoadGeometry` -/

lemma LoadGeometry_of_mesh (env : Env) (s : State) (path : String) (m : TriangleMesh)
    (h : env.ReadTriangleMesh path = ReadResult.returned true m)
    (ht : m.triangles_.length ≠ 0) :
    LoadGeometry env s path =
      (true, SetGeometry env (s.log (Call.ReadTriangleMesh path))
        [Geometry.triangleMesh (env.ComputeVertexNormals m)]) := by
  unfold LoadGeometry
  simp [h, ht]

lemma LoadGeometry_of_cloud (env : Env) (s : State) (path : String) (c : PointCloud)
    (hm : meshStageFails env path)
    (hc : env.ReadPointCloud path = ReadResult.returned true c) :
    LoadGeometry env s path =
      (true, SetGeometry env ((afterMeshStage env s path).log
          (Call.LogInfo ("Successfully read " ++ path)))
        [Geometry.pointCloud (preparedCloud env c)]) := by
  unfold LoadGeometry meshStageFails afterMeshStage meshStageWarning preparedCloud at *
  cases hmesh : env.ReadTriangleMesh path with
  | threw => simp [hc]
  | returned ok m =>
    rw [hmesh] at hm
    cases ok with
    | false => simp [hc]
    | true =>
      have : m.triangles_.length = 0 := by simpa using hm
      simp [hc, this]

lemma LoadGeometry_of_fail (env : Env) (s : State) (path : String)
    (hm : meshStageFails env path) (hc : cloudStageFails env path) :
    LoadGeometry env s path =
      (false, (afterMeshStage env s path).log
        (Call.LogWarning ("Failed to read points " ++ path))) := by
  unfold LoadGeometry meshStageFails cloudStageFails afterMeshStage meshStageWarning at *
  cases hmesh : env.ReadTriangleMesh path with
  | threw =>
    cases hcloud : env.ReadPointCloud path with
    | threw => simp
    | returned ok c =>
      rw [hcloud] at hc
      simp at hc
      simp [hc]
  | returned ok m =>
    rw [hmesh] at hm
    cases hcloud : env.ReadPointCloud path with
    | threw =>
      cases ok with
      | false => simp
      | true =>
        have : m.triangles_.length = 0 := by simpa using hm
        simp [this]
    | returned okc c =>
      rw [hcloud] at hc
      simp at hc
      cases ok with
      | false => simp [hc]
      | true =>
        have : m.triangles_.length = 0 := by simpa using hm
        simp [this, hc]

lemma meshStage_cases (env : Env) (path : String) :
    meshStageFails env path ∨
      ∃ m, env.ReadTriangleMesh path = ReadResult.returned true m ∧ m.triangles_.length ≠ 0 := by
  unfold meshStageFails
  cases h : env.ReadTriangleMesh path with
  | threw => exact Or.inl trivial
  | returned ok m =>
    cases ok with
    | false => exact Or.inl (Or.inl rfl)
    | true =>
      by_cases ht : m.triangles_.length = 0
      · exact Or.inl (Or.inr ht)
      · exact Or.inr ⟨m, rfl, ht⟩

lemma not_meshStageFails_of_mesh (env : Env) (path : String) (m : TriangleMesh)
    (h : env.ReadTriangleMesh path = ReadResult.returned true m)
    (ht : m.triangles_.length ≠ 0) : ¬ meshStageFails env path := by
  unfold meshStageFails
  rw [h]
  simp [ht]

lemma cloudStage_cases (env : Env) (path : String) :
    cloudStageFails env path ∨ ∃ c, env.ReadPointCloud path = ReadResult.returned true c := by
  unfold cloudStageFails
  cases h : env.ReadPointCloud path with
  | threw => exact Or.inl trivial
  | returned ok c =>
    cases ok with
    | false => exact Or.inl rfl
    | true => exact Or.inr ⟨c, rfl⟩

lemma not_cloudStageFails_of_cloud (env : Env) (path : String) (c : PointCloud)
    (h : env.ReadPointCloud path = ReadResult.returned true c) : ¬ cloudStageFails env path := by
  unfold cloudStageFails
  rw [h]
  simp

lemma afterMeshStage_filters (env : Env) (s : State) (path : String) :
    readPointCloudCalls (afterMeshStage env s path).calls = readPointCloudCalls s.calls ++ [path] ∧
    setGeometryCalls (afterMeshStage env s path).calls = setGeometryCalls s.calls := by
  unfold afterMeshStage meshStageWarning
  split <;> simp [State.log, readPointCloudCalls, setGeometryCalls, List.filterMap_append]

/-- C6: `LoadGeometry` returns false exactly when both stages fail: the mesh reader throws,
returns false or yields a mesh without triangles, and the point-cloud reader throws or
returns false. In every other case it returns true; a reader that throws makes its stage
fail and the function still returns its boolean. -/
theorem loadGeometry_false_iff (env : Env) (s : State) (path : String) :
    ((LoadGeometry env s path).1 = false ↔ meshStageFails env path ∧ cloudStageFails env path) ∧
    ((LoadGeometry env s path).1 = true ↔
      ¬ (meshStageFails env path ∧ cloudStageFails env path)) := by
  have key : (LoadGeometry env s path).1 = false ↔
      meshStageFails env path ∧ cloudStageFails env path := by
    rcases meshStage_cases env path with hm | ⟨m, hm, ht⟩
    · rcases cloudStage_cases env path with hc | ⟨c, hc⟩
      · rw [LoadGeometry_of_fail env s path hm hc]
        exact ⟨fun _ => ⟨hm, hc⟩, fun _ => rfl⟩
      · rw [LoadGeometry_of_cloud env s path c hm hc]
        exact ⟨fun h => absurd h (by simp),
          fun h => absurd h.2 (not_cloudStageFails_of_cloud env path c hc)⟩
    · rw [LoadGeometry_of_mesh env s path m hm ht]
      exact ⟨fun h => absurd h (by simp),
        fun h => absurd h.1 (not_meshStageFails_of_mesh env path m hm ht)⟩
  refine ⟨key, ?_⟩
  rw [← key]
  cases (LoadGeometry env s path).1 <;> simp

/-- C7: `LoadGeometry` calls the point-cloud reader (once) exactly when the mesh stage did
not produce a mesh with at least one triangle. When the mesh read succeeds with zero
triangles, the returned boolean and the geometry given to `SetGeometry` are those of the
point-cloud stage: true and the prepared cloud when the cloud read succeeds, false and no
call of `SetGeometry` when it fails. When the mesh read succeeds with at least one
triangle, the point-cloud reader is not called and the geometry given to `SetGeometry` is
the mesh, with its vertex normals computed. -/
theorem loadGeometry_stages (env : Env) (s : State) (path : String) :
    (meshStageFails env path →
      readPointCloudCalls (LoadGeometry env s path).2.calls =
        readPointCloudCalls s.calls ++ [path]) ∧
    (¬ meshStageFails env path →
      readPointCloudCalls (LoadGeometry env s path).2.calls = readPointCloudCalls s.calls) ∧
    (∀ m, env.ReadTriangleMesh path = ReadResult.returned true m → m.triangles_.length = 0 →
      (∀ c, env.ReadPointCloud path = ReadResult.returned true c →
        (LoadGeometry env s path).1 = true ∧
        setGeometryCalls (LoadGeometry env s path).2.calls =
          setGeometryCalls s.calls ++ [[Geometry.pointCloud (preparedCloud env c)]]) ∧
      (cloudStageFails env path →
        (LoadGeometry env s path).1 = false ∧
        setGeometryCalls (LoadGeometry env s path).2.calls = setGeometryCalls s.calls)) ∧
    (∀ m, env.ReadTriangleMesh path = ReadResult.returned true m → m.triangles_.length ≠ 0 →
      (LoadGeometry env s path).1 = true ∧
      setGeometryCalls (LoadGeometry env s path).2.calls =
        setGeometryCalls s.calls ++ [[Geometry.triangleMesh (env.ComputeVertexNormals m)]] ∧
      readPointCloudCalls (LoadGeometry env s path).2.calls = readPointCloudCalls s.calls) := by
  have hfail : ∀ hm : meshStageFails env path, ∀ hc : cloudStageFails env path,
      (LoadGeometry env s path).1 = false ∧
      setGeometryCalls (LoadGeometry env s path).2.calls = setGeometryCalls s.calls ∧
      readPointCloudCalls (LoadGeometry env s path).2.calls =
        readPointCloudCalls s.calls ++ [path] := by
    intro hm hc
    rw [LoadGeometry_of_fail env s path hm hc]
    obtain ⟨f1, f2⟩ := afterMeshStage_filters env s path
    refine ⟨rfl, ?_, ?_⟩
    · simp only [State.log, setGeometryCalls, List.filterMap_append] at f2 ⊢
      rw [f2]
      simp
    · simp only [State.log, readPointCloudCalls, List.filterMap_append] at f1 ⊢
      rw [f1]
      simp
  have hcloud : ∀ hm : meshStageFails env path, ∀ c,
      env.ReadPointCloud path = ReadResult.returned true c →
      (LoadGeometry env s path).1 = true ∧
      setGeometryCalls (LoadGeometry env s path).2.calls =
        setGeometryCalls s.calls ++ [[Geometry.pointCloud (preparedCloud env c)]] ∧
      readPointCloudCalls (LoadGeometry env s path).2.calls =
        readPointCloudCalls s.calls ++ [path] := by
    intro hm c hc
    rw [LoadGeometry_of_cloud env s path c hm hc]
    obtain ⟨f1, f2⟩ := afterMeshStage_filters env s path
    obtain ⟨_, _, _, g4, g5⟩ := SetGeometry_containers env
      ((afterMeshStage env s path).log (Call.LogInfo ("Successfully read " ++ path)))
      [Geometry.pointCloud (preparedCloud env c)]
    refine ⟨rfl, ?_, ?_⟩
    · show setGeometryCalls (SetGeometry env _ _).calls = _
      rw [g4]
      simp only [State.log, setGeometryCalls, List.filterMap_append] at f2 ⊢
      rw [f2]
      simp
    · show readPointCloudCalls (SetGeometry env _ _).calls = _
      rw [g5]
      simp only [State.log, readPointCloudCalls, List.filterMap_append] at f1 ⊢
      rw [f1]
      simp
  have hmesh : ∀ m, env.ReadTriangleMesh path = ReadResult.returned true m →
      m.triangles_.length ≠ 0 →
      (LoadGeometry env s path).1 = true ∧
      setGeometryCalls (LoadGeometry env s path).2.calls =
        setGeometryCalls s.calls ++ [[Geometry.triangleMesh (env.ComputeVertexNormals m)]] ∧
      readPointCloudCalls (LoadGeometry env s path).2.calls = readPointCloudCalls s.calls := by
    intro m hm ht
    rw [LoadGeometry_of_mesh env s path m hm ht]
    obtain ⟨_, _, _, g4, g5⟩ := SetGeometry_containers env (s.log (Call.ReadTriangleMesh path))
      [Geometry.triangleMesh (env.ComputeVertexNormals m)]
    refine ⟨rfl, ?_, ?_⟩
    · show setGeometryCalls (SetGeometry env _ _).calls = _
      rw [g4]
      simp [State.log, setGeometryCalls, List.filterMap_append]
    · show readPointCloudCalls (SetGeometry env _ _).calls = _
      rw [g5]
      simp [State.log, readPointCloudCalls, List.filterMap_append]
  refine ⟨?_, ?_, ?_, hmesh⟩
  · intro hm
    rcases cloudStage_cases env path with hc | ⟨c, hc⟩
    · exact (hfail hm hc).2.2
    · exact (hcloud hm c hc).2.2
  · intro hm
    rcases meshStage_cases env path with hm2 | ⟨m, hm2, ht⟩
    · exact absurd hm2 hm
    · exact (hmesh m hm2 ht).2.2
  · intro m hm ht
    have hmf : meshStageFails env path := by
      unfold meshStageFails
      rw [hm]
      exact Or.inr ht
    exact ⟨fun c hc => ⟨(hcloud hmf c hc).1, (hcloud hmf c hc).2.1⟩,
      fun hc => ⟨(hfail hmf hc).1, (hfail hmf hc).2.1⟩⟩

end GuiVisualizer

namespace GuiVisualizer

/-- C8: when `LoadGeometry` returns false it has not called `SetGeometry`, and
`geometryHandles`, `geometryMaterials`, the axes handle and the lighting state are as
before; when it returns true it has called `SetGeometry` exactly once, on a window that
differs from the one before only in its trace, with the list holding exactly the loaded
geometry. -/
theorem loadGeometry_calls_setGeometry (env : Env) (s : State) (path : String) :
    ((LoadGeometry env s path).1 = false →
      setGeometryCalls (LoadGeometry env s path).2.calls = setGeometryCalls s.calls ∧
      (LoadGeometry env s path).2.geometryHandles = s.geometryHandles ∧
      (LoadGeometry env s path).2.geometryMaterials = s.geometryMaterials ∧
      (LoadGeometry env s path).2.settings.hAxes = s.settings.hAxes ∧
      (LoadGeometry env s path).2.lighting = s.lighting) ∧
    ((LoadGeometry env s path).1 = true →
      ∃ g s1, s1 = { s with calls := s1.calls } ∧
        (LoadGeometry env s path).2 = SetGeometry env s1 [g] ∧
        setGeometryCalls (LoadGeometry env s path).2.calls = setGeometryCalls s.calls ++ [[g]]) := by
  obtain ⟨_, _, hzero, hmesh⟩ := loadGeometry_stages env s path
  rcases meshStage_cases env path with hm | ⟨m, hm, ht⟩
  · rcases cloudStage_cases env path with hc | ⟨c, hc⟩
    · have heq := LoadGeometry_of_fail env s path hm hc
      obtain ⟨_, f2⟩ := afterMeshStage_filters env s path
      refine ⟨fun _ => ?_, fun h => ?_⟩
      · rw [heq]
        refine ⟨?_, rfl, rfl, rfl, rfl⟩
        simp only [State.log, setGeometryCalls, List.filterMap_append] at f2 ⊢
        rw [f2]
        simp
      · rw [heq] at h
        exact absurd h (by simp)
    · have heq := LoadGeometry_of_cloud env s path c hm hc
      obtain ⟨_, f2⟩ := afterMeshStage_filters env s path
      obtain ⟨_, _, _, g4, _⟩ := SetGeometry_containers env
        ((afterMeshStage env s path).log (Call.LogInfo ("Successfully read " ++ path)))
        [Geometry.pointCloud (preparedCloud env c)]
      refine ⟨fun h => ?_, fun _ => ⟨_, _, ?_, congrArg Prod.snd heq, ?_⟩⟩
      · rw [heq] at h
        exact absurd h (by simp)
      · rfl
      · rw [heq]
        show setGeometryCalls (SetGeometry env _ _).calls = _
        rw [g4]
        simp only [State.log, setGeometryCalls, List.filterMap_append] at f2 ⊢
        rw [f2]
        simp
  · have heq := LoadGeometry_of_mesh env s path m hm ht
    refine ⟨fun h => ?_, fun _ => ⟨_, _, ?_, congrArg Prod.snd heq, (hmesh m hm ht).2.1⟩⟩
    · rw [heq] at h
      exact absurd h (by simp)
    · rfl

/-- C3 (what the code does): a geometry of an unrecognised type given to `SetGeometry` is
not skipped. `AddGeometry` is called for it, with the default-constructed (bad) material
handle; its handle is appended to `geometryHandles`; and a `Materials` entry is recorded
for that handle in `geometryMaterials`. -/
theorem setGeometry_unrecognised_is_added (env : Env) (s : State) (tag : Nat) :
    (SetGeometry env s [Geometry.other tag]).geometryHandles = [s.scene.scene3d.lastId + 1] ∧
    (SetGeometry env s [Geometry.other tag]).geometryMaterials =
      [(s.scene.scene3d.lastId + 1, materialsAt s.renderer.lastId)] ∧
    ∃ axes, addGeometryCalls (SetGeometry env s [Geometry.other tag]).calls =
      addGeometryCalls s.calls ++
        [(Geometry.other tag, some kBad), (Geometry.triangleMesh axes, none)] := by
  obtain ⟨⟨axes, h1⟩, h2, h3, _, _⟩ := SetGeometry_containers env s [Geometry.other tag]
  refine ⟨h2, h3, axes, ?_⟩
  rw [h1]
  simp [expectedAdds, expectedMaterial]

/-- C4 (as stated) fails on the empty list, all of whose geometries are point clouds: the
window built by the constructor shows the default profile, with the sun enabled, and
after `SetGeometry` with the empty list it still does; the point-cloud preset is not
applied. -/
theorem setGeometry_empty_keeps_profile :
    (∀ g ∈ ([] : List Geometry), g.GetGeometryType = GeometryType.PointCloud) ∧
    PanelAsConstructed Examples.window ∧
    (SetGeometry Examples.env Examples.window []).settings.wgtLightingProfile.GetSelectedValue =
      some "Bright day with sun at +Y [default]" ∧
    (SetGeometry Examples.env Examples.window []).settings.wgtDirectionalEnabled.IsChecked = true ∧
    ¬ (∃ p ∈ gLightingProfiles, p.name = kPointCloudProfileName ∧
      RendererShows (SetGeometry Examples.env Examples.window []) p ∧
      WidgetsShow (SetGeometry Examples.env Examples.window []) p ∧
      (SetGeometry Examples.env Examples.window []).settings.wgtLightingProfile.GetSelectedValue =
        some kPointCloudProfileName) := by
  have hsel : (SetGeometry Examples.env Examples.window []).settings.wgtLightingProfile.GetSelectedValue =
      some "Bright day with sun at +Y [default]" := rfl
  refine ⟨by simp, ⟨rfl, ⟨rfl, rfl⟩, ⟨rfl, rfl⟩⟩, hsel, rfl, ?_⟩
  rintro ⟨p, _, _, _, _, h⟩
  rw [hsel] at h
  exact absurd h (by decide)

end GuiVisualizer

/-! ### The lighting panel stays as the constructor built it -/

lemma Combobox.SetSelectedIndex_items (w : Combobox) (i : Nat) :
    (w.SetSelectedIndex i).items = w.items := by
  unfold Combobox.SetSelectedIndex
  split_ifs <;> rfl

lemma Combobox.SetSelectedValue_items (w : Combobox) (v : String) :
    (w.SetSelectedValue v).items = w.items := by
  unfold Combobox.SetSelectedValue
  split
  · exact Combobox.SetSelectedIndex_items _ _
  · rfl

lemma PanelAsConstructed_SetLightingProfileNamed (env : Env) (s : State) (name : String)
    (h : PanelAsConstructed s) :
    PanelAsConstructed (Impl.SetLightingProfileNamed env s name) := by
  unfold Impl.SetLightingProfileNamed
  rcases Impl.SetLightingProfileScan_cases env (s.log (Call.SetLightingProfile name)) name
    gLightingProfiles with ⟨q, _, _, heq⟩ | ⟨_, heq⟩
  · rw [heq, Impl.SetLightingProfile_shape]
    refine ⟨?_, h.2.1, h.2.2⟩
    show (s.settings.wgtLightingProfile.SetSelectedValue name).items = _
    rw [Combobox.SetSelectedValue_items]
    exact h.1
  · rw [heq]
    exact h

namespace GuiVisualizer

lemma PanelAsConstructed_fold (env : Env) (size : Nat) (xs : List Geometry) (l0 : SetGeometryLoop)
    (h : PanelAsConstructed l0.state) :
    PanelAsConstructed (xs.foldl (SetGeometryStep env size) l0).state := by
  induction xs generalizing l0 with
  | nil => exact h
  | cons x rest ih =>
    rw [List.foldl_cons]
    apply ih
    have hA : PanelAsConstructed (SetGeometryAdd env l0 x).state :=
      PanelAsConstructed_of_lighting _ _ (SetGeometryAdd_lighting env l0 x) h
    by_cases hn : (SetGeometryAdd env l0 x).nPointClouds = size
    · exact PanelAsConstructed_of_lighting _ _ (SetGeometryStep_lighting_of_eq env size l0 x hn)
        (PanelAsConstructed_SetLightingProfileNamed env _ _ hA)
    · exact PanelAsConstructed_of_lighting _ _ (SetGeometryStep_quiet env size l0 x hn).1 h

/-- The method `SetGeometry` keeps the lighting panel as the constructor built it. -/
lemma PanelAsConstructed_SetGeometry (env : Env) (s : State) (gs : List Geometry)
    (h : PanelAsConstructed s) : PanelAsConstructed (SetGeometry env s gs) := by
  rw [SetGeometry_eq]
  refine PanelAsConstructed_of_lighting _ _ (SetGeometryAxes_lighting env _) ?_
  apply PanelAsConstructed_fold
  exact PanelAsConstructed_of_lighting _ _
    (SetGeometryClear_lighting (s.log (Call.SetGeometry gs))) h

/-- The constructor builds the lighting panel that the theorems on `SetGeometry` and on
the lighting profiles assume, whatever the world and the geometries. -/
lemma PanelAsConstructed_new (env : Env) (gs : List Geometry) (title : String) :
    PanelAsConstructed (new env gs title) := by
  unfold new
  apply PanelAsConstructed_SetGeometry
  exact ⟨rfl, ⟨rfl, rfl⟩, ⟨rfl, rfl⟩⟩

end GuiVisualizer

/-! ### Sample runs -/

lemma Examples.profile_mem : Examples.profile ∈ gLightingProfiles :=
  List.mem_cons_of_mem _ (List.mem_cons_of_mem _ (List.mem_cons_of_mem _ (List.mem_cons_self _ _)))

lemma Examples.window_panel : PanelAsConstructed Examples.window := ⟨rfl, ⟨rfl, rfl⟩, ⟨rfl, rfl⟩⟩

/-- Sample run for C1: the two-coloured sample cloud, alone in the input, on the sample
window. -/
theorem setGeometry_material_policy_witness :
    ([Geometry.pointCloud Examples.cloud])[0]? = some (Geometry.pointCloud Examples.cloud) ∧
    ((Geometry.pointCloud Examples.cloud).GetGeometryType = GeometryType.PointCloud ∨
      (Geometry.pointCloud Examples.cloud).GetGeometryType = GeometryType.LineSet ∨
      (Geometry.pointCloud Examples.cloud).GetGeometryType = GeometryType.TriangleMesh) ∧
    ∃ handle materials,
      (GuiVisualizer.SetGeometry Examples.env Examples.window
        [Geometry.pointCloud Examples.cloud]).geometryHandles[0]? = some handle ∧
      (handle, materials) ∈ (GuiVisualizer.SetGeometry Examples.env Examples.window
        [Geometry.pointCloud Examples.cloud]).geometryMaterials ∧
      Examples.window.renderer.lastId < materials.lit.handle ∧
      Examples.window.renderer.lastId < materials.unlit.handle ∧
      materials.lit.handle ≠ materials.unlit.handle ∧
      (addGeometryCalls (GuiVisualizer.SetGeometry Examples.env Examples.window
        [Geometry.pointCloud Examples.cloud]).calls)[
          (addGeometryCalls Examples.window.calls).length + 0]? =
        some (Geometry.pointCloud Examples.cloud, some
          (if Examples.cloud.HasColors = true ∧
              SmartMode.PointCloudHasUniformColor Examples.cloud = false
            then materials.unlit.handle else materials.lit.handle)) :=
  ⟨rfl, Or.inl rfl,
    GuiVisualizer.setGeometry_material_policy Examples.env Examples.window
      [Geometry.pointCloud Examples.cloud] 0 (Geometry.pointCloud Examples.cloud) rfl (Or.inl rfl)⟩

/-- Sample run for C4 (amended): the sample cloud, alone in the input, on the sample
window, which shows the default profile before the call. -/
theorem setGeometry_pointClouds_force_profile_witness :
    [Geometry.pointCloud Examples.cloud] ≠ [] ∧
    (∀ g ∈ [Geometry.pointCloud Examples.cloud], g.GetGeometryType = GeometryType.PointCloud) ∧
    PanelAsConstructed Examples.window ∧
    ∃ p ∈ gLightingProfiles, p.name = kPointCloudProfileName ∧
      RendererShows (GuiVisualizer.SetGeometry Examples.env Examples.window
        [Geometry.pointCloud Examples.cloud]) p ∧
      WidgetsShow (GuiVisualizer.SetGeometry Examples.env Examples.window
        [Geometry.pointCloud Examples.cloud]) p ∧
      (GuiVisualizer.SetGeometry Examples.env Examples.window
        [Geometry.pointCloud Examples.cloud]).settings.wgtLightingProfile.GetSelectedValue =
        some kPointCloudProfileName :=
  ⟨by simp, by simp [Geometry.GetGeometryType], Examples.window_panel,
    GuiVisualizer.setGeometry_pointClouds_force_profile Examples.env Examples.window
      [Geometry.pointCloud Examples.cloud] (by simp) (by simp [Geometry.GetGeometryType])
      Examples.window_panel⟩

/-- Sample run for C5: the sample cloud followed by the sample mesh, on the sample
window. -/
theorem setGeometry_mixed_keeps_lighting_witness :
    (∃ g ∈ [Geometry.pointCloud Examples.cloud, Geometry.triangleMesh Examples.triangle],
      g.GetGeometryType ≠ GeometryType.PointCloud) ∧
    (∀ k, k < [Geometry.pointCloud Examples.cloud,
        Geometry.triangleMesh Examples.triangle].length →
      (GuiVisualizer.SetGeometryIterations Examples.env
        (Examples.window.log (Call.SetGeometry
          [Geometry.pointCloud Examples.cloud, Geometry.triangleMesh Examples.triangle]))
        [Geometry.pointCloud Examples.cloud, Geometry.triangleMesh Examples.triangle]
        (k + 1)).nPointClouds
        ≠ [Geometry.pointCloud Examples.cloud,
            Geometry.triangleMesh Examples.triangle].length) ∧
    setLightingProfileCalls (GuiVisualizer.SetGeometry Examples.env Examples.window
      [Geometry.pointCloud Examples.cloud, Geometry.triangleMesh Examples.triangle]).calls =
      setLightingProfileCalls Examples.window.calls ∧
    (GuiVisualizer.SetGeometry Examples.env Examples.window
      [Geometry.pointCloud Examples.cloud, Geometry.triangleMesh Examples.triangle]).lighting =
      Examples.window.lighting :=
  ⟨⟨Geometry.triangleMesh Examples.triangle, by simp, by simp [Geometry.GetGeometryType]⟩,
    GuiVisualizer.setGeometry_mixed_keeps_lighting Examples.env Examples.window
      [Geometry.pointCloud Examples.cloud, Geometry.triangleMesh Examples.triangle]
      ⟨Geometry.triangleMesh Examples.triangle, by simp, by simp [Geometry.GetGeometryType]⟩⟩

/-- Sample run for C9: the sample profile applied to the sample window. -/
theorem setLightingProfile_roundTrip_witness :
    Examples.profile ∈ gLightingProfiles ∧
    (Examples.window.settings.wgtIBLIntensity.minValue = 0 ∧
      Examples.window.settings.wgtIBLIntensity.maxValue = 150000) ∧
    (Examples.window.settings.wgtSunIntensity.minValue = 0 ∧
      Examples.window.settings.wgtSunIntensity.maxValue = 500000) ∧
    (Impl.SetLightingProfile Examples.env Examples.window
      Examples.profile).settings.wgtIBLIntensity.GetDoubleValue = Examples.profile.iblIntensity ∧
    (Impl.SetLightingProfile Examples.env Examples.window
      Examples.profile).settings.wgtSunIntensity.GetDoubleValue = Examples.profile.sunIntensity ∧
    (Impl.SetLightingProfile Examples.env Examples.window
      Examples.profile).settings.wgtSkyEnabled.IsChecked = false :=
  ⟨Examples.profile_mem, ⟨rfl, rfl⟩, ⟨rfl, rfl⟩,
    (setLightingProfile_roundTrip Examples.env Examples.window Examples.profile
      Examples.profile_mem ⟨rfl, rfl⟩ ⟨rfl, rfl⟩).2.2.1,
    (setLightingProfile_roundTrip Examples.env Examples.window Examples.profile
      Examples.profile_mem ⟨rfl, rfl⟩ ⟨rfl, rfl⟩).2.2.2.1,
    (setLightingProfile_roundTrip Examples.env Examples.window Examples.profile
      Examples.profile_mem ⟨rfl, rfl⟩ ⟨rfl, rfl⟩).2.2.2.2.2.2.1⟩

/-- Sample run for C10: the sample profile applied by name to the sample window, then the
sun-intensity slider moved. -/
theorem lighting_handlers_select_custom_witness :
    Examples.profile ∈ gLightingProfiles ∧
    Examples.window.settings.wgtLightingProfile.items =
      GuiVisualizer.lightingProfileItems.items ∧
    (Impl.SetLightingProfileNamed Examples.env Examples.window
      Examples.profile.name).settings.wgtLightingProfile.GetSelectedValue =
      some Examples.profile.name ∧
    ShowsCustom (GuiVisualizer.wgtSunIntensity_OnValueChanged
      (Impl.SetLightingProfileNamed Examples.env Examples.window Examples.profile.name) 42) :=
  ⟨Examples.profile_mem, rfl,
    (lighting_handlers_select_custom Examples.env Examples.window Examples.profile
      Examples.profile_mem rfl).1,
    (lighting_handlers_select_custom Examples.env Examples.window Examples.profile
      Examples.profile_mem rfl).2.2.2.2.2.2.1 42⟩

/-! ### The skybox that goes with an indirect light -/

namespace Impl

lemma SetIBLSkybox_of_no_attempt (env : Env) (s : State) (p : String)
    (h : stdFind p "_ibl.ktx" = npos) : SetIBLSkybox env s p = s := by
  unfold SetIBLSkybox
  dsimp only
  rw [if_neg (by simpa using h)]

lemma SetIBLSkybox_hSky (env : Env) (s : State) (p : String)
    (h : stdFind p "_ibl.ktx" ≠ npos) :
    (SetIBLSkybox env s p).settings.hSky =
      if env.skyboxLoads (derivedSkyboxPath p) = true then s.renderer.lastId + 1
      else (s.renderer.AddSkybox env p).1 := by
  cases h1 : env.skyboxLoads (derivedSkyboxPath p) <;> cases h2 : env.skyboxLoads p <;>
    cases h3 : s.settings.wgtSkyEnabled.IsChecked <;>
    unfold derivedSkyboxPath at h1 <;>
    unfold SetIBLSkybox Renderer.AddSkybox Renderer.loadAsset <;>
    dsimp only <;>
    rw [if_pos h] <;>
    simp [h1, h2, h3, State.onSettings, State.onScene3d, Scene.SetSkybox, SceneWidget.SetSkyboxHandle, isValid, kBad]

lemma SetIBLSkybox_skybox (env : Env) (s : State) (p : String)
    (h : stdFind p "_ibl.ktx" ≠ npos) :
    (SetIBLSkybox env s p).scene.scene3d.skybox =
      if s.settings.wgtSkyEnabled.IsChecked = true then (SetIBLSkybox env s p).settings.hSky
      else s.scene.scene3d.skybox := by
  cases h1 : env.skyboxLoads (derivedSkyboxPath p) <;> cases h2 : env.skyboxLoads p <;>
    cases h3 : s.settings.wgtSkyEnabled.IsChecked <;>
    unfold derivedSkyboxPath at h1 <;>
    unfold SetIBLSkybox Renderer.AddSkybox Renderer.loadAsset <;>
    dsimp only <;>
    rw [if_pos h] <;>
    simp [h1, h2, h3, State.onSettings, State.onScene3d, Scene.SetSkybox, SceneWidget.SetSkyboxHandle, isValid, kBad]

end Impl

namespace Impl

lemma AddIndirectLight_valid (r : Renderer) (env : Env) (p : String) :
    isValid (r.AddIndirectLight env p).1 = env.indirectLightLoads p := by
  unfold Renderer.AddIndirectLight Renderer.loadAsset isValid kBad
  cases env.indirectLightLoads p <;> simp

lemma AddIndirectLight_of_loads (r : Renderer) (env : Env) (p : String)
    (h : env.indirectLightLoads p = true) :
    r.AddIndirectLight env p = (r.lastId + 1, { r with lastId := r.lastId + 1 }) := by
  unfold Renderer.AddIndirectLight Renderer.loadAsset
  rw [if_pos h]

lemma AddSkybox_valid (r : Renderer) (env : Env) (p : String) :
    isValid (r.AddSkybox env p).1 = env.skyboxLoads p := by
  unfold Renderer.AddSkybox Renderer.loadAsset isValid kBad
  cases env.skyboxLoads p <;> simp

lemma AddSkybox_of_loads (r : Renderer) (env : Env) (p : String)
    (h : env.skyboxLoads p = true) : (r.AddSkybox env p).1 = r.lastId + 1 := by
  unfold Renderer.AddSkybox Renderer.loadAsset
  rw [if_pos h]

lemma SetIBL_wgtSkyEnabled (env : Env) (s : State) (path : Option String) :
    (SetIBL env s path).2.settings.wgtSkyEnabled = s.settings.wgtSkyEnabled := by
  have h := congrArg (fun x => x.settings.wgtSkyEnabled) (SetIBL_shape env s path)
  exact h

/-- C13: when the indirect-light load of `Impl::SetIBL` fails (the handle the renderer
returns converts to false), the call returns false and the window after it is the window
before it: the handles `hIbl` and `hSky`, the indirect light of the scene and its intensity,
the skybox of the scene and every widget are untouched. No skybox load is attempted: the
outcome is the same whichever files would load as a skybox. -/
theorem setIBL_failure_leaves_state (env : Env) (s : State) (path : Option String)
    (hfail : isValid (s.renderer.AddIndirectLight env (iblPathOf env path)).1 = false) :
    (SetIBL env s path).1 = false ∧
    (SetIBL env s path).2 = s ∧
    ∀ loads : String → Bool, SetIBL { env with skyboxLoads := loads } s path = (false, s) := by
  rw [AddIndirectLight_valid] at hfail
  refine ⟨?_, ?_, ?_⟩
  · rw [SetIBL_of_not_loads env s path hfail]
  · rw [SetIBL_of_not_loads env s path hfail]
  · intro loads
    exact SetIBL_of_not_loads { env with skyboxLoads := loads } s path hfail

/-- C14: when the indirect-light load of `Impl::SetIBL` succeeds, the call returns true,
`settings.hIbl` and the indirect light of the scene are the handle the renderer returned, and
the intensity of the indirect light after the call is the one `GetIndirectLightIntensity`
gave before the swap, whatever intensity the scene reports for the new light. -/
theorem setIBL_success_swaps_handle (env : Env) (s : State) (path : Option String)
    (hload : isValid (s.renderer.AddIndirectLight env (iblPathOf env path)).1 = true) :
    (SetIBL env s path).1 = true ∧
    (SetIBL env s path).2.settings.hIbl =
      (s.renderer.AddIndirectLight env (iblPathOf env path)).1 ∧
    (SetIBL env s path).2.scene.scene3d.indirectLight =
      (s.renderer.AddIndirectLight env (iblPathOf env path)).1 ∧
    (SetIBL env s path).2.scene.scene3d.indirectLightIntensity =
      s.scene.scene3d.GetIndirectLightIntensity := by
  rw [AddIndirectLight_valid] at hload
  rw [SetIBL_of_loads env s path hload, AddIndirectLight_of_loads _ _ _ hload]
  dsimp only
  generalize hS : ({ s with
      renderer := { s.renderer with lastId := s.renderer.lastId + 1 },
      settings := { s.settings with hIbl := s.renderer.lastId + 1 },
      scene := { s.scene with
        scene3d := { s.scene.scene3d with
          indirectLight := s.renderer.lastId + 1,
          indirectLightIntensity := s.scene.scene3d.indirectLightIntensity } } } : State) = S
  have hshape := SetIBLSkybox_shape env S (iblPathOf env path)
  refine ⟨rfl, ?_, ?_, ?_⟩
  · have h := congrArg (fun x => x.settings.hIbl) hshape
    rw [← hS] at h ⊢
    exact h
  · have h := congrArg (fun x => x.scene.scene3d.indirectLight) hshape
    rw [← hS] at h ⊢
    exact h
  · have h := congrArg (fun x => x.scene.scene3d.indirectLightIntensity) hshape
    rw [← hS] at h ⊢
    exact h

/-- C16: when the indirect-light load of `Impl::SetIBL` succeeds the call returns true,
whatever the skybox loads do. When a skybox is looked for (the path holds "_ibl.ktx") and
the load of the derived "_skybox.ktx" path fails, `settings.hSky` is what `AddSkybox` returns
for the original path `iblPath`; when that load fails too, `settings.hSky` is the bad handle
and converts to false. -/
theorem setIBL_skybox_fallback (env : Env) (s : State) (path : Option String)
    (hload : isValid (s.renderer.AddIndirectLight env (iblPathOf env path)).1 = true) :
    (SetIBL env s path).1 = true ∧
    (stdFind (iblPathOf env path) "_ibl.ktx" ≠ npos →
      isValid ((s.renderer.AddIndirectLight env (iblPathOf env path)).2.AddSkybox env
        (derivedSkyboxPath (iblPathOf env path))).1 = false →
      (SetIBL env s path).2.settings.hSky =
        ((s.renderer.AddIndirectLight env (iblPathOf env path)).2.AddSkybox env
          (iblPathOf env path)).1 ∧
      (isValid ((s.renderer.AddIndirectLight env (iblPathOf env path)).2.AddSkybox env
          (iblPathOf env path)).1 = false →
        (SetIBL env s path).2.settings.hSky = kBad ∧
        isValid (SetIBL env s path).2.settings.hSky = false)) := by
  rw [AddIndirectLight_valid] at hload
  rw [SetIBL_of_loads env s path hload, AddIndirectLight_of_loads _ _ _ hload]
  refine ⟨rfl, ?_⟩
  intro hfind hder
  rw [AddSkybox_valid] at hder
  have hsky := SetIBLSkybox_hSky env
    { s with
      renderer := { s.renderer with lastId := s.renderer.lastId + 1 },
      settings := { s.settings with hIbl := s.renderer.lastId + 1 },
      scene := { s.scene with
        scene3d := { s.scene.scene3d with
          indirectLight := s.renderer.lastId + 1,
          indirectLightIntensity := s.scene.scene3d.indirectLightIntensity } } }
    (iblPathOf env path) hfind
  rw [if_neg (by rw [hder]; exact Bool.false_ne_true)] at hsky
  refine ⟨hsky, ?_⟩
  intro hboth
  have h0 : ((({ s.renderer with lastId := s.renderer.lastId + 1 } : Renderer).AddSkybox env
      (iblPathOf env path)).1) = kBad := by
    rw [AddSkybox_valid] at hboth
    unfold Renderer.AddSkybox Renderer.loadAsset
    rw [if_neg (by rw [hboth]; exact Bool.false_ne_true)]
  dsimp only at hsky ⊢
  exact ⟨hsky.trans h0, by rw [hsky]; exact hboth⟩

/-- C17: `Impl::SetIBL` leaves the "Show skymap" checkbox as it is. When the checkbox is
unchecked the skybox of the scene is the same after the call as before. When it is checked
and a skybox is loaded (the indirect light loaded and its path holds "_ibl.ktx"), the skybox
of the scene after the call is the handle the call stored in `settings.hSky`, which is what
`AddSkybox` returned for the derived path or, when that converts to false, for the original
path. -/
theorem setIBL_skymap_checkbox (env : Env) (s : State) (path : Option String) :
    (SetIBL env s path).2.settings.wgtSkyEnabled = s.settings.wgtSkyEnabled ∧
    (s.settings.wgtSkyEnabled.IsChecked = false →
      (SetIBL env s path).2.scene.scene3d.skybox = s.scene.scene3d.skybox) ∧
    (s.settings.wgtSkyEnabled.IsChecked = true →
      isValid (s.renderer.AddIndirectLight env (iblPathOf env path)).1 = true →
      stdFind (iblPathOf env path) "_ibl.ktx" ≠ npos →
      (SetIBL env s path).2.scene.scene3d.skybox = (SetIBL env s path).2.settings.hSky ∧
      (SetIBL env s path).2.settings.hSky =
        if isValid ((s.renderer.AddIndirectLight env (iblPathOf env path)).2.AddSkybox env
            (derivedSkyboxPath (iblPathOf env path))).1 = true then
          ((s.renderer.AddIndirectLight env (iblPathOf env path)).2.AddSkybox env
            (derivedSkyboxPath (iblPathOf env path))).1
        else
          ((s.renderer.AddIndirectLight env (iblPathOf env path)).2.AddSkybox env
            (iblPathOf env path)).1) := by
  refine ⟨SetIBL_wgtSkyEnabled env s path, ?_, ?_⟩
  · intro hoff
    cases hload : env.indirectLightLoads (iblPathOf env path)
    · rw [SetIBL_of_not_loads env s path hload]
    · rw [SetIBL_of_loads env s path hload]
      dsimp only
      by_cases hfind : stdFind (iblPathOf env path) "_ibl.ktx" = npos
      · rw [SetIBLSkybox_of_no_attempt _ _ _ hfind]
      · rw [SetIBLSkybox_skybox _ _ _ hfind]
        dsimp only
        rw [if_neg (by rw [hoff]; exact Bool.false_ne_true)]
  · intro hon hload hfind
    rw [AddIndirectLight_valid] at hload
    rw [SetIBL_of_loads env s path hload, AddIndirectLight_of_loads _ _ _ hload]
    dsimp only
    refine ⟨?_, ?_⟩
    · rw [SetIBLSkybox_skybox _ _ _ hfind]
      dsimp only
      rw [if_pos hon]
    · rw [SetIBLSkybox_hSky _ _ _ hfind, AddSkybox_valid]
      dsimp only
      split_ifs with h1
      · exact (AddSkybox_of_loads { s.renderer with lastId := s.renderer.lastId + 1 } env _ h1).symm
      · rfl

end Impl

/-! ### Applying a profile by its name -/

namespace Impl

lemma SetLightingProfileScan_none (env : Env) (s : State) (name : String)
    (table : List LightingProfile) (h : ∀ p ∈ table, p.name ≠ name) :
    SetLightingProfileScan env s name table =
      s.log (Call.LogWarning ("Could not find lighting profile " ++ name)) := by
  induction table with
  | nil => rfl
  | cons p rest ih =>
    have hp : p.name ≠ name := h p (List.mem_cons_self _ _)
    simp only [SetLightingProfileScan, hp, if_false]
    exact ih (fun q hq => h q (List.mem_cons_of_mem _ hq))

lemma SetLightingProfileScan_first (env : Env) (s : State) (name : String)
    (pre : List LightingProfile) (p : LightingProfile) (post : List LightingProfile)
    (hpre : ∀ q ∈ pre, q.name ≠ name) (hp : p.name = name) :
    SetLightingProfileScan env s name (pre ++ p :: post) =
      (SetLightingProfile env s p).onSettings (fun st =>
        { st with wgtLightingProfile := st.wgtLightingProfile.SetSelectedValue name }) := by
  induction pre with
  | nil => simp only [List.nil_append, SetLightingProfileScan, hp, if_true]
  | cons q rest ih =>
    have hq : q.name ≠ name := hpre q (List.mem_cons_self _ _)
    simp only [List.cons_append, SetLightingProfileScan, hq, if_false]
    exact ih (fun r hr => hpre r (List.mem_cons_of_mem _ hr))

end Impl

lemma selector_named_index (w : Combobox) (p : LightingProfile) (hp : p ∈ gLightingProfiles)
    (hitems : w.items = GuiVisualizer.lightingProfileItems.items) :
    (w.SetSelectedValue p.name).GetSelectedIndex < gLightingProfiles.length := by
  obtain ⟨items, idx, en⟩ := w
  simp only at hitems
  subst hitems
  simp only [gLightingProfiles, List.mem_cons, List.mem_singleton, List.not_mem_nil,
    or_false] at hp
  rcases hp with rfl | rfl | rfl | rfl | rfl | rfl | rfl
  exacts [(by decide : 0 < 7), (by decide : 1 < 7), (by decide : 2 < 7), (by decide : 3 < 7),
    (by decide : 4 < 7), (by decide : 5 < 7), (by decide : 6 < 7)]

/-- C12: `SetLightingProfile(renderer, name)` with a name that no entry of `gLightingProfiles`
has leaves the window as it is, the renderer and every widget included: only the trace
grows, by the call and its warning. With a name of the table it applies the first profile of
that name and selects the name in the lighting-profile selector; on a selector that holds
the items the constructor gave it, the selector then shows the name at an index below the
sentinel, so it no longer shows Custom. -/
theorem setLightingProfile_by_name (env : Env) (s : State) (name : String) :
    ((∀ p ∈ gLightingProfiles, p.name ≠ name) →
      Impl.SetLightingProfileNamed env s name =
        { s with calls := s.calls ++
            [Call.SetLightingProfile name,
             Call.LogWarning ("Could not find lighting profile " ++ name)] }) ∧
    (∀ pre p post, gLightingProfiles = pre ++ p :: post → (∀ q ∈ pre, q.name ≠ name) →
      p.name = name →
      Impl.SetLightingProfileNamed env s name =
        (Impl.SetLightingProfile env (s.log (Call.SetLightingProfile name)) p).onSettings
          (fun st =>
            { st with wgtLightingProfile := st.wgtLightingProfile.SetSelectedValue name }) ∧
      (s.settings.wgtLightingProfile.items = GuiVisualizer.lightingProfileItems.items →
        (Impl.SetLightingProfileNamed env s name).settings.wgtLightingProfile.GetSelectedValue =
          some name ∧
        (Impl.SetLightingProfileNamed env s name).settings.wgtLightingProfile.GetSelectedIndex <
          gLightingProfiles.length ∧
        ¬ ShowsCustom (Impl.SetLightingProfileNamed env s name))) := by
  refine ⟨?_, ?_⟩
  · intro hnone
    unfold Impl.SetLightingProfileNamed
    rw [Impl.SetLightingProfileScan_none _ _ _ _ hnone]
    simp only [State.log, List.append_assoc, List.singleton_append]
  · intro pre p post htable hpre hp
    have hmem : p ∈ gLightingProfiles := by rw [htable]; simp
    refine ⟨?_, ?_⟩
    · unfold Impl.SetLightingProfileNamed
      rw [htable]
      exact Impl.SetLightingProfileScan_first _ _ _ _ _ _ hpre hp
    · intro hitems
      have hsel := SetLightingProfileNamed_selector env s p hmem
      rw [hp] at hsel
      have h1 := selector_shows_named s.settings.wgtLightingProfile p hmem hitems
      have h2 := selector_named_index s.settings.wgtLightingProfile p hmem hitems
      rw [hp] at h1 h2
      refine ⟨by rw [hsel]; exact h1.1, by rw [hsel]; exact h2, ?_⟩
      intro hcustom
      have h3 := hcustom.1
      rw [hsel] at h3
      omega

/-! ### The path of the skybox -/

lemma findFrom_length (pat cs : List Char) (i : Nat) (h : findFrom pat cs i ≠ npos) :
    pat.length ≤ cs.length := by
  induction cs generalizing i with
  | nil =>
    unfold findFrom at h
    split_ifs at h with hp
    · rw [List.isEmpty_iff] at hp
      rw [hp]
    · exact absurd rfl h
  | cons c cs ih =>
    unfold findFrom at h
    split_ifs at h with hp
    · exact (List.isPrefixOf_iff_prefix.mp hp).length_le
    · exact le_trans (ih _ h) (Nat.le_succ _)

lemma sizeSub_of_le (a b : Nat) (hb : b ≤ a) (ha : a < 2 ^ 64) : sizeSub a b = a - b := by
  unfold sizeSub
  have hb2 : b % 2 ^ 64 = b := Nat.mod_eq_of_lt (lt_of_le_of_lt hb ha)
  rw [hb2]
  have h : a + 2 ^ 64 - b = (a - b) + 2 ^ 64 := by omega
  rw [h, Nat.add_mod_right]
  exact Nat.mod_eq_of_lt (lt_of_le_of_lt (Nat.sub_le _ _) ha)

lemma derivedSkyboxPath_of_suffix (stem : List Char) (p : String)
    (hp : p.toList = stem ++ "_ibl.ktx".toList) (hsize : stdSize p < 2 ^ 64) :
    (Impl.derivedSkyboxPath p).toList = stem ++ "_skybox.ktx".toList := by
  have hlen : stdSize p = stem.length + 8 := by
    unfold stdSize
    rw [hp, List.length_append]
    rfl
  unfold Impl.derivedSkyboxPath substr0
  rw [sizeSub_of_le _ _ (by omega) hsize, hlen, Nat.add_sub_cancel, hp]
  rw [String.toList, String.data_append]
  simp

/-- C15: the path "sky_ibl.ktx_v2.ktx" holds "_ibl.ktx" without ending in it. `Impl::SetIBL`
looks for a skybox all the same: the test is `find("_ibl.ktx") != npos`. The path it derives
is "sky_ibl.kt_skybox.ktx", the path without its last eight characters followed by
"_skybox.ktx", which is not the path with the suffix replaced; in a world where that file
loads, `settings.hSky` goes from 2 to the new handle 6. What does hold for every path: when a
skybox is looked for the path has at least eight characters, so `size - 8` does not wrap;
and for a path that ends in "_ibl.ktx" the derived path is the path with that suffix
replaced by "_skybox.ktx". -/
theorem setIBL_skybox_path_contains :
    stdFind "sky_ibl.ktx_v2.ktx" "_ibl.ktx" ≠ npos ∧
    ¬ endsWith "sky_ibl.ktx_v2.ktx" "_ibl.ktx" ∧
    Impl.derivedSkyboxPath "sky_ibl.ktx_v2.ktx" = "sky_ibl.kt_skybox.ktx" ∧
    ¬ suffixReplaced "sky_ibl.ktx_v2.ktx" "_ibl.ktx" "_skybox.ktx"
      (Impl.derivedSkyboxPath "sky_ibl.ktx_v2.ktx") ∧
    Examples.window.settings.hSky = 2 ∧
    (Impl.SetIBL Examples.envCopy Examples.window (some "sky_ibl.ktx_v2.ktx")).2.settings.hSky = 6 ∧
    (∀ p : String, stdFind p "_ibl.ktx" ≠ npos →
      8 ≤ stdSize p ∧ (stdSize p < 2 ^ 64 → sizeSub (stdSize p) 8 = stdSize p - 8)) ∧
    (∀ p : String, stdSize p < 2 ^ 64 → endsWith p "_ibl.ktx" →
      suffixReplaced p "_ibl.ktx" "_skybox.ktx" (Impl.derivedSkyboxPath p)) := by
  have hends : ¬ endsWith "sky_ibl.ktx_v2.ktx" "_ibl.ktx" := by
    unfold endsWith
    decide
  refine ⟨by decide, hends, by decide, ?_, rfl, rfl, ?_, ?_⟩
  · rintro ⟨stem, h1, _⟩
    exact hends ⟨stem, h1.symm⟩
  · intro p hp
    have h8 : 8 ≤ stdSize p := findFrom_length _ _ _ hp
    exact ⟨h8, fun hsize => sizeSub_of_le _ _ h8 hsize⟩
  · rintro p hsize ⟨stem, hstem⟩
    exact ⟨stem, hstem.symm, derivedSkyboxPath_of_suffix stem p hstem.symm hsize⟩

/-! ### Controls that leave the selector where it is -/

namespace GuiVisualizer

lemma wgtIBLs_OnValueChanged_selector (env : Env) (s : State) (name : String) :
    (wgtIBLs_OnValueChanged env s name).settings.wgtLightingProfile =
      s.settings.wgtLightingProfile := by
  have hshape := Impl.SetIBL_shape env s (some (env.resourcePath ++ ("/" ++ name ++ "_ibl.ktx")))
  have h := congrArg (fun x => x.settings.wgtLightingProfile) hshape
  unfold wgtIBLs_OnValueChanged SetIBL
  dsimp only
  split_ifs <;> exact h

/-- C11: two handlers of controls that applying a profile sets leave the lighting-profile
selector where it is. The on-checked handler of "Show skymap" never calls `SetCustomProfile`,
and the on-value-changed handler of the HDR-map selector does not either: only the on-done
handler of the dialog it opens when the map fails to load does. On the sample window with
the fourth profile applied the selector is at index 3; it is still at index 3, not at the
sentinel 7, after the skymap is switched on and after the listed map "park" is chosen,
although the indirect light has changed. -/
theorem skymap_and_listed_map_keep_selector :
    (∀ (s : State) (checked : Bool),
      (wgtSkyEnabled_OnChecked s checked).settings.wgtLightingProfile =
        s.settings.wgtLightingProfile) ∧
    (∀ (env : Env) (s : State) (name : String),
      (wgtIBLs_OnValueChanged env s name).settings.wgtLightingProfile =
        s.settings.wgtLightingProfile) ∧
    gLightingProfiles.length = 7 ∧
    (Impl.SetLightingProfileNamed Examples.envPark Examples.window
      Examples.profile.name).settings.wgtLightingProfile.GetSelectedIndex = 3 ∧
    (wgtSkyEnabled_OnChecked (Impl.SetLightingProfileNamed Examples.envPark Examples.window
      Examples.profile.name) true).settings.wgtLightingProfile.GetSelectedIndex = 3 ∧
    (wgtSkyEnabled_OnChecked (Impl.SetLightingProfileNamed Examples.envPark Examples.window
      Examples.profile.name) true).scene.scene3d.skybox = 2 ∧
    (wgtIBLs_OnValueChanged Examples.envPark (Impl.SetLightingProfileNamed Examples.envPark
      Examples.window Examples.profile.name) "park").settings.wgtLightingProfile.GetSelectedIndex
      = 3 ∧
    (Impl.SetLightingProfileNamed Examples.envPark Examples.window
      Examples.profile.name).scene.scene3d.indirectLight = 1 ∧
    (wgtIBLs_OnValueChanged Examples.envPark (Impl.SetLightingProfileNamed Examples.envPark
      Examples.window Examples.profile.name) "park").scene.scene3d.indirectLight = 5 := by
  refine ⟨?_, wgtIBLs_OnValueChanged_selector, rfl, rfl, rfl, rfl, rfl, rfl, rfl⟩
  intro s checked
  cases checked <;> rfl

end GuiVisualizer

/-! ### Sample runs of `SetIBL` -/

/-- Sample run for C13: a file that does not load, on the sample window. -/
theorem setIBL_failure_leaves_state_witness :
    isValid (Examples.window.renderer.AddIndirectLight Examples.env
      (Impl.iblPathOf Examples.env (some "missing_ibl.ktx"))).1 = false ∧
    (Impl.SetIBL Examples.env Examples.window (some "missing_ibl.ktx")).1 = false ∧
    (Impl.SetIBL Examples.env Examples.window (some "missing_ibl.ktx")).2 = Examples.window ∧
    ∀ loads : String → Bool,
      Impl.SetIBL { Examples.env with skyboxLoads := loads } Examples.window
        (some "missing_ibl.ktx") = (false, Examples.window) :=
  ⟨rfl, Impl.setIBL_failure_leaves_state Examples.env Examples.window (some "missing_ibl.ktx")
    rfl⟩

/-- Sample run for C14: the default map on the sample window; the scene of the sample world
reports the intensity 30000 after a swap, the window keeps 100000. -/
theorem setIBL_success_swaps_handle_witness :
    isValid (Examples.window.renderer.AddIndirectLight Examples.env
      (Impl.iblPathOf Examples.env none)).1 = true ∧
    Examples.env.intensityAfterSwap 5 100000 = 30000 ∧
    Examples.window.scene.scene3d.GetIndirectLightIntensity = 100000 ∧
    (Impl.SetIBL Examples.env Examples.window none).2.settings.hIbl = 5 ∧
    (Impl.SetIBL Examples.env Examples.window none).2.scene.scene3d.indirectLight = 5 ∧
    (Impl.SetIBL Examples.env Examples.window none).2.scene.scene3d.indirectLightIntensity =
      100000 :=
  ⟨rfl, rfl, rfl,
    (Impl.setIBL_success_swaps_handle Examples.env Examples.window none rfl).2.1,
    (Impl.setIBL_success_swaps_handle Examples.env Examples.window none rfl).2.2.1,
    (Impl.setIBL_success_swaps_handle Examples.env Examples.window none rfl).2.2.2⟩

/-- Sample run for C16: the map "park" has no "_skybox.ktx" file, its skybox is loaded from
the file of the map. -/
theorem setIBL_skybox_fallback_witness :
    isValid (Examples.window.renderer.AddIndirectLight Examples.envPark
      (Impl.iblPathOf Examples.envPark (some "/res/park_ibl.ktx"))).1 = true ∧
    Impl.derivedSkyboxPath "/res/park_ibl.ktx" = "/res/park_skybox.ktx" ∧
    Examples.envPark.skyboxLoads "/res/park_skybox.ktx" = false ∧
    (Impl.SetIBL Examples.envPark Examples.window (some "/res/park_ibl.ktx")).1 = true ∧
    (Impl.SetIBL Examples.envPark Examples.window (some "/res/park_ibl.ktx")).2.settings.hSky
      = 6 :=
  ⟨rfl, by decide, rfl,
    (Impl.setIBL_skybox_fallback Examples.envPark Examples.window (some "/res/park_ibl.ktx")
      rfl).1,
    ((Impl.setIBL_skybox_fallback Examples.envPark Examples.window (some "/res/park_ibl.ktx")
      rfl).2 (by decide) rfl).1⟩

/-! ### What `SetGeometry` removes and what it adds -/

namespace GuiVisualizer

lemma fold_removeGeometry_mem (hs : List Nat) (t : State) (e : SceneGeometry) :
    e ∈ (hs.foldl (fun s h => s.onScene3d (fun sc => sc.RemoveGeometry h))
      t).scene.scene3d.geometries ↔ e ∈ t.scene.scene3d.geometries ∧ e.handle ∉ hs := by
  induction hs generalizing t with
  | nil => simp
  | cons h rest ih =>
    rw [List.foldl_cons, ih]
    simp only [State.onScene3d, Scene.RemoveGeometry, List.mem_filter, List.mem_cons, not_or,
      bne_iff_ne, ne_eq]
    tauto

lemma fold_removeMaterials_mem (ms : List (Nat × Materials)) (t : State) (m : MaterialInstance) :
    m ∈ (ms.foldl (fun s pair =>
      let renderer := s.renderer.RemoveMaterialInstance pair.2.unlit.handle
      let renderer := renderer.RemoveMaterialInstance pair.2.lit.handle
      { s with renderer := renderer }) t).renderer.materialInstances ↔
    m ∈ t.renderer.materialInstances ∧
      ∀ pair ∈ ms, m.handle ≠ pair.2.lit.handle ∧ m.handle ≠ pair.2.unlit.handle := by
  induction ms generalizing t with
  | nil => simp
  | cons p rest ih =>
    rw [List.foldl_cons, ih]
    simp only [Renderer.RemoveMaterialInstance, List.mem_filter, List.mem_cons, bne_iff_ne,
      ne_eq, forall_eq_or_imp]
    tauto

lemma SetGeometryClear_geometries (s : State) (e : SceneGeometry) :
    e ∈ (SetGeometryClear s).scene.scene3d.geometries ↔
      e ∈ s.scene.scene3d.geometries ∧ e.handle ∉ s.geometryHandles ∧
        (isValid s.settings.hAxes = true → e.handle ≠ s.settings.hAxes) := by
  have key : (SetGeometryClear s).scene.scene3d.geometries =
      (s.geometryHandles.foldl (fun s h => s.onScene3d (fun sc => sc.RemoveGeometry h))
        (if isValid s.settings.hAxes = true then
          s.onScene3d (fun sc => sc.RemoveGeometry s.settings.hAxes) else s)).scene.scene3d.geometries := by
    unfold SetGeometryClear
    dsimp only
    rw [fold_removeMaterials_shape]
    split_ifs <;> rfl
  rw [key, fold_removeGeometry_mem]
  split_ifs with hv
  · simp only [State.onScene3d, Scene.RemoveGeometry, List.mem_filter, bne_iff_ne, ne_eq, hv,
      forall_true_left]
    tauto
  · simp only [hv, false_implies, and_true, Bool.false_eq_true]

lemma fold_removeMaterials_renderer (ms : List (Nat × Materials)) (t : State) :
    (ms.foldl (fun s pair =>
      let renderer := s.renderer.RemoveMaterialInstance pair.2.unlit.handle
      let renderer := renderer.RemoveMaterialInstance pair.2.lit.handle
      { s with renderer := renderer }) t).renderer =
    ms.foldl (fun r pair =>
      (r.RemoveMaterialInstance pair.2.unlit.handle).RemoveMaterialInstance pair.2.lit.handle)
      t.renderer := by
  induction ms generalizing t with
  | nil => rfl
  | cons p rest ih =>
    rw [List.foldl_cons, ih]
    rfl

lemma SetGeometryClear_instances (s : State) (m : MaterialInstance) :
    m ∈ (SetGeometryClear s).renderer.materialInstances ↔
      m ∈ s.renderer.materialInstances ∧
        ∀ pair ∈ s.geometryMaterials,
          m.handle ≠ pair.2.lit.handle ∧ m.handle ≠ pair.2.unlit.handle := by
  have hX : ∀ X : State, X.geometryMaterials = s.geometryMaterials → X.renderer = s.renderer →
      (X.geometryMaterials.foldl (fun s pair =>
        let renderer := s.renderer.RemoveMaterialInstance pair.2.unlit.handle
        let renderer := renderer.RemoveMaterialInstance pair.2.lit.handle
        { s with renderer := renderer }) X).renderer.materialInstances =
      (s.geometryMaterials.foldl (fun s pair =>
        let renderer := s.renderer.RemoveMaterialInstance pair.2.unlit.handle
        let renderer := renderer.RemoveMaterialInstance pair.2.lit.handle
        { s with renderer := renderer }) s).renderer.materialInstances := by
    intro X h1 h2
    rw [h1, fold_removeMaterials_renderer, fold_removeMaterials_renderer, h2]
  have key : (SetGeometryClear s).renderer.materialInstances =
      (s.geometryMaterials.foldl (fun s pair =>
        let renderer := s.renderer.RemoveMaterialInstance pair.2.unlit.handle
        let renderer := renderer.RemoveMaterialInstance pair.2.lit.handle
        { s with renderer := renderer }) s).renderer.materialInstances := by
    unfold SetGeometryClear
    dsimp only
    apply hX
    · rw [fold_removeGeometry_shape]
      split_ifs <;> rfl
    · rw [fold_removeGeometry_shape]
      split_ifs <;> rfl
  rw [key, fold_removeMaterials_mem]

end GuiVisualizer

namespace GuiVisualizer

lemma Finish_instances (m : MaterialModifier) :
    m.Finish.2.materialInstances.map (fun i => (i.handle, i.material)) =
      m.renderer.materialInstances.map (fun i => (i.handle, i.material)) := by
  unfold MaterialModifier.Finish
  simp only [List.map_map]
  refine List.map_congr_left ?_
  intro i _
  simp only [Function.comp]
  split_ifs <;> rfl

lemma SetMaterialsDefaults_instances (m : Materials) (r : Renderer) :
    (Impl.SetMaterialsDefaults m r).2.materialInstances.map (fun i => (i.handle, i.material)) =
      r.materialInstances.map (fun i => (i.handle, i.material)) := by
  unfold Impl.SetMaterialsDefaults
  dsimp only
  rw [Finish_instances]
  dsimp only [MaterialModifier.SetColor, MaterialModifier.SetParameter, Renderer.ModifyMaterial]
  rw [Finish_instances]

/-- The scene entry and the two material instances that one iteration of the loop adds. -/
lemma SetGeometryStep_added (env : Env) (size : Nat) (l : SetGeometryLoop) (g : Geometry) :
    (SetGeometryStep env size l g).state.scene.scene3d.geometries =
      l.state.scene.scene3d.geometries ++
        [⟨l.state.scene.scene3d.lastId + 1, g,
          some (SetGeometryAdd env l g).selectedMaterial, true, true, true⟩] ∧
    (SetGeometryStep env size l g).state.renderer.materialInstances.map
        (fun i => (i.handle, i.material)) =
      l.state.renderer.materialInstances.map (fun i => (i.handle, i.material)) ++
        [(l.state.renderer.lastId + 1, l.state.hLitMaterial),
         (l.state.renderer.lastId + 1 + 1, l.state.hUnlitMaterial)] ∧
    (SetGeometryStep env size l g).state.hLitMaterial = l.state.hLitMaterial ∧
    (SetGeometryStep env size l g).state.hUnlitMaterial = l.state.hUnlitMaterial := by
  have hA := SetGeometryAdd_state env l g
  have a1 := congrArg (fun x => x.scene.scene3d.geometries) hA
  have a3' := congrArg State.hLitMaterial hA
  have a4' := congrArg State.hUnlitMaterial hA
  have a3 : (SetGeometryAdd env l g).state.hLitMaterial = l.state.hLitMaterial := a3'
  have a4 : (SetGeometryAdd env l g).state.hUnlitMaterial = l.state.hUnlitMaterial := a4'
  have a2 : (SetGeometryAdd env l g).state.renderer.materialInstances.map
        (fun i => (i.handle, i.material)) =
      l.state.renderer.materialInstances.map (fun i => (i.handle, i.material)) ++
        [(l.state.renderer.lastId + 1, l.state.hLitMaterial),
         (l.state.renderer.lastId + 1 + 1, l.state.hUnlitMaterial)] := by
    have e : (SetGeometryAdd env l g).state.renderer =
        (Impl.SetMaterialsDefaults
          { lit := { handle := l.state.renderer.lastId + 1 },
            unlit := { handle := l.state.renderer.lastId + 1 + 1 } }
          ((l.state.renderer.AddMaterialInstance l.state.hLitMaterial).2.AddMaterialInstance
            l.state.hUnlitMaterial).2).2 := by
      unfold SetGeometryAdd
      dsimp only
      split_ifs <;> rfl
    rw [e, SetMaterialsDefaults_instances]
    simp [Renderer.AddMaterialInstance]
  by_cases h : (SetGeometryAdd env l g).nPointClouds = size
  · have hs := SetGeometryStep_state_of_eq env size l g h
    obtain ⟨_, _, _, n4, n5, n6, n7, _, _, _, _⟩ := SetLightingProfileNamed_frame env
      (SetGeometryAdd env l g).state kPointCloudProfileName
    have b1 := congrArg (fun x => x.scene.scene3d.geometries) hs
    have b2 := congrArg (fun x => x.renderer.materialInstances) hs
    have b3 := congrArg State.hLitMaterial hs
    have b4 := congrArg State.hUnlitMaterial hs
    generalize Impl.SetLightingProfileNamed env (SetGeometryAdd env l g).state
      kPointCloudProfileName = N at n4 n5 n6 n7 b1 b2 b3 b4
    have c1 : (SetGeometryStep env size l g).state.scene.scene3d.geometries =
      N.scene.scene3d.geometries := b1
    have c2 : (SetGeometryStep env size l g).state.renderer.materialInstances =
      N.renderer.materialInstances := b2
    have c3 : (SetGeometryStep env size l g).state.hLitMaterial = N.hLitMaterial := b3
    have c4 : (SetGeometryStep env size l g).state.hUnlitMaterial = N.hUnlitMaterial := b4
    refine ⟨by rw [c1, n4]; exact a1, by rw [c2, n5]; exact a2, by rw [c3, n6]; exact a3,
      by rw [c4, n7]; exact a4⟩
  · have hs := SetGeometryStep_state_of_ne env size l g h
    have b1 := congrArg (fun x => x.scene.scene3d.geometries) hs
    have b2 := congrArg (fun x => x.renderer.materialInstances) hs
    have b3 := congrArg State.hLitMaterial hs
    have b4 := congrArg State.hUnlitMaterial hs
    have c2 : (SetGeometryStep env size l g).state.renderer.materialInstances =
      (SetGeometryAdd env l g).state.renderer.materialInstances := b2
    refine ⟨b1.trans a1, by rw [c2]; exact a2, b3.trans a3, b4.trans a4⟩

end GuiVisualizer

namespace GuiVisualizer

lemma emplace_mem (m : List (Nat × Materials)) (h : Nat) (x : Materials) (pair : Nat × Materials)
    (hp : pair ∈ emplace m h x) : pair ∈ m ∨ pair = (h, x) := by
  unfold emplace at hp
  split_ifs at hp
  · exact Or.inl hp
  · rcases List.mem_append.mp hp with hp | hp
    · exact Or.inl hp
    · exact Or.inr (List.mem_singleton.mp hp)

/-- The loop of `SetGeometry` over `xs`: the scene entries it adds, in order, and the
material instances it leaves in the renderer. -/
lemma fold_added (env : Env) (size : Nat) (xs : List Geometry) (l0 : SetGeometryLoop) :
    (xs.foldl (SetGeometryStep env size) l0).state.scene.scene3d.geometries.map
        (fun e => (e.handle, e.geometry)) =
      l0.state.scene.scene3d.geometries.map (fun e => (e.handle, e.geometry)) ++
        List.zip (List.range' (l0.state.scene.scene3d.lastId + 1) xs.length) xs ∧
    (∀ x ∈ l0.state.renderer.materialInstances.map (fun i => (i.handle, i.material)),
      x ∈ (xs.foldl (SetGeometryStep env size) l0).state.renderer.materialInstances.map
        (fun i => (i.handle, i.material))) ∧
    (∀ x ∈ (xs.foldl (SetGeometryStep env size) l0).state.renderer.materialInstances.map
        (fun i => (i.handle, i.material)),
      x ∈ l0.state.renderer.materialInstances.map (fun i => (i.handle, i.material)) ∨
        l0.state.renderer.lastId < x.1) ∧
    (∀ pair ∈ (xs.foldl (SetGeometryStep env size) l0).state.geometryMaterials,
      pair ∈ l0.state.geometryMaterials ∨
        ((pair.2.lit.handle, l0.state.hLitMaterial) ∈
            (xs.foldl (SetGeometryStep env size) l0).state.renderer.materialInstances.map
              (fun i => (i.handle, i.material)) ∧
          (pair.2.unlit.handle, l0.state.hUnlitMaterial) ∈
            (xs.foldl (SetGeometryStep env size) l0).state.renderer.materialInstances.map
              (fun i => (i.handle, i.material)))) ∧
    (xs.foldl (SetGeometryStep env size) l0).state.hLitMaterial = l0.state.hLitMaterial ∧
    (xs.foldl (SetGeometryStep env size) l0).state.hUnlitMaterial = l0.state.hUnlitMaterial := by
  induction xs generalizing l0 with
  | nil =>
    exact ⟨by simp, fun x hx => hx, fun x hx => Or.inl hx, fun p hp => Or.inl hp, rfl, rfl⟩
  | cons x rest ih =>
    obtain ⟨_, _, _, _, s5, s6, s7⟩ := SetGeometryStep_frame env size l0 x
    obtain ⟨t1, t2, t3, t4⟩ := SetGeometryStep_added env size l0 x
    obtain ⟨r1, r2, r3, r4, r5, r6⟩ := ih (SetGeometryStep env size l0 x)
    rw [List.foldl_cons]
    refine ⟨?_, ?_, ?_, ?_, r5.trans t3, r6.trans t4⟩
    · rw [r1, t1, s5]
      simp [List.range'_succ]
    · intro y hy
      apply r2
      rw [t2]
      exact List.mem_append_left _ hy
    · intro y hy
      rcases r3 y hy with h | h
      · rw [t2] at h
        rcases List.mem_append.mp h with h | h
        · exact Or.inl h
        · right
          simp only [List.mem_cons, List.mem_singleton, List.not_mem_nil, or_false] at h
          rcases h with rfl | rfl <;> dsimp only <;> omega
      · right
        omega
    · intro pair hp
      rcases r4 pair hp with h | h
      · rw [s6] at h
        rcases emplace_mem _ _ _ _ h with h | h
        · exact Or.inl h
        · right
          subst h
          refine ⟨r2 _ ?_, r2 _ ?_⟩
          · rw [t2]
            exact List.mem_append_right _ (List.mem_cons_self _ _)
          · rw [t2]
            exact List.mem_append_right _ (List.mem_cons_of_mem _ (List.mem_cons_self _ _))
      · right
        rw [t3, t4] at h
        exact h

lemma SetGeometryAxes_geometries (env : Env) (l : SetGeometryLoop) :
    ∃ axes, (SetGeometryAxes env l).scene.scene3d.geometries.map
        (fun e => (e.handle, e.geometry)) =
      l.state.scene.scene3d.geometries.map (fun e => (e.handle, e.geometry)) ++
        [(l.state.scene.scene3d.lastId + 1, Geometry.triangleMesh axes)] := by
  refine ⟨CreateAxes env
    (if l.bounds.GetMaxExtent < 1 / 1000 then 1 else l.bounds.GetMaxExtent), ?_⟩
  unfold SetGeometryAxes
  simp only [State.log, State.onScene3d, State.onSettings, Scene.AddGeometry,
    Scene.SetGeometryShadows, Scene.SetGeometryEnabled, SceneWidget.SetModel,
    SceneWidget.SetupCamera, List.map_map, List.map_append, List.map_cons, List.map_nil]
  congr 1
  · refine List.map_congr_left ?_
    intro e _
    simp only [Function.comp]
    split_ifs <;> rfl
  · split_ifs <;> rfl

lemma SetGeometryAxes_renderer (env : Env) (l : SetGeometryLoop) :
    (SetGeometryAxes env l).renderer = l.state.renderer := by
  have h := congrArg State.renderer (SetGeometryAxes_shape env l)
  exact h

lemma expectedMaterials_keys (h base : Nat) (xs : List Geometry) :
    (expectedMaterials h base xs).map Prod.fst = List.range' (h + 1) xs.length := by
  induction xs generalizing h base with
  | nil => rfl
  | cons x rest ih =>
    simp only [expectedMaterials, List.map_cons, List.length_cons, List.range'_succ]
    rw [ih]

lemma expectedMaterials_of_mem (h base : Nat) (xs : List Geometry) (pair : Nat × Materials)
    (hp : pair ∈ expectedMaterials h base xs) :
    ∃ k, k < xs.length ∧ pair = (h + k + 1, materialsAt (base + 2 * k)) := by
  induction xs generalizing h base with
  | nil => simp [expectedMaterials] at hp
  | cons x rest ih =>
    simp only [expectedMaterials, List.mem_cons] at hp
    rcases hp with rfl | hp
    · exact ⟨0, by simp, rfl⟩
    · obtain ⟨k, hk, rfl⟩ := ih (h + 1) (base + 2) hp
      refine ⟨k + 1, by simp only [List.length_cons]; omega, ?_⟩
      have e1 : h + 1 + k + 1 = h + (k + 1) + 1 := by ring
      have e2 : base + 2 + 2 * k = base + 2 * (k + 1) := by ring
      rw [e1, e2]

lemma expectedMaterials_instances (h base : Nat) (xs : List Geometry) :
    (expectedMaterials h base xs).flatMap (fun pair => [pair.2.lit.handle, pair.2.unlit.handle]) =
      List.range' (base + 1) (2 * xs.length) := by
  induction xs generalizing h base with
  | nil => rfl
  | cons x rest ih =>
    have e : 2 * (x :: rest).length = 2 * rest.length + 1 + 1 := by
      simp only [List.length_cons]; ring
    rw [e]
    simp only [expectedMaterials, List.flatMap_cons, List.range'_succ, materialsAt]
    rw [ih]
    rfl

end GuiVisualizer

namespace GuiVisualizer

lemma lookup_of_key (m : List (Nat × Materials)) (h : Nat) (hk : h ∈ m.map Prod.fst) :
    (lookup m h).2 = m := by
  unfold lookup
  cases hf : m.find? (fun pair => pair.1 == h) with
  | some pair => rfl
  | none =>
    exfalso
    obtain ⟨pair, hp, rfl⟩ := List.mem_map.mp hk
    have := List.find?_eq_none.mp hf pair hp
    simp at this

lemma assignMaterials_geometryMaterials (hs : List Nat) (t : State) (pick : Materials → Nat)
    (hkeys : ∀ h ∈ hs, h ∈ t.geometryMaterials.map Prod.fst) :
    (hs.foldl (fun s handle =>
      let found := lookup s.geometryMaterials handle
      let s := { s with geometryMaterials := found.2 }
      s.onScene3d (fun sc => sc.AssignMaterial handle (pick found.1))) t).geometryMaterials =
      t.geometryMaterials := by
  induction hs generalizing t with
  | nil => rfl
  | cons h rest ih =>
    rw [List.foldl_cons]
    have h1 : (lookup t.geometryMaterials h).2 = t.geometryMaterials :=
      lookup_of_key _ _ (hkeys h (List.mem_cons_self _ _))
    rw [ih]
    · exact h1
    · intro h' hh'
      have : h' ∈ t.geometryMaterials.map Prod.fst := hkeys h' (List.mem_cons_of_mem _ hh')
      dsimp only [State.onScene3d]
      rw [h1]
      exact this

lemma assignMaterials_keeps (s : State) (pick : Materials → Nat)
    (hkeys : ∀ h ∈ s.geometryHandles, h ∈ s.geometryMaterials.map Prod.fst) :
    (assignMaterials s pick).geometryMaterials = s.geometryMaterials :=
  assignMaterials_geometryMaterials _ s pick hkeys

lemma applyPrefab_geometryMaterials (prefab : LitMaterial) (hs : List Nat) (t : State)
    (hkeys : ∀ h ∈ hs, h ∈ t.geometryMaterials.map Prod.fst) :
    (hs.foldl (applyPrefab prefab) t).geometryMaterials = t.geometryMaterials := by
  induction hs generalizing t with
  | nil => rfl
  | cons h rest ih =>
    rw [List.foldl_cons]
    have h1 : (lookup t.geometryMaterials h).2 = t.geometryMaterials :=
      lookup_of_key _ _ (hkeys h (List.mem_cons_self _ _))
    have h2 : (applyPrefab prefab t h).geometryMaterials = t.geometryMaterials := h1
    rw [ih, h2]
    intro h' hh'
    rw [h2]
    exact hkeys h' (List.mem_cons_of_mem _ hh')

lemma wgtMaterialType_keeps_map (s : State) (selected : MaterialType)
    (hkeys : ∀ h ∈ s.geometryHandles, h ∈ s.geometryMaterials.map Prod.fst) :
    (wgtMaterialType_OnValueChanged s selected).geometryMaterials = s.geometryMaterials := by
  cases selected
  · dsimp only [wgtMaterialType_OnValueChanged]
    apply assignMaterials_keeps
    exact hkeys
  · dsimp only [wgtMaterialType_OnValueChanged]
    apply assignMaterials_keeps
    exact hkeys
  · rfl
  · rfl

lemma wgtPrefabMaterial_keeps_map (s : State) (name : String)
    (hkeys : ∀ h ∈ s.geometryHandles, h ∈ s.geometryMaterials.map Prod.fst) :
    (wgtPrefabMaterial_OnValueChanged s name).geometryMaterials = s.geometryMaterials := by
  unfold wgtPrefabMaterial_OnValueChanged
  cases prefabMaterials.find? (fun p => p.1 == name) with
  | none => rfl
  | some p => exact applyPrefab_geometryMaterials _ _ _ hkeys

/-- The scene and the renderer once `SetGeometry` has returned, against what the call
found. -/
lemma SetGeometry_scene (env : Env) (s : State) (gs : List Geometry) :
    (∃ axes, (SetGeometry env s gs).scene.scene3d.geometries.map
        (fun e => (e.handle, e.geometry)) =
      (SetGeometryClear (s.log (Call.SetGeometry gs))).scene.scene3d.geometries.map
          (fun e => (e.handle, e.geometry)) ++
        List.zip (List.range' (s.scene.scene3d.lastId + 1) gs.length) gs ++
        [(s.scene.scene3d.lastId + gs.length + 1, Geometry.triangleMesh axes)]) ∧
    (∀ x ∈ (SetGeometry env s gs).renderer.materialInstances.map
        (fun i => (i.handle, i.material)),
      x ∈ (SetGeometryClear (s.log (Call.SetGeometry gs))).renderer.materialInstances.map
          (fun i => (i.handle, i.material)) ∨ s.renderer.lastId < x.1) ∧
    (∀ pair ∈ (SetGeometry env s gs).geometryMaterials,
      (pair.2.lit.handle, s.hLitMaterial) ∈
          (SetGeometry env s gs).renderer.materialInstances.map
            (fun i => (i.handle, i.material)) ∧
        (pair.2.unlit.handle, s.hUnlitMaterial) ∈
          (SetGeometry env s gs).renderer.materialInstances.map
            (fun i => (i.handle, i.material))) := by
  have hc := SetGeometryClear_shape (s.log (Call.SetGeometry gs))
  have c1 : (SetGeometryClear (s.log (Call.SetGeometry gs))).geometryMaterials = [] :=
    congrArg State.geometryMaterials hc
  have c3 : (SetGeometryClear (s.log (Call.SetGeometry gs))).scene.scene3d.lastId =
      s.scene.scene3d.lastId := congrArg (fun x => x.scene.scene3d.lastId) hc
  have c4 : (SetGeometryClear (s.log (Call.SetGeometry gs))).renderer.lastId =
      s.renderer.lastId := congrArg (fun x => x.renderer.lastId) hc
  have c6' := congrArg State.hLitMaterial hc
  have c7' := congrArg State.hUnlitMaterial hc
  have c6 : (SetGeometryClear (s.log (Call.SetGeometry gs))).hLitMaterial = s.hLitMaterial := c6'
  have c7 : (SetGeometryClear (s.log (Call.SetGeometry gs))).hUnlitMaterial =
      s.hUnlitMaterial := c7'
  obtain ⟨_, _, _, f4, _, _⟩ := fold_adds env gs.length gs
    { state := SetGeometryClear (s.log (Call.SetGeometry gs)) }
    (by show 0 + _ ≤ _; omega)
    (by intro pair hp; rw [c1] at hp; simp at hp)
  obtain ⟨g1, _, g3, g4, _, _⟩ := fold_added env gs.length gs
    { state := SetGeometryClear (s.log (Call.SetGeometry gs)) }
  simp only [c1, c3, c4, c6, c7] at f4 g1 g3 g4
  obtain ⟨axes, hax⟩ := SetGeometryAxes_geometries env (gs.foldl (SetGeometryStep env gs.length)
    { state := SetGeometryClear (s.log (Call.SetGeometry gs)) })
  have hr := SetGeometryAxes_renderer env (gs.foldl (SetGeometryStep env gs.length)
    { state := SetGeometryClear (s.log (Call.SetGeometry gs)) })
  have ha := SetGeometryAxes_shape env (gs.foldl (SetGeometryStep env gs.length)
    { state := SetGeometryClear (s.log (Call.SetGeometry gs)) })
  have a2 := congrArg State.geometryMaterials ha
  rw [SetGeometry_eq]
  refine ⟨⟨axes, ?_⟩, ?_, ?_⟩
  · rw [hax, g1, f4]
  · rw [hr]
    exact g3
  · intro pair hp
    rw [hr]
    have hp2 : pair ∈ (gs.foldl (SetGeometryStep env gs.length)
        { state := SetGeometryClear (s.log (Call.SetGeometry gs)) }).state.geometryMaterials := by
      rw [a2] at hp
      exact hp
    rcases g4 pair hp2 with h | h
    · simp at h
    · exact h

end GuiVisualizer

namespace GuiVisualizer

/-- The material instances of the pairs the window held are gone from the renderer once
`SetGeometry` has returned, when their handles were handed out by the renderer. -/
lemma SetGeometry_releases (env : Env) (s : State) (gs : List Geometry)
    (hmat : ∀ pair ∈ s.geometryMaterials,
      pair.2.lit.handle ≤ s.renderer.lastId ∧ pair.2.unlit.handle ≤ s.renderer.lastId) :
    ∀ pair ∈ s.geometryMaterials,
      pair.2.lit.handle ∉ (SetGeometry env s gs).renderer.instanceHandles ∧
      pair.2.unlit.handle ∉ (SetGeometry env s gs).renderer.instanceHandles := by
  obtain ⟨_, q2, _⟩ := SetGeometry_scene env s gs
  have hinst : ∀ x ∈ (SetGeometry env s gs).renderer.instanceHandles,
      (∀ pair ∈ s.geometryMaterials, x ≠ pair.2.lit.handle ∧ x ≠ pair.2.unlit.handle) ∨
        s.renderer.lastId < x := by
    intro x hx
    have hx2 : x ∈ ((SetGeometry env s gs).renderer.materialInstances.map
        (fun i => (i.handle, i.material))).map Prod.fst := by
      rw [List.map_map]
      exact hx
    obtain ⟨y, hy, rfl⟩ := List.mem_map.mp hx2
    rcases q2 y hy with h | h
    · left
      obtain ⟨m, hm, rfl⟩ := List.mem_map.mp h
      exact ((SetGeometryClear_instances (s.log (Call.SetGeometry gs)) m).mp hm).2
    · exact Or.inr h
  intro pair hp
  have hle := hmat pair hp
  refine ⟨?_, ?_⟩
  · intro hin
    rcases hinst _ hin with hc | hc
    · exact (hc pair hp).1 rfl
    · omega
  · intro hin
    rcases hinst _ hin with hc | hc
    · exact (hc pair hp).2 rfl
    · omega

/-- C18: on a window whose handles were all handed out by its scene and its renderer, after
`SetGeometry(gs)` with geometries of recognised types: no geometry of the scene has a handle
that was on display before the call, nor the handle of the previous axes; no material
instance of the renderer has the lit or the unlit handle of a previous pair;
`geometryHandles` is the list of the handles the scene returned for `gs`, in the order of
`gs` (the entry of the scene under the `k`-th handle holds the `k`-th geometry) and without
repetition; the keys of `geometryMaterials` are exactly these handles, one entry each; every
entry holds a lit and an unlit handle that the renderer had not handed out before, that are
live in the renderer as instances of the lit and of the unlit material, and no handle occurs
twice among them. Hence the lookups `geometryMaterials[handle]` of the handlers of the
material-type and of the prefab selector find their key: the handlers leave the map as it
is. -/
theorem setGeometry_replaces_containers (env : Env) (s : State) (gs : List Geometry)
    (_hrec : ∀ g ∈ gs, g.GetGeometryType = GeometryType.PointCloud ∨
      g.GetGeometryType = GeometryType.LineSet ∨ g.GetGeometryType = GeometryType.TriangleMesh)
    (hissued : HandlesIssued s) :
    (∀ h ∈ s.geometryHandles, h ∉ (SetGeometry env s gs).scene.scene3d.handles) ∧
    (isValid s.settings.hAxes = true →
      s.settings.hAxes ∉ (SetGeometry env s gs).scene.scene3d.handles) ∧
    (∀ pair ∈ s.geometryMaterials,
      pair.2.lit.handle ∉ (SetGeometry env s gs).renderer.instanceHandles ∧
      pair.2.unlit.handle ∉ (SetGeometry env s gs).renderer.instanceHandles) ∧
    (SetGeometry env s gs).geometryHandles =
      List.range' (s.scene.scene3d.lastId + 1) gs.length ∧
    (SetGeometry env s gs).geometryHandles.Nodup ∧
    (∀ k g, gs[k]? = some g →
      (SetGeometry env s gs).geometryHandles[k]? = some (s.scene.scene3d.lastId + 1 + k) ∧
      ∃ e ∈ (SetGeometry env s gs).scene.scene3d.geometries,
        e.handle = s.scene.scene3d.lastId + 1 + k ∧ e.geometry = g) ∧
    (SetGeometry env s gs).geometryMaterials.map Prod.fst =
      (SetGeometry env s gs).geometryHandles ∧
    (∀ pair ∈ (SetGeometry env s gs).geometryMaterials,
      s.renderer.lastId < pair.2.lit.handle ∧ s.renderer.lastId < pair.2.unlit.handle ∧
      (∃ m ∈ (SetGeometry env s gs).renderer.materialInstances,
        m.handle = pair.2.lit.handle ∧ m.material = s.hLitMaterial) ∧
      (∃ m ∈ (SetGeometry env s gs).renderer.materialInstances,
        m.handle = pair.2.unlit.handle ∧ m.material = s.hUnlitMaterial)) ∧
    ((SetGeometry env s gs).geometryMaterials.flatMap
      (fun pair => [pair.2.lit.handle, pair.2.unlit.handle])).Nodup ∧
    (∀ selected, (wgtMaterialType_OnValueChanged (SetGeometry env s gs) selected).geometryMaterials
      = (SetGeometry env s gs).geometryMaterials) ∧
    (∀ name, (wgtPrefabMaterial_OnValueChanged (SetGeometry env s gs) name).geometryMaterials
      = (SetGeometry env s gs).geometryMaterials) := by
  obtain ⟨hh, hax, hmat⟩ := hissued
  obtain ⟨_, k2, k3, _, _⟩ := SetGeometry_containers env s gs
  obtain ⟨⟨axes, q1⟩, _, q3⟩ := SetGeometry_scene env s gs
  have hkeys : (SetGeometry env s gs).geometryMaterials.map Prod.fst =
      (SetGeometry env s gs).geometryHandles := by
    rw [k2, k3, expectedMaterials_keys]
  -- a handle of the scene after the call: left by the clearing, or new
  have hscene : ∀ x ∈ (SetGeometry env s gs).scene.scene3d.handles,
      (x ∉ s.geometryHandles ∧ (isValid s.settings.hAxes = true → x ≠ s.settings.hAxes)) ∨
        s.scene.scene3d.lastId < x := by
    intro x hx
    have hx2 : x ∈ ((SetGeometry env s gs).scene.scene3d.geometries.map
        (fun e => (e.handle, e.geometry))).map Prod.fst := by
      rw [List.map_map]
      exact hx
    rw [q1] at hx2
    obtain ⟨y, hy, rfl⟩ := List.mem_map.mp hx2
    rcases List.mem_append.mp hy with hy | hy
    · rcases List.mem_append.mp hy with hy | hy
      · left
        obtain ⟨e, he, rfl⟩ := List.mem_map.mp hy
        have := (SetGeometryClear_geometries (s.log (Call.SetGeometry gs)) e).mp he
        exact ⟨this.2.1, this.2.2⟩
      · right
        have h1 := (List.of_mem_zip (a := y.1) (b := y.2) hy).1
        have h2 := List.mem_range'_1.mp h1
        omega
    · right
      rw [List.mem_singleton] at hy
      rw [hy]
      dsimp only
      omega
  refine ⟨?_, ?_, SetGeometry_releases env s gs hmat, k2, ?_, ?_, hkeys, ?_, ?_, ?_, ?_⟩
  · intro h hmem hin
    rcases hscene h hin with hc | hc
    · exact hc.1 hmem
    · have := hh h hmem
      omega
  · intro hv hin
    rcases hscene _ hin with hc | hc
    · exact hc.2 hv rfl
    · omega
  · rw [k2]
    exact List.nodup_range' _ _
  · intro k g hk
    have hklt : k < gs.length := by
      by_contra hcon
      rw [List.getElem?_eq_none (by omega)] at hk
      exact absurd hk (by simp)
    refine ⟨?_, ?_⟩
    · rw [k2, List.getElem?_range' _ _ hklt]
      simp
    · have hz : ((s.scene.scene3d.lastId + 1 + k, g) : Nat × Geometry) ∈
          List.zip (List.range' (s.scene.scene3d.lastId + 1) gs.length) gs := by
        rw [List.mem_iff_getElem?]
        refine ⟨k, ?_⟩
        rw [List.getElem?_zip_eq_some]
        refine ⟨?_, hk⟩
        rw [List.getElem?_range' _ _ hklt]
        simp
      have hz2 : ((s.scene.scene3d.lastId + 1 + k, g) : Nat × Geometry) ∈
          (SetGeometry env s gs).scene.scene3d.geometries.map
            (fun e => (e.handle, e.geometry)) := by
        rw [q1]
        exact List.mem_append_left _ (List.mem_append_right _ hz)
      obtain ⟨e, he, heq⟩ := List.mem_map.mp hz2
      simp only [Prod.mk.injEq] at heq
      exact ⟨e, he, heq.1, heq.2⟩
  · intro pair hp
    obtain ⟨h1, h2⟩ := q3 pair hp
    rw [k3] at hp
    obtain ⟨k, _, rfl⟩ := expectedMaterials_of_mem _ _ _ _ hp
    obtain ⟨m1, hm1, e1⟩ := List.mem_map.mp h1
    obtain ⟨m2, hm2, e2⟩ := List.mem_map.mp h2
    simp only [Prod.mk.injEq] at e1 e2
    refine ⟨?_, ?_, ⟨m1, hm1, e1.1, e1.2⟩, ⟨m2, hm2, e2.1, e2.2⟩⟩
    · simp only [materialsAt]
      omega
    · simp only [materialsAt]
      omega
  · rw [k3, expectedMaterials_instances]
    exact List.nodup_range' _ _
  · intro selected
    apply wgtMaterialType_keeps_map
    intro h hmem
    rw [hkeys]
    exact hmem
  · intro name
    apply wgtPrefabMaterial_keeps_map
    intro h hmem
    rw [hkeys]
    exact hmem

end GuiVisualizer

/-! ### Point size of the new material instances -/

lemma MakeSlider_value_natCast (type : SliderType) (lo hi : ℚ) (n : ℕ)
    (hlo : lo ≤ n) (hhi : (n : ℚ) ≤ hi) : (MakeSlider type lo hi n).value = n := by
  unfold MakeSlider
  exact Slider.SetValue_value_natCast _ n hlo hhi

namespace GuiVisualizer

/-- C19: on the sample window the point-size slider shows 3, the value the constructor gave
it. After `SetGeometry` with the cloud without colours the slider still shows 3, while the parameter
"pointSize" of the lit and of the unlit instance created for the cloud is 5, the default
member initialiser of `LitMaterial` and `UnlitMaterial` that `SetMaterialsDefaults` writes.
With the slider at 7 before the call, the slider shows 7 after it and both instances hold
5. -/
theorem setGeometry_pointSize_not_slider :
    Examples.window.settings.wgtPointSize.GetDoubleValue = 3 ∧
    Examples.shown.settings.wgtPointSize.GetDoubleValue = 3 ∧
    Examples.shown.geometryMaterials = [(3, materialsAt 4)] ∧
    pointSizeOf Examples.shown.renderer (materialsAt 4).lit.handle =
      some (ParamValue.scalar 5) ∧
    pointSizeOf Examples.shown.renderer (materialsAt 4).unlit.handle =
      some (ParamValue.scalar 5) ∧
    (SetGeometry Examples.env Examples.moved
      [Geometry.pointCloud Examples.plain]).settings.wgtPointSize.GetDoubleValue = 7 ∧
    (SetGeometry Examples.env Examples.moved
      [Geometry.pointCloud Examples.plain]).geometryMaterials = [(3, materialsAt 4)] ∧
    pointSizeOf (SetGeometry Examples.env Examples.moved
      [Geometry.pointCloud Examples.plain]).renderer (materialsAt 4).lit.handle =
      some (ParamValue.scalar 5) ∧
    pointSizeOf (SetGeometry Examples.env Examples.moved
      [Geometry.pointCloud Examples.plain]).renderer (materialsAt 4).unlit.handle =
      some (ParamValue.scalar 5) := by
  have h3 : (MakeSlider SliderType.INT 1 10 3).value = 3 := by
    have := MakeSlider_value_natCast SliderType.INT 1 10 3 (by norm_num) (by norm_num)
    simpa using this
  have h7 : ((MakeSlider SliderType.INT 1 10 3).SetValue 7).value = 7 := by
    have := Slider.SetValue_value_natCast (MakeSlider SliderType.INT 1 10 3) 7
      (by show (1 : ℚ) ≤ _; norm_num) (by show _ ≤ (10 : ℚ); norm_num)
    simpa using this
  exact ⟨h3, h3, rfl, rfl, rfl, h7, rfl, rfl, rfl⟩

end GuiVisualizer

/-! ### Sample runs of `SetGeometry` on a window that shows a cloud -/

lemma Examples.shown_issued : HandlesIssued Examples.shown := by
  have h1 : Examples.shown.geometryHandles = [3] := rfl
  have h2 : Examples.shown.geometryMaterials = [(3, materialsAt 4)] := rfl
  have h3 : Examples.shown.scene.scene3d.lastId = 4 := rfl
  have h4 : Examples.shown.renderer.lastId = 8 := rfl
  have h5 : Examples.shown.settings.hAxes = 4 := rfl
  unfold HandlesIssued
  rw [h1, h2, h3, h4, h5]
  simp [materialsAt]

/-- Sample run for C18: the sample window shows the cloud without colours (handle 3, axes 4,
instances 5 and 6) when `SetGeometry` is called with the sample triangle. -/
theorem setGeometry_replaces_containers_witness :
    (∀ g ∈ [Geometry.triangleMesh Examples.triangle],
      g.GetGeometryType = GeometryType.PointCloud ∨
      g.GetGeometryType = GeometryType.LineSet ∨
      g.GetGeometryType = GeometryType.TriangleMesh) ∧
    HandlesIssued Examples.shown ∧
    Examples.shown.geometryHandles = [3] ∧
    3 ∉ (GuiVisualizer.SetGeometry Examples.env Examples.shown
      [Geometry.triangleMesh Examples.triangle]).scene.scene3d.handles ∧
    4 ∉ (GuiVisualizer.SetGeometry Examples.env Examples.shown
      [Geometry.triangleMesh Examples.triangle]).scene.scene3d.handles ∧
    (GuiVisualizer.SetGeometry Examples.env Examples.shown
      [Geometry.triangleMesh Examples.triangle]).geometryHandles = [5] ∧
    (GuiVisualizer.SetGeometry Examples.env Examples.shown
      [Geometry.triangleMesh Examples.triangle]).geometryMaterials.map Prod.fst = [5] :=
  ⟨by simp [Geometry.GetGeometryType], Examples.shown_issued, rfl,
    (GuiVisualizer.setGeometry_replaces_containers Examples.env Examples.shown
      [Geometry.triangleMesh Examples.triangle] (by simp [Geometry.GetGeometryType])
      Examples.shown_issued).1 3 (by decide),
    (GuiVisualizer.setGeometry_replaces_containers Examples.env Examples.shown
      [Geometry.triangleMesh Examples.triangle] (by simp [Geometry.GetGeometryType])
      Examples.shown_issued).2.1 rfl,
    (GuiVisualizer.setGeometry_replaces_containers Examples.env Examples.shown
      [Geometry.triangleMesh Examples.triangle] (by simp [Geometry.GetGeometryType])
      Examples.shown_issued).2.2.2.1,
    ((GuiVisualizer.setGeometry_replaces_containers Examples.env Examples.shown
      [Geometry.triangleMesh Examples.triangle] (by simp [Geometry.GetGeometryType])
      Examples.shown_issued).2.2.2.2.2.2.1).trans
    (GuiVisualizer.setGeometry_replaces_containers Examples.env Examples.shown
      [Geometry.triangleMesh Examples.triangle] (by simp [Geometry.GetGeometryType])
      Examples.shown_issued).2.2.2.1⟩

/-! ### Every window the constructor builds keeps handles that were handed out -/

namespace GuiVisualizer

lemma fold_renderer_lastId (env : Env) (size : Nat) (xs : List Geometry) (l0 : SetGeometryLoop) :
    l0.state.renderer.lastId + 2 * xs.length ≤
      (xs.foldl (SetGeometryStep env size) l0).state.renderer.lastId := by
  induction xs generalizing l0 with
  | nil => simp
  | cons x rest ih =>
    obtain ⟨_, _, _, _, _, _, s7⟩ := SetGeometryStep_frame env size l0 x
    have := ih (SetGeometryStep env size l0 x)
    rw [List.foldl_cons]
    simp only [List.length_cons]
    omega

/-- Whatever the window was, after `SetGeometry` every handle it keeps was handed out by its
scene or its renderer. -/
lemma HandlesIssued_SetGeometry (env : Env) (s : State) (gs : List Geometry) :
    HandlesIssued (SetGeometry env s gs) := by
  obtain ⟨_, k2, k3, _, _⟩ := SetGeometry_containers env s gs
  have hc := SetGeometryClear_shape (s.log (Call.SetGeometry gs))
  have c1 : (SetGeometryClear (s.log (Call.SetGeometry gs))).geometryMaterials = [] :=
    congrArg State.geometryMaterials hc
  have c3 : (SetGeometryClear (s.log (Call.SetGeometry gs))).scene.scene3d.lastId =
      s.scene.scene3d.lastId := congrArg (fun x => x.scene.scene3d.lastId) hc
  have c4 : (SetGeometryClear (s.log (Call.SetGeometry gs))).renderer.lastId =
      s.renderer.lastId := congrArg (fun x => x.renderer.lastId) hc
  obtain ⟨_, _, _, f4, _, _⟩ := fold_adds env gs.length gs
    { state := SetGeometryClear (s.log (Call.SetGeometry gs)) }
    (by show 0 + _ ≤ _; omega)
    (by intro pair hp; rw [c1] at hp; simp at hp)
  have f5 := fold_renderer_lastId env gs.length gs
    { state := SetGeometryClear (s.log (Call.SetGeometry gs)) }
  simp only [c3, c4] at f4 f5
  have ha := SetGeometryAxes_shape env (gs.foldl (SetGeometryStep env gs.length)
    { state := SetGeometryClear (s.log (Call.SetGeometry gs)) })
  have a1 := congrArg (fun x => x.scene.scene3d.lastId) ha
  have a2 := congrArg (fun x => x.settings.hAxes) ha
  have a3 := congrArg (fun x => x.renderer.lastId) ha
  rw [← SetGeometry_eq] at a1 a2 a3
  have b1 : (SetGeometry env s gs).scene.scene3d.lastId =
      s.scene.scene3d.lastId + gs.length + 1 := by
    rw [← f4]
    exact a1
  have b2 : (SetGeometry env s gs).settings.hAxes = s.scene.scene3d.lastId + gs.length + 1 := by
    rw [← f4]
    exact a2
  have b3 : s.renderer.lastId + 2 * gs.length ≤ (SetGeometry env s gs).renderer.lastId := by
    have a3' : (SetGeometry env s gs).renderer.lastId =
      (gs.foldl (SetGeometryStep env gs.length)
        { state := SetGeometryClear (s.log (Call.SetGeometry gs)) }).state.renderer.lastId := a3
    rw [a3']
    exact f5
  refine ⟨?_, ?_, ?_⟩
  · intro h hh
    rw [k2] at hh
    have := List.mem_range'_1.mp hh
    omega
  · omega
  · intro pair hp
    rw [k3] at hp
    obtain ⟨k, hk, rfl⟩ := expectedMaterials_of_mem _ _ _ _ hp
    simp only [materialsAt]
    omega

lemma HandlesIssued_new (env : Env) (gs : List Geometry) (title : String) :
    HandlesIssued (new env gs title) := by
  unfold new
  exact HandlesIssued_SetGeometry _ _ _

end GuiVisualizer

/-! ### `CreateAxes` -/

lemma axesTransformX_det : axesTransformX.det = 1 := by
  simp [axesTransformX, Matrix.det_succ_row_zero, Fin.sum_univ_succ, Matrix.submatrix,
    Fin.succAbove, Matrix.of_apply]

lemma axesTransformY_det : axesTransformY.det = 1 := by
  simp [axesTransformY, Matrix.det_succ_row_zero, Fin.sum_univ_succ, Matrix.submatrix,
    Fin.succAbove, Matrix.of_apply]

lemma axesTransformZ_eq_one : axesTransformZ = 1 := by
  ext i j
  fin_cases i <;> fin_cases j <;> simp [axesTransformZ, Matrix.vecHead, Matrix.vecTail]

lemma axesTransform_entries (M : Matrix4)
    (hM : M ∈ [axesTransformX, axesTransformY, axesTransformZ]) :
    (∀ i j, M i j = 0 ∨ M i j = 1) ∧
    (∀ j, M 3 j = if j = 3 then 1 else 0) ∧ (∀ i, M i 3 = if i = 3 then 1 else 0) := by
  simp only [List.mem_cons, List.mem_singleton, List.not_mem_nil, or_false] at hM
  rcases hM with rfl | rfl | rfl
  · refine ⟨?_, ?_, ?_⟩
    · intro i j
      fin_cases i <;> fin_cases j <;> simp [axesTransformX, Matrix.vecHead, Matrix.vecTail]
    · intro j
      fin_cases j <;> simp [axesTransformX, Matrix.vecHead, Matrix.vecTail]
    · intro i
      fin_cases i <;> simp [axesTransformX, Matrix.vecHead, Matrix.vecTail]
  · refine ⟨?_, ?_, ?_⟩
    · intro i j
      fin_cases i <;> fin_cases j <;> simp [axesTransformY, Matrix.vecHead, Matrix.vecTail]
    · intro j
      fin_cases j <;> simp [axesTransformY, Matrix.vecHead, Matrix.vecTail]
    · intro i
      fin_cases i <;> simp [axesTransformY, Matrix.vecHead, Matrix.vecTail]
  · refine ⟨?_, ?_, ?_⟩
    · intro i j
      fin_cases i <;> fin_cases j <;> simp [axesTransformZ, Matrix.vecHead, Matrix.vecTail]
    · intro j
      fin_cases j <;> simp [axesTransformZ, Matrix.vecHead, Matrix.vecTail]
    · intro i
      fin_cases i <;> simp [axesTransformZ, Matrix.vecHead, Matrix.vecTail]

lemma axesTransform_orthogonal (M : Matrix4)
    (hM : M ∈ [axesTransformX, axesTransformY, axesTransformZ]) :
    M.transpose * M = 1 ∧ M * M.transpose = 1 := by
  simp only [List.mem_cons, List.mem_singleton, List.not_mem_nil, or_false] at hM
  rcases hM with rfl | rfl | rfl
  · constructor <;>
    · ext i j
      fin_cases i <;> fin_cases j <;>
        simp [axesTransformX, Matrix.mul_apply, Fin.sum_univ_four, Matrix.vecHead, Matrix.vecTail]
  · constructor <;>
    · ext i j
      fin_cases i <;> fin_cases j <;>
        simp [axesTransformY, Matrix.mul_apply, Fin.sum_univ_four, Matrix.vecHead, Matrix.vecTail]
  · rw [axesTransformZ_eq_one]
    simp

/-- C30: for every axis length `L`, `CreateAxes` builds its three arrows with
`CreateArrow(0.0025 L, 0.0075 L, 0.975 L, 0.025 L)`: the cylinder height `0.975 L` and the
cone height `0.025 L` add up to `L`. The arrows, created along +Z, are painted red, green and
blue and given the transforms `axesTransformX`, `axesTransformY`, `axesTransformZ`. Each of
these is a permutation matrix (entries 0 or 1), orthogonal, of determinant 1, with the last
row and the last column those of the identity (no translation); on directions they send +Z to
+X, to +Y and to +Z, and the third is the identity. -/
theorem createAxes_arrows (env : Env) (L : ℚ) :
    CreateAxes env L =
      env.meshAdd (env.meshAdd (env.meshAdd
        (env.PaintUniformColor (env.ComputeVertexNormals (env.CreateSphere (5 / 1000 * L)))
          ⟨1 / 2, 1 / 2, 1 / 2⟩)
        (axesArrow env L ⟨1, 0, 0⟩ axesTransformX))
        (axesArrow env L ⟨0, 1, 0⟩ axesTransformY))
        (axesArrow env L ⟨0, 0, 1⟩ axesTransformZ) ∧
    (975 / 1000 * L + 25 / 1000 * L = L) ∧
    (∀ M ∈ [axesTransformX, axesTransformY, axesTransformZ],
      (∀ i j, M i j = 0 ∨ M i j = 1) ∧
      M.transpose * M = 1 ∧ M * M.transpose = 1 ∧ M.det = 1 ∧
      (∀ j, M 3 j = if j = 3 then 1 else 0) ∧ (∀ i, M i 3 = if i = 3 then 1 else 0)) ∧
    Matrix.mulVec axesTransformX ![0, 0, 1, 0] = ![1, 0, 0, 0] ∧
    Matrix.mulVec axesTransformY ![0, 0, 1, 0] = ![0, 1, 0, 0] ∧
    Matrix.mulVec axesTransformZ ![0, 0, 1, 0] = ![0, 0, 1, 0] ∧
    axesTransformZ = 1 := by
  refine ⟨rfl, by ring, ?_, ?_, ?_, ?_, axesTransformZ_eq_one⟩
  · intro M hM
    obtain ⟨e1, e2, e3⟩ := axesTransform_entries M hM
    obtain ⟨o1, o2⟩ := axesTransform_orthogonal M hM
    refine ⟨e1, o1, o2, ?_, e2, e3⟩
    simp only [List.mem_cons, List.mem_singleton, List.not_mem_nil, or_false] at hM
    rcases hM with rfl | rfl | rfl
    · exact axesTransformX_det
    · exact axesTransformY_det
    · rw [axesTransformZ_eq_one, Matrix.det_one]
  · ext i
    fin_cases i <;> simp [axesTransformX, Matrix.mulVec, Matrix.dotProduct, Fin.sum_univ_four, Matrix.vecHead, Matrix.vecTail]
  · ext i
    fin_cases i <;> simp [axesTransformY, Matrix.mulVec, Matrix.dotProduct, Fin.sum_univ_four, Matrix.vecHead, Matrix.vecTail]
  · rw [axesTransformZ_eq_one, Matrix.one_mulVec]

/-! ### The order of the points matters to `PointCloudHasUniformColor` -/

namespace SmartMode

/-- C26: the clouds `greysMiddleFirst` and `greysBlackFirst` hold the same three coloured
points, the second with the first two points exchanged; their colours are black, the grey
`(e, e, e)` and the grey `(2e, 2e, 2e)` with `e = 1/255`. `PointCloudHasUniformColor`
returns true on the first, where every colour is compared with `(e, e, e)`, and false on the
second, where every colour is compared with black. -/
theorem pointCloudHasUniformColor_order :
    Examples.greysMiddleFirst.HasColors = true ∧
    Examples.greysBlackFirst.HasColors = true ∧
    (List.zip Examples.greysBlackFirst.points_ Examples.greysBlackFirst.colors_).Perm
      (List.zip Examples.greysMiddleFirst.points_ Examples.greysMiddleFirst.colors_) ∧
    Examples.greysMiddleFirst.colors_ = [⟨e, e, e⟩, ⟨0, 0, 0⟩, ⟨2 * e, 2 * e, 2 * e⟩] ∧
    Examples.greysBlackFirst.colors_ = [⟨0, 0, 0⟩, ⟨e, e, e⟩, ⟨2 * e, 2 * e, 2 * e⟩] ∧
    PointCloudHasUniformColor Examples.greysMiddleFirst = true ∧
    PointCloudHasUniformColor Examples.greysBlackFirst = false := by
  have h1 : Examples.greysMiddleFirst.HasColors = true := by decide
  have h2 : Examples.greysBlackFirst.HasColors = true := by decide
  refine ⟨h1, h2, ?_, ?_, ?_, ?_, ?_⟩
  · exact List.Perm.swap _ _ _
  · simp only [Examples.greysMiddleFirst, e]
    norm_num
  · simp only [Examples.greysBlackFirst, e]
    norm_num
  · unfold PointCloudHasUniformColor
    rw [h1]
    simp only [Bool.not_true, Bool.false_eq_true, if_false]
    rw [uniformColorLoop_eq_true_iff]
    intro c hc
    simp only [Examples.greysMiddleFirst, List.mem_cons, List.mem_singleton, List.not_mem_nil,
      or_false] at hc
    rw [kSqEpsilon_eq]
    rcases hc with rfl | rfl | rfl <;>
      simp only [Examples.greysMiddleFirst, List.getD_cons_zero, Vector3.sub,
        Vector3.squaredNorm] <;> norm_num
  · have hne : ¬ PointCloudHasUniformColor Examples.greysBlackFirst = true := by
      unfold PointCloudHasUniformColor
      rw [h2]
      simp only [Bool.not_true, Bool.false_eq_true, if_false]
      rw [uniformColorLoop_eq_true_iff]
      intro hall
      have := hall ⟨2 / 255, 2 / 255, 2 / 255⟩ (by simp [Examples.greysBlackFirst])
      rw [kSqEpsilon_eq] at this
      simp only [Examples.greysBlackFirst, List.getD_cons_zero, Vector3.sub,
        Vector3.squaredNorm] at this
      norm_num at this
    simpa using hne

end SmartMode

/-! ### The table of lighting profiles -/

/-- C23: the table `gLightingProfiles` holds seven profiles with pairwise distinct names; no
`iblIntensity` or `sunIntensity` is negative; every component of every `sunColor` lies in
`[0, 1]`; one profile is named `kPointCloudProfileName`, "Cloudy day (no direct sun)". Hence
`SetLightingProfile(renderer, kPointCloudProfileName)`, the call `SetGeometry` makes for an
input of point clouds only, finds a profile on every window: it applies a profile of that
name and adds nothing but the call to the trace, so no warning. -/
theorem lightingProfiles_wellFormed :
    gLightingProfiles.length = 7 ∧
    (gLightingProfiles.map (fun p => p.name)).Nodup ∧
    (∀ p ∈ gLightingProfiles, 0 ≤ p.iblIntensity ∧ 0 ≤ p.sunIntensity) ∧
    (∀ p ∈ gLightingProfiles,
      (0 ≤ p.sunColor.x ∧ p.sunColor.x ≤ 1) ∧ (0 ≤ p.sunColor.y ∧ p.sunColor.y ≤ 1) ∧
      (0 ≤ p.sunColor.z ∧ p.sunColor.z ≤ 1)) ∧
    kPointCloudProfileName = "Cloudy day (no direct sun)" ∧
    (∃ p ∈ gLightingProfiles, p.name = kPointCloudProfileName) ∧
    (∀ (env : Env) (s : State), ∃ p ∈ gLightingProfiles, p.name = kPointCloudProfileName ∧
      Impl.SetLightingProfileNamed env s kPointCloudProfileName =
        (Impl.SetLightingProfile env (s.log (Call.SetLightingProfile kPointCloudProfileName))
          p).onSettings (fun st =>
            { st with wgtLightingProfile :=
                st.wgtLightingProfile.SetSelectedValue kPointCloudProfileName }) ∧
      (Impl.SetLightingProfileNamed env s kPointCloudProfileName).calls =
        s.calls ++ [Call.SetLightingProfile kPointCloudProfileName]) := by
  refine ⟨rfl, by decide, ?_, ?_, rfl, pointCloudProfile_mem, ?_⟩
  · intro p hp
    simp only [gLightingProfiles, List.mem_cons, List.mem_singleton, List.not_mem_nil,
      or_false] at hp
    rcases hp with rfl | rfl | rfl | rfl | rfl | rfl | rfl <;> norm_num
  · intro p hp
    simp only [gLightingProfiles, List.mem_cons, List.mem_singleton, List.not_mem_nil,
      or_false] at hp
    rcases hp with rfl | rfl | rfl | rfl | rfl | rfl | rfl <;> norm_num
  · intro env s
    obtain ⟨p0, hp0, hn0⟩ := pointCloudProfile_mem
    rcases Impl.SetLightingProfileScan_cases env
      (s.log (Call.SetLightingProfile kPointCloudProfileName)) kPointCloudProfileName
      gLightingProfiles with ⟨q, hq, hqn, heq⟩ | ⟨hall, _⟩
    · refine ⟨q, hq, hqn, heq, ?_⟩
      unfold Impl.SetLightingProfileNamed
      rw [heq, Impl.SetLightingProfile_shape]
      rfl
    · exact absurd hn0 (hall p0 hp0)

/-! ### The length of the axes -/

lemma axisLengthFor_cases (b : AxisAlignedBoundingBox) :
    (b.GetMaxExtent < 1 / 1000 → axisLengthFor b = 1) ∧
    (¬ b.GetMaxExtent < 1 / 1000 → axisLengthFor b = b.GetMaxExtent) ∧
    axisLengthFor b ≠ 0 ∧ 1 / 1000 ≤ axisLengthFor b := by
  unfold axisLengthFor
  refine ⟨fun h => if_pos h, fun h => if_neg h, ?_, ?_⟩
  · split_ifs with h
    · norm_num
    · intro h0
      rw [h0] at h
      norm_num at h
  · split_ifs with h
    · norm_num
    · exact not_lt.mp h

lemma axisLengthFor_point (b : AxisAlignedBoundingBox) (h : b.min_bound = b.max_bound) :
    b.GetMaxExtent = 0 ∧ axisLengthFor b = 1 := by
  have h0 : b.GetMaxExtent = 0 := by
    simp [AxisAlignedBoundingBox.GetMaxExtent, AxisAlignedBoundingBox.GetExtent, h,
      Vector3.sub, Vector3.maxCoeff]
  refine ⟨h0, ?_⟩
  unfold axisLengthFor
  rw [h0, if_pos (by norm_num)]

namespace GuiVisualizer

lemma SetGeometryAxes_trace (env : Env) (l : SetGeometryLoop) :
    (SetGeometryAxes env l).calls = l.state.calls ++
      [Call.AddGeometry (Geometry.triangleMesh (CreateAxes env (axisLengthFor l.bounds))) none] :=
  rfl

lemma SetGeometryAxes_entry (env : Env) (l : SetGeometryLoop) :
    (SetGeometryAxes env l).scene.scene3d.geometries.map (fun e => (e.handle, e.geometry)) =
      l.state.scene.scene3d.geometries.map (fun e => (e.handle, e.geometry)) ++
        [(l.state.scene.scene3d.lastId + 1,
          Geometry.triangleMesh (CreateAxes env (axisLengthFor l.bounds)))] := by
  unfold SetGeometryAxes axisLengthFor
  simp only [State.log, State.onScene3d, State.onSettings, Scene.AddGeometry,
    Scene.SetGeometryShadows, Scene.SetGeometryEnabled, SceneWidget.SetModel,
    SceneWidget.SetupCamera, List.map_map, List.map_append, List.map_cons, List.map_nil]
  congr 1
  · refine List.map_congr_left ?_
    intro e _
    simp only [Function.comp]
    split_ifs <;> rfl
  · split_ifs <;> rfl

/-- C21: the last call `SetGeometry` adds to the trace is the `AddGeometry` of the mesh
`CreateAxes(axisLength)`, where `axisLength` is got from the combined bounding box of the
loop: it is 1 when the largest extent of the box is below 0.001 and the largest extent
otherwise, so never zero and never below 0.001. The largest extent is zero, and the axis
length 1, for a box whose two corners coincide (one point) and for the default box, which is
the combined box of an empty input. -/
theorem setGeometry_axisLength (env : Env) (s : State) (gs : List Geometry) :
    (SetGeometry env s gs).calls.getLast? =
      some (Call.AddGeometry (Geometry.triangleMesh (CreateAxes env (axisLengthFor
        (SetGeometryIterations env (s.log (Call.SetGeometry gs)) gs gs.length).bounds))) none) ∧
    (∀ b : AxisAlignedBoundingBox,
      (b.GetMaxExtent < 1 / 1000 → axisLengthFor b = 1) ∧
      (¬ b.GetMaxExtent < 1 / 1000 → axisLengthFor b = b.GetMaxExtent) ∧
      axisLengthFor b ≠ 0 ∧ 1 / 1000 ≤ axisLengthFor b) ∧
    (∀ b : AxisAlignedBoundingBox, b.min_bound = b.max_bound →
      b.GetMaxExtent = 0 ∧ axisLengthFor b = 1) ∧
    (SetGeometryIterations env (s.log (Call.SetGeometry [])) [] 0).bounds = {} ∧
    axisLengthFor {} = 1 := by
  refine ⟨?_, axisLengthFor_cases, axisLengthFor_point, rfl, (axisLengthFor_point {} rfl).2⟩
  unfold SetGeometry
  rw [SetGeometryAxes_trace]
  simp

/-- C28: `SetGeometry` with an empty list runs no iteration of its loop. The trace grows by
the call itself and by the `AddGeometry` of the axes, which are `CreateAxes(1.0)`: no
geometry is added and `SetLightingProfile` is not called. The lighting state, the
material-type selector, the prefab selector (its enabled state included) and the point-size
slider (its enabled state included) are as before the call; `geometryHandles` and
`geometryMaterials` are empty; the scene holds the axes under the handle `settings.hAxes`. -/
theorem setGeometry_empty (env : Env) (s : State) :
    SetGeometryIterations env (s.log (Call.SetGeometry [])) [] 0 =
      { state := SetGeometryClear (s.log (Call.SetGeometry [])) } ∧
    (SetGeometry env s []).calls = s.calls ++
      [Call.SetGeometry [], Call.AddGeometry (Geometry.triangleMesh (CreateAxes env 1)) none] ∧
    setLightingProfileCalls (SetGeometry env s []).calls = setLightingProfileCalls s.calls ∧
    (SetGeometry env s []).lighting = s.lighting ∧
    (SetGeometry env s []).settings.wgtMaterialType = s.settings.wgtMaterialType ∧
    (SetGeometry env s []).settings.wgtPrefabMaterial = s.settings.wgtPrefabMaterial ∧
    (SetGeometry env s []).settings.wgtPointSize = s.settings.wgtPointSize ∧
    (SetGeometry env s []).geometryHandles = [] ∧
    (SetGeometry env s []).geometryMaterials = [] ∧
    (∃ e ∈ (SetGeometry env s []).scene.scene3d.geometries,
      e.handle = (SetGeometry env s []).settings.hAxes ∧
      e.geometry = Geometry.triangleMesh (CreateAxes env 1)) := by
  have heq : SetGeometry env s [] =
      SetGeometryAxes env { state := SetGeometryClear (s.log (Call.SetGeometry [])) } := rfl
  have hc := SetGeometryClear_shape (s.log (Call.SetGeometry []))
  have c1 := congrArg State.calls hc
  have c2 := congrArg State.settings hc
  have ha := SetGeometryAxes_shape env { state := SetGeometryClear (s.log (Call.SetGeometry [])) }
  have a1 := congrArg (fun x => x.settings.wgtMaterialType) ha
  have a2 := congrArg (fun x => x.settings.wgtPrefabMaterial) ha
  have a3 := congrArg (fun x => x.settings.wgtPointSize) ha
  have a4 := congrArg State.geometryHandles ha
  have a5 := congrArg State.geometryMaterials ha
  have hlen : axisLengthFor ({} : AxisAlignedBoundingBox) = 1 := (axisLengthFor_point {} rfl).2
  have hcalls : (SetGeometry env s []).calls = s.calls ++
      [Call.SetGeometry [], Call.AddGeometry (Geometry.triangleMesh (CreateAxes env 1)) none] := by
    rw [heq, SetGeometryAxes_trace]
    have : (SetGeometryClear (s.log (Call.SetGeometry []))).calls = s.calls ++ [Call.SetGeometry []] :=
      c1
    dsimp only
    rw [this, hlen]
    simp
  obtain ⟨k1, k2, k3⟩ := SetGeometry_containers env s [] |>.2
  refine ⟨rfl, hcalls, ?_, ?_, ?_, ?_, ?_, k1, k2, ?_⟩
  · rw [hcalls]
    simp [setLightingProfileCalls, List.filterMap_append]
  · rw [heq, SetGeometryAxes_lighting, SetGeometryClear_lighting]
    rfl
  · rw [heq]
    exact a1.trans (congrArg (fun x => x.wgtMaterialType) c2)
  · rw [heq]
    exact a2.trans (congrArg (fun x => x.wgtPrefabMaterial) c2)
  · rw [heq]
    exact a3.trans (congrArg (fun x => x.wgtPointSize) c2)
  · have hax := SetGeometryAxes_entry env
      { state := SetGeometryClear (s.log (Call.SetGeometry [])) }
    have a6 := congrArg (fun x => x.settings.hAxes) ha
    have hmem : ((SetGeometry env s []).settings.hAxes,
        Geometry.triangleMesh (CreateAxes env 1)) ∈
        (SetGeometry env s []).scene.scene3d.geometries.map
          (fun e => (e.handle, e.geometry)) := by
      rw [heq, hax]
      dsimp only
      rw [hlen]
      refine List.mem_append_right _ ?_
      rw [List.mem_singleton]
      exact congrArg (fun h => (h, Geometry.triangleMesh (CreateAxes env 1))) a6
    obtain ⟨e, he, heq2⟩ := List.mem_map.mp hmem
    simp only [Prod.mk.injEq] at heq2
    exact ⟨e, he, heq2.1, heq2.2⟩

end GuiVisualizer

/-! ### What the loop of `SetGeometry` does to the material panel and to the view controls -/

namespace GuiVisualizer

lemma expectedMaterial_eq_unlit (base : Nat) (g : Geometry) :
    expectedMaterial base g = (materialsAt base).unlit.handle ↔ wantsUnlit g = true := by
  cases g <;> simp only [expectedMaterial, materialsAt, wantsUnlit, kBad] <;>
    first
    | (split_ifs with h <;> simp_all)
    | simp

lemma SetGeometryAdd_settings (env : Env) (l : SetGeometryLoop) (g : Geometry) :
    (SetGeometryAdd env l g).state.settings =
      l.state.settings.SetMaterialSelected (materialTypeFor l.state.scene.viewMode g) := by
  have hsel : (SetGeometryAdd env l g).selectedMaterial =
      expectedMaterial l.state.renderer.lastId g := by
    rw [SetGeometryAdd_selectedMaterial, SetGeometryAdd_materials]
    exact selectMaterial_expected g _ _
  have hiff := expectedMaterial_eq_unlit l.state.renderer.lastId g
  have key : (SetGeometryAdd env l g).state.settings =
      if l.state.scene.viewMode = ViewMode.Normals then
        l.state.settings.SetMaterialSelected MaterialType.NORMAL_MAP
      else if l.state.scene.viewMode = ViewMode.Depth then
        l.state.settings.SetMaterialSelected MaterialType.DEPTH
      else if (SetGeometryAdd env l g).selectedMaterial =
          (SetGeometryAdd env l g).materials.unlit.handle then
        l.state.settings.SetMaterialSelected MaterialType.UNLIT
      else l.state.settings.SetMaterialSelected MaterialType.LIT := by
    unfold SetGeometryAdd
    dsimp only [State.log, State.onScene3d, State.onSettings]
    split_ifs <;> rfl
  have hm : (SetGeometryAdd env l g).materials = materialsAt l.state.renderer.lastId := rfl
  rw [key, hsel, hm]
  unfold materialTypeFor
  by_cases hw : wantsUnlit g = true
  · rw [if_pos (hiff.mpr hw), if_pos hw]
    split_ifs <;> rfl
  · rw [if_neg (fun h => hw (hiff.mp h)), if_neg hw]
    split_ifs <;> rfl

/-- One iteration of the loop of `SetGeometry`: the view controls are left alone, the
material-type selector and the prefab selector follow the geometry of the iteration, the
point-size slider the number of point clouds so far. -/
lemma SetGeometryStep_controls (env : Env) (size : Nat) (l : SetGeometryLoop) (g : Geometry) :
    mouseButton (SetGeometryStep env size l g).state = mouseButton l.state ∧
    (SetGeometryStep env size l g).state.tickEventsEnabled = l.state.tickEventsEnabled ∧
    (SetGeometryStep env size l g).state.scene.viewMode = l.state.scene.viewMode ∧
    (SetGeometryStep env size l g).state.settings.wgtMaterialType =
      l.state.settings.wgtMaterialType.SetSelectedIndex
        (materialTypeFor l.state.scene.viewMode g).toNat ∧
    (SetGeometryStep env size l g).state.settings.wgtPrefabMaterial =
      l.state.settings.wgtPrefabMaterial.SetEnabled
        (decide (materialTypeFor l.state.scene.viewMode g = MaterialType.LIT)) ∧
    (SetGeometryStep env size l g).state.settings.wgtPointSize =
      l.state.settings.wgtPointSize.SetEnabled
        (decide ((SetGeometryStep env size l g).nPointClouds > 0)) := by
  have hA := SetGeometryAdd_state env l g
  have hS := SetGeometryAdd_settings env l g
  have a1 := congrArg State.tickEventsEnabled hA
  have a2 := congrArg (fun x => x.scene.viewMode) hA
  have m1 : mouseButton (SetGeometryAdd env l g).state = mouseButton l.state := by
    funext m
    cases m <;> simp only [mouseButton, hS] <;> rfl
  have s1 : (SetGeometryAdd env l g).state.settings.wgtMaterialType =
      l.state.settings.wgtMaterialType.SetSelectedIndex
        (materialTypeFor l.state.scene.viewMode g).toNat := by
    rw [hS]; rfl
  have s2 : (SetGeometryAdd env l g).state.settings.wgtPrefabMaterial =
      l.state.settings.wgtPrefabMaterial.SetEnabled
        (decide (materialTypeFor l.state.scene.viewMode g = MaterialType.LIT)) := by
    rw [hS]; rfl
  have s3 : (SetGeometryAdd env l g).state.settings.wgtPointSize =
      l.state.settings.wgtPointSize := by
    rw [hS]; rfl
  have hn : (SetGeometryStep env size l g).nPointClouds = (SetGeometryAdd env l g).nPointClouds :=
    rfl
  rw [hn]
  by_cases h : (SetGeometryAdd env l g).nPointClouds = size
  · have hs := SetGeometryStep_state_of_eq env size l g h
    have hN := Impl.SetLightingProfileNamed_shape env (SetGeometryAdd env l g).state
      kPointCloudProfileName
    have n1 := congrArg State.tickEventsEnabled hN
    have n2 := congrArg (fun x => x.scene.viewMode) hN
    have n3 := congrArg (fun x => x.settings.wgtMaterialType) hN
    have n4 := congrArg (fun x => x.settings.wgtPrefabMaterial) hN
    have n5 := congrArg (fun x => x.settings.wgtPointSize) hN
    have n6 := congrArg (fun x => x.settings.wgtMouseArcball) hN
    have n7 := congrArg (fun x => x.settings.wgtMouseFly) hN
    have n8 := congrArg (fun x => x.settings.wgtMouseModel) hN
    have n9 := congrArg (fun x => x.settings.wgtMouseSun) hN
    have n10 := congrArg (fun x => x.settings.wgtMouseIBL) hN
    have b1 := congrArg State.tickEventsEnabled hs
    have b2 := congrArg (fun x => x.scene.viewMode) hs
    have b3 := congrArg (fun x => x.settings.wgtMaterialType) hs
    have b4 := congrArg (fun x => x.settings.wgtPrefabMaterial) hs
    have b5 := congrArg (fun x => x.settings.wgtPointSize) hs
    have b6 := congrArg (fun x => x.settings.wgtMouseArcball) hs
    have b7 := congrArg (fun x => x.settings.wgtMouseFly) hs
    have b8 := congrArg (fun x => x.settings.wgtMouseModel) hs
    have b9 := congrArg (fun x => x.settings.wgtMouseSun) hs
    have b10 := congrArg (fun x => x.settings.wgtMouseIBL) hs
    generalize Impl.SetLightingProfileNamed env (SetGeometryAdd env l g).state
      kPointCloudProfileName = N at n1 n2 n3 n4 n5 n6 n7 n8 n9 n10 b1 b2 b3 b4 b5 b6 b7 b8 b9 b10
    have c5 : (SetGeometryStep env size l g).state.settings.wgtPointSize =
      N.settings.wgtPointSize.SetEnabled (decide ((SetGeometryAdd env l g).nPointClouds > 0)) := b5
    refine ⟨?_, (b1.trans n1).trans a1, (b2.trans n2).trans a2, (b3.trans n3).trans s1,
      (b4.trans n4).trans s2, ?_⟩
    · rw [← m1]
      funext m
      cases m
      · exact congrArg Button.isOn (b6.trans n6)
      · exact congrArg Button.isOn (b7.trans n7)
      · exact congrArg Button.isOn (b8.trans n8)
      · exact congrArg Button.isOn (b9.trans n9)
      · exact congrArg Button.isOn (b10.trans n10)
    · rw [c5]
      have n5' : N.settings.wgtPointSize = (SetGeometryAdd env l g).state.settings.wgtPointSize := n5
      rw [n5', s3]
  · have hs := SetGeometryStep_state_of_ne env size l g h
    have b1 := congrArg State.tickEventsEnabled hs
    have b2 := congrArg (fun x => x.scene.viewMode) hs
    have b3 := congrArg (fun x => x.settings.wgtMaterialType) hs
    have b4 := congrArg (fun x => x.settings.wgtPrefabMaterial) hs
    have b5 := congrArg (fun x => x.settings.wgtPointSize) hs
    have b6 := congrArg (fun x => x.settings.wgtMouseArcball) hs
    have b7 := congrArg (fun x => x.settings.wgtMouseFly) hs
    have b8 := congrArg (fun x => x.settings.wgtMouseModel) hs
    have b9 := congrArg (fun x => x.settings.wgtMouseSun) hs
    have b10 := congrArg (fun x => x.settings.wgtMouseIBL) hs
    have c5 : (SetGeometryStep env size l g).state.settings.wgtPointSize =
      (SetGeometryAdd env l g).state.settings.wgtPointSize.SetEnabled
        (decide ((SetGeometryAdd env l g).nPointClouds > 0)) := b5
    refine ⟨?_, b1.trans a1, b2.trans a2, b3.trans s1, b4.trans s2, ?_⟩
    · rw [← m1]
      funext m
      cases m
      · exact congrArg Button.isOn b6
      · exact congrArg Button.isOn b7
      · exact congrArg Button.isOn b8
      · exact congrArg Button.isOn b9
      · exact congrArg Button.isOn b10
    · rw [c5, s3]

lemma fold_viewControls (env : Env) (size : Nat) (xs : List Geometry) (l0 : SetGeometryLoop) :
    mouseButton (xs.foldl (SetGeometryStep env size) l0).state = mouseButton l0.state ∧
    (xs.foldl (SetGeometryStep env size) l0).state.tickEventsEnabled =
      l0.state.tickEventsEnabled ∧
    (xs.foldl (SetGeometryStep env size) l0).state.scene.viewMode = l0.state.scene.viewMode := by
  induction xs generalizing l0 with
  | nil => exact ⟨rfl, rfl, rfl⟩
  | cons x rest ih =>
    obtain ⟨c1, c2, c3, _, _, _⟩ := SetGeometryStep_controls env size l0 x
    obtain ⟨r1, r2, r3⟩ := ih (SetGeometryStep env size l0 x)
    rw [List.foldl_cons]
    exact ⟨r1.trans c1, r2.trans c2, r3.trans c3⟩

lemma SetGeometry_viewControls (env : Env) (s : State) (gs : List Geometry) :
    mouseButton (SetGeometry env s gs) = mouseButton s ∧
    (SetGeometry env s gs).tickEventsEnabled = s.tickEventsEnabled ∧
    (SetGeometry env s gs).scene.viewMode = s.scene.viewMode := by
  have hc := SetGeometryClear_shape (s.log (Call.SetGeometry gs))
  have c1 := congrArg State.tickEventsEnabled hc
  have c2 := congrArg (fun x => x.scene.viewMode) hc
  have c3 := congrArg State.settings hc
  obtain ⟨f1, f2, f3⟩ := fold_viewControls env gs.length gs
    { state := SetGeometryClear (s.log (Call.SetGeometry gs)) }
  have ha := SetGeometryAxes_shape env (gs.foldl (SetGeometryStep env gs.length)
    { state := SetGeometryClear (s.log (Call.SetGeometry gs)) })
  have a1 := congrArg State.tickEventsEnabled ha
  have a2 := congrArg (fun x => x.scene.viewMode) ha
  have a3 : mouseButton (SetGeometryAxes env (gs.foldl (SetGeometryStep env gs.length)
      { state := SetGeometryClear (s.log (Call.SetGeometry gs)) })) =
      mouseButton (gs.foldl (SetGeometryStep env gs.length)
        { state := SetGeometryClear (s.log (Call.SetGeometry gs)) }).state := by
    rw [ha]
    funext m
    cases m <;> rfl
  have c4 : mouseButton (SetGeometryClear (s.log (Call.SetGeometry gs))) = mouseButton s := by
    funext m
    cases m <;> simp only [mouseButton, c3] <;> rfl
  rw [SetGeometry_eq]
  exact ⟨(a3.trans f1).trans c4, (a1.trans f2).trans c1, (a2.trans f3).trans c2⟩

/-! ### The mouse-mode buttons -/

lemma clickMouse_buttons (s : State) (mode m : MouseMode) :
    mouseButton (clickMouse s mode) m = decide (m = mode) := by
  cases mode <;> cases m <;> rfl

lemma clickMouse_ticks (s : State) (mode : MouseMode) :
    (clickMouse s mode).tickEventsEnabled = decide (mode = MouseMode.Fly) := by
  cases mode <;> rfl

/-- C27: the window the constructor builds has the Arcball button on and the four others
off, whatever the world and the geometries. After any sequence of clicks on the five
buttons, the button clicked last is on and the four others are off. Each handler sets tick
events enabled exactly when its mode is Fly, so after a sequence of clicks tick events are
enabled exactly when the last click was on Fly. -/
theorem mouseButtons_oneHot :
    (∀ (env : Env) (gs : List Geometry) (title : String) (m : MouseMode),
      mouseButton (new env gs title) m = decide (m = MouseMode.Arcball)) ∧
    (∀ (s : State) (mode m : MouseMode),
      mouseButton (clickMouse s mode) m = decide (m = mode)) ∧
    (∀ (s : State) (mode : MouseMode),
      (clickMouse s mode).tickEventsEnabled = decide (mode = MouseMode.Fly)) ∧
    (∀ (s : State) (clicks : List MouseMode) (last m : MouseMode),
      mouseButton ((clicks ++ [last]).foldl clickMouse s) m = decide (m = last)) ∧
    (∀ (s : State) (clicks : List MouseMode) (last : MouseMode),
      ((clicks ++ [last]).foldl clickMouse s).tickEventsEnabled =
        decide (last = MouseMode.Fly)) ∧
    (∀ (env : Env) (gs : List Geometry) (title : String) (clicks : List MouseMode),
      ∃ active : MouseMode, ∀ m,
        mouseButton (clicks.foldl clickMouse (new env gs title)) m = decide (m = active)) := by
  have hnew : ∀ (env : Env) (gs : List Geometry) (title : String) (m : MouseMode),
      mouseButton (new env gs title) m = decide (m = MouseMode.Arcball) := by
    intro env gs title m
    unfold new
    dsimp only
    rw [(SetGeometry_viewControls env _ gs).1]
    cases m <;> rfl
  refine ⟨hnew, clickMouse_buttons, clickMouse_ticks, ?_, ?_, ?_⟩
  · intro s clicks last m
    rw [List.foldl_append]
    exact clickMouse_buttons _ last m
  · intro s clicks last
    rw [List.foldl_append]
    exact clickMouse_ticks _ last
  · intro env gs title clicks
    rcases List.eq_nil_or_concat clicks with rfl | ⟨init, last, rfl⟩
    · exact ⟨MouseMode.Arcball, hnew env gs title⟩
    · refine ⟨last, fun m => ?_⟩
      rw [List.concat_eq_append, List.foldl_append]
      exact clickMouse_buttons _ last m

end GuiVisualizer

/-! ### The material panel after `SetGeometry` -/

namespace GuiVisualizer

lemma fold_materialType_items (env : Env) (size : Nat) (xs : List Geometry)
    (l0 : SetGeometryLoop) :
    (xs.foldl (SetGeometryStep env size) l0).state.settings.wgtMaterialType.items =
      l0.state.settings.wgtMaterialType.items := by
  induction xs generalizing l0 with
  | nil => rfl
  | cons x rest ih =>
    obtain ⟨_, _, _, c4, _, _⟩ := SetGeometryStep_controls env size l0 x
    rw [List.foldl_cons, ih, c4, Combobox.SetSelectedIndex_items]

lemma materialTypeFor_toNat_lt (viewMode : ViewMode) (g : Geometry) :
    (materialTypeFor viewMode g).toNat < 4 := by
  cases h : materialTypeFor viewMode g <;> simp [MaterialType.toNat]

/-- The material panel once `SetGeometry` has returned from an input that ends with `last`. -/
lemma SetGeometry_materialPanel (env : Env) (s : State) (init : List Geometry) (last : Geometry)
    (hitems : s.settings.wgtMaterialType.items.length = 4) :
    (SetGeometry env s (init ++ [last])).settings.wgtMaterialType.GetSelectedIndex =
      (materialTypeFor s.scene.viewMode last).toNat ∧
    (SetGeometry env s (init ++ [last])).settings.wgtMaterialType.items =
      s.settings.wgtMaterialType.items ∧
    (SetGeometry env s (init ++ [last])).settings.wgtPrefabMaterial.enabled =
      decide (materialTypeFor s.scene.viewMode last = MaterialType.LIT) ∧
    (SetGeometry env s (init ++ [last])).settings.wgtPointSize.enabled =
      decide (0 < (init ++ [last]).countP isPointCloud) := by
  have hc := SetGeometryClear_shape (s.log (Call.SetGeometry (init ++ [last])))
  have c1 := congrArg (fun x => x.scene.viewMode) hc
  have c2 := congrArg (fun x => x.settings.wgtMaterialType) hc
  generalize hl0 : ({ state := SetGeometryClear (s.log (Call.SetGeometry (init ++ [last]))) } :
    SetGeometryLoop) = l0
  have hv0 : l0.state.scene.viewMode = s.scene.viewMode := by rw [← hl0]; exact c1
  have hw0 : l0.state.settings.wgtMaterialType = s.settings.wgtMaterialType := by
    rw [← hl0]; exact c2
  have hn0 : l0.nPointClouds = 0 := by rw [← hl0]
  generalize hsize : (init ++ [last]).length = size
  obtain ⟨_, _, v1⟩ := fold_viewControls env size init l0
  have i1 := fold_materialType_items env size init l0
  obtain ⟨_, _, _, k4, k5, k6⟩ := SetGeometryStep_controls env size
    (init.foldl (SetGeometryStep env size) l0) last
  have hfold : (init ++ [last]).foldl (SetGeometryStep env size) l0 =
      SetGeometryStep env size (init.foldl (SetGeometryStep env size) l0) last := by
    rw [List.foldl_append]
    rfl
  have hcount := fold_nPointClouds env size (init ++ [last]) l0
  rw [hfold, hn0, Nat.zero_add] at hcount
  rw [v1, hv0] at k4 k5
  rw [hcount] at k6
  have ha := SetGeometryAxes_shape env ((init ++ [last]).foldl (SetGeometryStep env size) l0)
  have a1 := congrArg (fun x => x.settings.wgtMaterialType) ha
  have a2 := congrArg (fun x => x.settings.wgtPrefabMaterial) ha
  have a3 := congrArg (fun x => x.settings.wgtPointSize) ha
  rw [hfold] at a1 a2 a3
  have e1 : (SetGeometry env s (init ++ [last])).settings.wgtMaterialType =
      (init.foldl (SetGeometryStep env size) l0).state.settings.wgtMaterialType.SetSelectedIndex
        (materialTypeFor s.scene.viewMode last).toNat := by
    rw [SetGeometry_eq, hsize, hl0, hfold]
    exact a1.trans k4
  have e2 : (SetGeometry env s (init ++ [last])).settings.wgtPrefabMaterial =
      (init.foldl (SetGeometryStep env size) l0).state.settings.wgtPrefabMaterial.SetEnabled
        (decide (materialTypeFor s.scene.viewMode last = MaterialType.LIT)) := by
    rw [SetGeometry_eq, hsize, hl0, hfold]
    exact a2.trans k5
  have e3 : (SetGeometry env s (init ++ [last])).settings.wgtPointSize =
      (init.foldl (SetGeometryStep env size) l0).state.settings.wgtPointSize.SetEnabled
        (decide (List.countP isPointCloud (init ++ [last]) > 0)) := by
    rw [SetGeometry_eq, hsize, hl0, hfold]
    exact a3.trans k6
  have hlen : (init.foldl (SetGeometryStep env size) l0).state.settings.wgtMaterialType.items.length
      = 4 := by
    rw [i1, hw0, hitems]
  have hlt := materialTypeFor_toNat_lt s.scene.viewMode last
  refine ⟨?_, ?_, ?_, ?_⟩
  · rw [e1]
    unfold Combobox.SetSelectedIndex
    rw [if_pos (by rw [hlen]; exact hlt)]
    rfl
  · rw [e1, Combobox.SetSelectedIndex_items, i1, hw0]
  · rw [e2]
    rfl
  · rw [e3]
    rfl

/-- C29: on a window whose material-type selector holds its four items, after `SetGeometry`
with an input that ends with the geometry `last`, whatever comes before it: the selector is
at "Normal map" when the view is in mode Normals and at "Depth" when it is in mode Depth;
in mode Color it is at "Unlit" exactly when the material picked for `last` is the unlit
instance of the pair created for `last`, which is when `wantsUnlit last` holds, and at "Lit"
otherwise, for a geometry of an unrecognised type too. The prefab selector is enabled
exactly when the selector is at "Lit", and the point-size slider is enabled exactly when the
input holds a point cloud. -/
theorem setGeometry_material_selector (env : Env) (s : State) (init : List Geometry)
    (last : Geometry)
    (hitems : s.settings.wgtMaterialType.items = ["Lit", "Unlit", "Normal map", "Depth"]) :
    (s.scene.viewMode = ViewMode.Normals →
      (SetGeometry env s (init ++ [last])).settings.wgtMaterialType.GetSelectedValue =
        some "Normal map") ∧
    (s.scene.viewMode = ViewMode.Depth →
      (SetGeometry env s (init ++ [last])).settings.wgtMaterialType.GetSelectedValue =
        some "Depth") ∧
    (s.scene.viewMode = ViewMode.Color →
      ((SetGeometry env s (init ++ [last])).settings.wgtMaterialType.GetSelectedValue =
        some "Unlit" ↔ wantsUnlit last = true) ∧
      ((SetGeometry env s (init ++ [last])).settings.wgtMaterialType.GetSelectedValue =
        some "Lit" ↔ wantsUnlit last = false)) ∧
    (∀ base, expectedMaterial base last = (materialsAt base).unlit.handle ↔
      wantsUnlit last = true) ∧
    (∀ tag, wantsUnlit (Geometry.other tag) = false) ∧
    ((SetGeometry env s (init ++ [last])).settings.wgtPrefabMaterial.enabled = true ↔
      (SetGeometry env s (init ++ [last])).settings.wgtMaterialType.GetSelectedValue =
        some "Lit") ∧
    ((SetGeometry env s (init ++ [last])).settings.wgtPointSize.enabled = true ↔
      ∃ g ∈ init ++ [last], g.GetGeometryType = GeometryType.PointCloud) := by
  obtain ⟨p1, p2, p3, p4⟩ := SetGeometry_materialPanel env s init last (by rw [hitems]; rfl)
  have hval : (SetGeometry env s (init ++ [last])).settings.wgtMaterialType.GetSelectedValue =
      ["Lit", "Unlit", "Normal map", "Depth"].get? (materialTypeFor s.scene.viewMode last).toNat := by
    unfold Combobox.GetSelectedValue
    rw [p2, hitems]
    exact congrArg _ p1
  refine ⟨?_, ?_, ?_, fun base => expectedMaterial_eq_unlit base last, fun _ => rfl, ?_, ?_⟩
  · intro hv
    rw [hval]
    simp [materialTypeFor, hv, MaterialType.toNat]
  · intro hv
    rw [hval]
    simp [materialTypeFor, hv, MaterialType.toNat]
  · intro hv
    rw [hval]
    cases hw : wantsUnlit last <;> simp [materialTypeFor, hv, hw, MaterialType.toNat]
  · rw [p3, hval]
    cases h : materialTypeFor s.scene.viewMode last <;> simp [MaterialType.toNat]
  · rw [p4]
    simp only [decide_eq_true_eq, List.countP_pos_iff, isPointCloud]

end GuiVisualizer

/-- Sample run for C29: a line set, which gets its unlit instance, followed by the cloud
without colours, which gets its lit instance, on the sample window in mode Color. -/
theorem setGeometry_material_selector_witness :
    Examples.window.settings.wgtMaterialType.items = ["Lit", "Unlit", "Normal map", "Depth"] ∧
    Examples.window.scene.viewMode = ViewMode.Color ∧
    wantsUnlit (Geometry.lineSet ⟨[], [], []⟩) = true ∧
    wantsUnlit (Geometry.pointCloud Examples.plain) = false ∧
    (GuiVisualizer.SetGeometry Examples.env Examples.window
      ([Geometry.lineSet ⟨[], [], []⟩] ++ [Geometry.pointCloud Examples.plain])
        ).settings.wgtMaterialType.GetSelectedValue = some "Lit" ∧
    ((GuiVisualizer.SetGeometry Examples.env Examples.window
      ([Geometry.lineSet ⟨[], [], []⟩] ++ [Geometry.pointCloud Examples.plain])
        ).settings.wgtPrefabMaterial.enabled = true ↔
      (GuiVisualizer.SetGeometry Examples.env Examples.window
        ([Geometry.lineSet ⟨[], [], []⟩] ++ [Geometry.pointCloud Examples.plain])
          ).settings.wgtMaterialType.GetSelectedValue = some "Lit") :=
  ⟨rfl, rfl, rfl, rfl,
    ((GuiVisualizer.setGeometry_material_selector Examples.env Examples.window
      [Geometry.lineSet ⟨[], [], []⟩] (Geometry.pointCloud Examples.plain) rfl).2.2.1 rfl).2.mpr
      rfl,
    (GuiVisualizer.setGeometry_material_selector Examples.env Examples.window
      [Geometry.lineSet ⟨[], [], []⟩] (Geometry.pointCloud Examples.plain) rfl).2.2.2.2.2.1⟩

/-! ### The skybox and the "Show skymap" checkbox -/

namespace Impl

lemma SetIBLSkybox_isOn (env : Env) (s : State) (p : String)
    (h : stdFind p "_ibl.ktx" ≠ npos) :
    (SetIBLSkybox env s p).scene.skyboxIsOn = s.settings.wgtSkyEnabled.IsChecked := by
  cases h1 : env.skyboxLoads (derivedSkyboxPath p) <;> cases h2 : env.skyboxLoads p <;>
    cases h3 : s.settings.wgtSkyEnabled.IsChecked <;>
    unfold derivedSkyboxPath at h1 <;>
    unfold SetIBLSkybox Renderer.AddSkybox Renderer.loadAsset <;>
    dsimp only <;>
    rw [if_pos h] <;>
    simp [h1, h2, h3, State.onSettings, State.onScene3d, Scene.SetSkybox,
      SceneWidget.SetSkyboxHandle, isValid, kBad]

lemma SetIBLSkybox_inSync (env : Env) (s : State) (p : String) (h : SkyboxInSync s) :
    SkyboxInSync (SetIBLSkybox env s p) := by
  by_cases hfind : stdFind p "_ibl.ktx" = npos
  · rw [SetIBLSkybox_of_no_attempt env s p hfind]
    exact h
  · have hshape := SetIBLSkybox_shape env s p
    have e1 : (SetIBLSkybox env s p).settings.wgtSkyEnabled = s.settings.wgtSkyEnabled := by
      have := congrArg (fun x => x.settings.wgtSkyEnabled) hshape
      exact this
    have e2 : (SetIBLSkybox env s p).settings.wgtBGColor = s.settings.wgtBGColor := by
      have := congrArg (fun x => x.settings.wgtBGColor) hshape
      exact this
    obtain ⟨_, h2, h3⟩ := h
    unfold SkyboxInSync
    rw [e1, e2, SetIBLSkybox_isOn env s p hfind, SetIBLSkybox_skybox env s p hfind]
    refine ⟨rfl, ?_, h3⟩
    cases hc : s.settings.wgtSkyEnabled.IsChecked
    · rw [hc] at h2
      simpa using h2
    · simp

lemma SetIBL_inSync (env : Env) (s : State) (path : Option String) (h : SkyboxInSync s) :
    SkyboxInSync (SetIBL env s path).2 := by
  cases hload : env.indirectLightLoads (iblPathOf env path)
  · rw [SetIBL_of_not_loads env s path hload]
    exact h
  · rw [SetIBL_of_loads env s path hload]
    apply SetIBLSkybox_inSync
    exact h

lemma SetLightingProfile_skyboxIsOn (env : Env) (s : State) (p : LightingProfile)
    (h : SkyboxInSync s) :
    (SetLightingProfile env s p).scene.skyboxIsOn = s.settings.wgtSkyEnabled.IsChecked := by
  have h1 := congrArg (fun x => x.scene.skyboxIsOn) (SetLightingProfile_eq env s p _ rfl)
  have h2 : (SetLightingProfile env s p).scene.skyboxIsOn =
      (SetLightingProfileDefaultIBL env s p).scene.skyboxIsOn := h1
  rw [h2]
  unfold SetLightingProfileDefaultIBL
  cases hu : p.useDefaultIBL
  · exact h.1
  · simp only [if_true]
    have h3 := (SetIBL_inSync env s none h).1
    have h4 := SetIBL_wgtSkyEnabled env s none
    rw [h4] at h3
    exact h3

end Impl

namespace GuiVisualizer

lemma clickSkyEnabled_inSync (s : State) (checked : Bool) :
    SkyboxInSync (clickSkyEnabled s checked) := by
  cases checked <;> exact ⟨rfl, rfl, rfl⟩

/-- C25: a click on "Show skymap" leaves the display of the skybox in step with the
checkbox, and `Impl::SetIBL` keeps it in step. Applying a lighting profile does not: it
unchecks the box and removes the skybox of the scene, but it neither calls
`SetSkyboxHandle` nor enables the background-colour editor. On a window in step with the
box checked, after `SetLightingProfile(renderer, profile)` the box is unchecked while the
flag last given to `SetSkyboxHandle` is still true and the background-colour editor is still
disabled. So it is on the sample window after the skymap is switched on and the fourth
profile is chosen in the selector. -/
theorem profile_breaks_skybox_sync :
    (∀ (s : State) (checked : Bool),
      (clickSkyEnabled s checked).settings.wgtSkyEnabled.IsChecked = checked ∧
      SkyboxInSync (clickSkyEnabled s checked)) ∧
    (∀ (env : Env) (s : State) (path : Option String),
      SkyboxInSync s → SkyboxInSync (Impl.SetIBL env s path).2) ∧
    (∀ (env : Env) (s : State) (p : LightingProfile),
      SkyboxInSync s → s.settings.wgtSkyEnabled.IsChecked = true →
      (Impl.SetLightingProfile env s p).settings.wgtSkyEnabled.IsChecked = false ∧
      (Impl.SetLightingProfile env s p).scene.scene3d.skybox = kBad ∧
      (Impl.SetLightingProfile env s p).scene.skyboxIsOn = true ∧
      (Impl.SetLightingProfile env s p).settings.wgtBGColor.enabled = false ∧
      ¬ SkyboxInSync (Impl.SetLightingProfile env s p)) ∧
    SkyboxInSync (clickSkyEnabled Examples.window true) ∧
    (wgtLightingProfile_OnValueChanged Examples.env
      (clickSkyEnabled Examples.window true) 3).settings.wgtSkyEnabled.IsChecked = false ∧
    (wgtLightingProfile_OnValueChanged Examples.env
      (clickSkyEnabled Examples.window true) 3).scene.skyboxIsOn = true ∧
    (wgtLightingProfile_OnValueChanged Examples.env
      (clickSkyEnabled Examples.window true) 3).settings.wgtBGColor.enabled = false := by
  refine ⟨?_, Impl.SetIBL_inSync, ?_, clickSkyEnabled_inSync _ _, rfl, rfl, rfl⟩
  · intro s checked
    refine ⟨?_, clickSkyEnabled_inSync s checked⟩
    cases checked <;> rfl
  · intro env s p hsync hchecked
    have hshape := Impl.SetLightingProfile_shape env s p
    have e1 := congrArg (fun x => x.settings.wgtSkyEnabled) hshape
    have e2 := congrArg (fun x => x.scene.scene3d.skybox) hshape
    have e3 := congrArg (fun x => x.settings.wgtBGColor) hshape
    have e4 := Impl.SetLightingProfile_skyboxIsOn env s p hsync
    have f1 : (Impl.SetLightingProfile env s p).settings.wgtSkyEnabled = ⟨false⟩ := e1
    have f2 : (Impl.SetLightingProfile env s p).scene.scene3d.skybox = kBad := e2
    have f3 : (Impl.SetLightingProfile env s p).settings.wgtBGColor = s.settings.wgtBGColor := e3
    have f4 : (Impl.SetLightingProfile env s p).settings.wgtBGColor.enabled = false := by
      rw [f3, hsync.2.2, hchecked]
      rfl
    have f5 : (Impl.SetLightingProfile env s p).scene.skyboxIsOn = true := by
      rw [e4, hchecked]
    refine ⟨by rw [f1]; rfl, f2, f5, f4, ?_⟩
    intro hbad
    have := hbad.1
    rw [f5, f1] at this
    exact absurd this (by decide)

end GuiVisualizer

/-! ### The handler of the prefab selector -/

lemma find?_filter_ne (ps : List (String × ParamValue)) (n n' : String) (h : n' ≠ n) :
    (ps.filter (fun p => p.1 != n)).find? (fun p => p.1 == n') =
      ps.find? (fun p => p.1 == n') := by
  induction ps with
  | nil => rfl
  | cons p rest ih =>
    by_cases hp : p.1 = n
    · have h3 : ¬ p.1 = n' := fun e => h (e.symm.trans hp)
      rw [List.filter_cons_of_neg (by simp [hp]), ih, List.find?_cons_of_neg _ (by simp [h3])]
    · rw [List.filter_cons_of_pos (by simp [hp])]
      by_cases h4 : p.1 = n'
      · rw [List.find?_cons_of_pos _ (by simp [h4]), List.find?_cons_of_pos _ (by simp [h4])]
      · rw [List.find?_cons_of_neg _ (by simp [h4]), List.find?_cons_of_neg _ (by simp [h4]), ih]

lemma find?_filter_self (ps : List (String × ParamValue)) (n : String) :
    (ps.filter (fun p => p.1 != n)).find? (fun p => p.1 == n) = none := by
  rw [List.find?_eq_none]
  intro p hp
  have := (List.mem_filter.mp hp).2
  simpa using this

lemma getParam_setParam (ps : List (String × ParamValue)) (n : String) (v : ParamValue)
    (n' : String) :
    getParam (setParam ps n v) n' = if n' = n then some v else getParam ps n' := by
  unfold getParam setParam
  rw [List.find?_append]
  by_cases h : n' = n
  · subst h
    rw [find?_filter_self, if_pos rfl]
    simp
  · rw [find?_filter_ne ps n n' h, if_neg h]
    have h2 : ¬ n = n' := fun e => h e.symm
    simp [h2]

lemma holdsPrefab_writes (prefab : LitMaterial) (v : ℚ) (ps : List (String × ParamValue)) :
    HoldsPrefab prefab v
      ((prefabWrites prefab v).foldl (fun ps p => setParam ps p.1 p.2) ps) := by
  unfold HoldsPrefab prefabWrites
  simp only [List.foldl_cons, List.foldl_nil, getParam_setParam]
  refine ⟨?_, ?_, ?_, ?_, ?_, ?_, ?_, ?_⟩ <;> simp

namespace GuiVisualizer

lemma applyPrefab_shape (prefab : LitMaterial) (t : State) (h : Nat) :
    applyPrefab prefab t h =
      { t with
        geometryMaterials := (lookup t.geometryMaterials h).2,
        renderer := { t.renderer with
          materialInstances := t.renderer.materialInstances.map (fun inst =>
            if inst.handle = (lookup t.geometryMaterials h).1.lit.handle then
              { inst with params :=
                  ((prefabWrites prefab t.settings.wgtPointSize.GetDoubleValue).foldl
                    (fun ps p => setParam ps p.1 p.2) inst.params) }
            else inst) },
        scene := { t.scene with
          scene3d := (t.scene.scene3d.AssignMaterial h
            (lookup t.geometryMaterials h).1.lit.handle) } } := rfl

/-- The loop of the handler of `wgtPrefabMaterial` over the handles `hs`, on a window whose
map holds each of them as a key. -/
lemma fold_applyPrefab (prefab : LitMaterial) (hs : List Nat) (t : State)
    (hkeys : ∀ h ∈ hs, h ∈ t.geometryMaterials.map Prod.fst) :
    (hs.foldl (applyPrefab prefab) t).geometryMaterials = t.geometryMaterials ∧
    (hs.foldl (applyPrefab prefab) t).settings = t.settings ∧
    (hs.foldl (applyPrefab prefab) t).renderer.instanceHandles = t.renderer.instanceHandles ∧
    (∀ inst ∈ (hs.foldl (applyPrefab prefab) t).renderer.materialInstances,
      (∃ h ∈ hs, inst.handle = (lookup t.geometryMaterials h).1.lit.handle) →
      HoldsPrefab prefab t.settings.wgtPointSize.GetDoubleValue inst.params) ∧
    (∀ inst ∈ (hs.foldl (applyPrefab prefab) t).renderer.materialInstances,
      (∀ h ∈ hs, inst.handle ≠ (lookup t.geometryMaterials h).1.lit.handle) →
      inst ∈ t.renderer.materialInstances) := by
  induction hs generalizing t with
  | nil =>
    refine ⟨rfl, rfl, rfl, ?_, fun inst hi _ => hi⟩
    rintro inst _ ⟨h, hh, _⟩
    simp at hh
  | cons h0 rest ih =>
    have hk0 : (lookup t.geometryMaterials h0).2 = t.geometryMaterials :=
      lookup_of_key _ _ (hkeys h0 (List.mem_cons_self _ _))
    have hshape := applyPrefab_shape prefab t h0
    have g1 : (applyPrefab prefab t h0).geometryMaterials = t.geometryMaterials := hk0
    have g2 : (applyPrefab prefab t h0).settings = t.settings := rfl
    have g3 : (applyPrefab prefab t h0).renderer.materialInstances =
        t.renderer.materialInstances.map (fun inst =>
          if inst.handle = (lookup t.geometryMaterials h0).1.lit.handle then
            { inst with params :=
                ((prefabWrites prefab t.settings.wgtPointSize.GetDoubleValue).foldl
                  (fun ps p => setParam ps p.1 p.2) inst.params) }
          else inst) := rfl
    have g4 : (applyPrefab prefab t h0).renderer.instanceHandles =
        t.renderer.instanceHandles := by
      unfold Renderer.instanceHandles
      rw [g3, List.map_map]
      refine List.map_congr_left ?_
      intro i _
      simp only [Function.comp]
      split_ifs <;> rfl
    obtain ⟨r1, r2, r3, r4, r5⟩ := ih (applyPrefab prefab t h0) (by
      intro h hh
      rw [g1]
      exact hkeys h (List.mem_cons_of_mem _ hh))
    rw [g1, g2] at r4
    rw [g1] at r5
    rw [List.foldl_cons]
    refine ⟨r1.trans g1, r2.trans g2, r3.trans g4, ?_, ?_⟩
    · rintro inst hi ⟨h, hh, hlit⟩
      by_cases hrest : ∃ h' ∈ rest, inst.handle = (lookup t.geometryMaterials h').1.lit.handle
      · exact r4 inst hi hrest
      · have hno : ∀ h' ∈ rest,
            inst.handle ≠ (lookup t.geometryMaterials h').1.lit.handle :=
          fun h' hh' e => hrest ⟨h', hh', e⟩
        have hin := r5 inst hi hno
        rcases List.mem_cons.mp hh with rfl | hh
        · rw [g3] at hin
          obtain ⟨inst0, _, rfl⟩ := List.mem_map.mp hin
          by_cases hc : inst0.handle = (lookup t.geometryMaterials h).1.lit.handle
          · rw [if_pos hc]
            exact holdsPrefab_writes prefab _ _
          · rw [if_neg hc] at hlit
            exact absurd hlit hc
        · exact absurd hlit (hno h hh)
    · intro inst hi hall
      have hin := r5 inst hi (fun h hh => hall h (List.mem_cons_of_mem _ hh))
      rw [g3] at hin
      obtain ⟨inst0, h0mem, rfl⟩ := List.mem_map.mp hin
      have h0ne := hall h0 (List.mem_cons_self _ _)
      by_cases hc : inst0.handle = (lookup t.geometryMaterials h0).1.lit.handle
      · rw [if_pos hc] at h0ne
        exact absurd hc h0ne
      · rw [if_neg hc]
        exact h0mem

end GuiVisualizer

namespace GuiVisualizer

lemma prefab_find (name : String) (prefab : LitMaterial)
    (h : (name, prefab) ∈ prefabMaterials) :
    prefabMaterials.find? (fun p => p.1 == name) = some (name, prefab) := by
  simp only [prefabMaterials, List.mem_cons, List.mem_singleton, List.not_mem_nil, or_false,
    Prod.mk.injEq] at h
  rcases h with h | h | h | h | h | h | h | h <;>
    (obtain ⟨hname, hprefab⟩ := h; rw [hname, hprefab]; rfl)

lemma prefab_find_none (name : String) (h : ∀ prefab, (name, prefab) ∉ prefabMaterials) :
    prefabMaterials.find? (fun p => p.1 == name) = none := by
  rw [List.find?_eq_none]
  intro p hp hname
  have hn : p.1 = name := by simpa using hname
  exact h p.2 (by rw [← hn]; exact hp)

/-- C24: on a window whose map `geometryMaterials` holds every displayed handle as a key,
the handler of the prefab selector, for the name of an entry `prefab` of `prefabMaterials`,
leaves on every material instance that is the lit instance of a displayed geometry the
`baseColor`, `roughness`, `metallic`, `reflectance`, `clearCoat`, `clearCoatRoughness` and
`anisotropy` of the prefab, and as `pointSize` the value of the point-size slider, whatever
`prefab.pointSize` is; the instances that are the lit instance of no displayed geometry
are as before, no instance is added or removed, and the settings and the map are
untouched. For a name that `prefabMaterials` does not hold the handler leaves the whole
window as it is. -/
theorem prefab_handler_sets_lit (s : State) (name : String)
    (hkeys : ∀ h ∈ s.geometryHandles, h ∈ s.geometryMaterials.map Prod.fst) :
    (∀ prefab, (name, prefab) ∈ prefabMaterials →
      (∀ h ∈ s.geometryHandles,
        ∀ inst ∈ (wgtPrefabMaterial_OnValueChanged s name).renderer.materialInstances,
          inst.handle = (lookup s.geometryMaterials h).1.lit.handle →
          HoldsPrefab prefab s.settings.wgtPointSize.GetDoubleValue inst.params) ∧
      (∀ inst ∈ (wgtPrefabMaterial_OnValueChanged s name).renderer.materialInstances,
        (∀ h ∈ s.geometryHandles, inst.handle ≠ (lookup s.geometryMaterials h).1.lit.handle) →
        inst ∈ s.renderer.materialInstances) ∧
      (wgtPrefabMaterial_OnValueChanged s name).renderer.instanceHandles =
        s.renderer.instanceHandles ∧
      (wgtPrefabMaterial_OnValueChanged s name).settings = s.settings ∧
      (wgtPrefabMaterial_OnValueChanged s name).geometryMaterials = s.geometryMaterials) ∧
    ((∀ prefab, (name, prefab) ∉ prefabMaterials) →
      wgtPrefabMaterial_OnValueChanged s name = s) := by
  refine ⟨?_, ?_⟩
  · intro prefab hp
    have hrun : wgtPrefabMaterial_OnValueChanged s name =
        s.geometryHandles.foldl (applyPrefab prefab) s := by
      unfold wgtPrefabMaterial_OnValueChanged
      rw [prefab_find name prefab hp]
    obtain ⟨f1, f2, f3, f4, f5⟩ := fold_applyPrefab prefab s.geometryHandles s hkeys
    rw [hrun]
    exact ⟨fun h hh inst hi hlit => f4 inst hi ⟨h, hh, hlit⟩, f5, f3, f2, f1⟩
  · intro hnone
    unfold wgtPrefabMaterial_OnValueChanged
    rw [prefab_find_none name hnone]

end GuiVisualizer

/-! ### Sample run of the prefab handler -/

/-- Sample run for C24: the prefab "Polished ceramic [default]", whose own point size is 5,
on the sample window that shows the cloud without colours, with the slider at 3: the lit
instance of the cloud, handle 5, is live and holds the point size 3. -/
theorem prefab_handler_sets_lit_witness :
    (∀ h ∈ Examples.shown.geometryHandles, h ∈ Examples.shown.geometryMaterials.map Prod.fst) ∧
    (kDefaultMaterialName, ({} : LitMaterial)) ∈ prefabMaterials ∧
    ({} : LitMaterial).pointSize = 5 ∧
    Examples.shown.settings.wgtPointSize.GetDoubleValue = 3 ∧
    (GuiVisualizer.lookup Examples.shown.geometryMaterials 3).1.lit.handle = 5 ∧
    5 ∈ (GuiVisualizer.wgtPrefabMaterial_OnValueChanged Examples.shown
      kDefaultMaterialName).renderer.instanceHandles ∧
    (∀ inst ∈ (GuiVisualizer.wgtPrefabMaterial_OnValueChanged Examples.shown
        kDefaultMaterialName).renderer.materialInstances,
      inst.handle = 5 →
      getParam inst.params "pointSize" = some (ParamValue.scalar 3)) := by
  have hkeys : ∀ h ∈ Examples.shown.geometryHandles,
      h ∈ Examples.shown.geometryMaterials.map Prod.fst := by
    have h1 : Examples.shown.geometryHandles = [3] := rfl
    have h2 : Examples.shown.geometryMaterials.map Prod.fst = [3] := rfl
    rw [h1, h2]
    exact fun h hh => hh
  have h3 : Examples.shown.settings.wgtPointSize.GetDoubleValue = 3 := by
    have := MakeSlider_value_natCast SliderType.INT 1 10 3 (by norm_num) (by norm_num)
    have h' : (MakeSlider SliderType.INT 1 10 3).value = 3 := by simpa using this
    exact h'
  have hmem : (kDefaultMaterialName, ({} : LitMaterial)) ∈ prefabMaterials :=
    List.mem_cons_self _ _
  have hthm := (GuiVisualizer.prefab_handler_sets_lit Examples.shown kDefaultMaterialName
    hkeys).1 {} hmem
  refine ⟨hkeys, hmem, rfl, h3, rfl, ?_, ?_⟩
  · rw [hthm.2.2.1]
    decide
  · intro inst hi h5
    have := (hthm.1 3 (by decide) inst hi h5).2.2.2.2.2.2.2
    rw [h3] at this
    exact this

/-! ### The environment-map selector of the constructor -/

namespace GuiVisualizer

lemma addIBLItem_items (acc : Combobox × Nat) (f : String) :
    (addIBLItem acc f).1.items =
      acc.1.items ++ (if iblFilter f = true then [iblItemName f] else []) := by
  unfold addIBLItem iblFilter
  by_cases h : stdFind f "_ibl.ktx" = sizeSub (stdSize f) 8
  · rw [if_pos h, if_pos (decide_eq_true h)]
    dsimp only
    split_ifs
    · rw [Combobox.SetSelectedIndex_items]; rfl
    · rfl
  · rw [if_neg h, if_neg (by simpa using h), List.append_nil]

lemma fold_addIBLItem_items (files : List String) (acc : Combobox × Nat) :
    (files.foldl addIBLItem acc).1.items =
      acc.1.items ++ (files.filter iblFilter).map iblItemName := by
  induction files generalizing acc with
  | nil => simp
  | cons f rest ih =>
    rw [List.foldl_cons, ih, addIBLItem_items, List.filter_cons]
    cases h : iblFilter f <;> simp

end GuiVisualizer

namespace Impl

lemma SetIBL_wgtIBLs (env : Env) (s : State) (path : Option String) :
    (SetIBL env s path).2.settings.wgtIBLs = s.settings.wgtIBLs := by
  have h := congrArg (fun x => x.settings.wgtIBLs) (SetIBL_shape env s path)
  exact h

lemma SetLightingProfileDefaultIBL_items (env : Env) (s : State) (p : LightingProfile) :
    (SetLightingProfileDefaultIBL env s p).settings.wgtIBLs.items = s.settings.wgtIBLs.items := by
  unfold SetLightingProfileDefaultIBL
  cases h : p.useDefaultIBL
  · rfl
  · simp only [if_true]
    have h1 : ((SetIBL env s none).2.onSettings (fun st =>
        { st with wgtIBLs := st.wgtIBLs.SetSelectedValue kDefaultIBL })).settings.wgtIBLs =
        (SetIBL env s none).2.settings.wgtIBLs.SetSelectedValue kDefaultIBL := rfl
    rw [h1, Combobox.SetSelectedValue_items, SetIBL_wgtIBLs]

lemma SetLightingProfile_items (env : Env) (s : State) (p : LightingProfile) :
    (SetLightingProfile env s p).settings.wgtIBLs.items = s.settings.wgtIBLs.items := by
  have h := congrArg (fun x => x.settings.wgtIBLs) (SetLightingProfile_eq env s p _ rfl)
  have h1 : (SetLightingProfile env s p).settings.wgtIBLs =
      (SetLightingProfileDefaultIBL env s p).settings.wgtIBLs.SetSelectedValue kDefaultIBL := h
  rw [h1, Combobox.SetSelectedValue_items, SetLightingProfileDefaultIBL_items]

end Impl

lemma Impl.SetLightingProfileNamed_items (env : Env) (s : State) (name : String) :
    (Impl.SetLightingProfileNamed env s name).settings.wgtIBLs.items =
      s.settings.wgtIBLs.items := by
  unfold Impl.SetLightingProfileNamed
  rcases Impl.SetLightingProfileScan_cases env (s.log (Call.SetLightingProfile name)) name
    gLightingProfiles with ⟨q, _, _, heq⟩ | ⟨_, heq⟩
  · rw [heq]
    exact Impl.SetLightingProfile_items env (s.log (Call.SetLightingProfile name)) q
  · rw [heq]
    rfl

namespace GuiVisualizer

lemma SetGeometryStep_items (env : Env) (size : Nat) (l : SetGeometryLoop) (g : Geometry) :
    (SetGeometryStep env size l g).state.settings.wgtIBLs.items =
      l.state.settings.wgtIBLs.items := by
  have hS := congrArg (fun x => x.wgtIBLs) (SetGeometryAdd_settings env l g)
  have hS0 : (SetGeometryAdd env l g).state.settings.wgtIBLs =
      (l.state.settings.SetMaterialSelected
        (materialTypeFor l.state.scene.viewMode g)).wgtIBLs := hS
  have hS1 : (SetGeometryAdd env l g).state.settings.wgtIBLs = l.state.settings.wgtIBLs := by
    rw [hS0]
    rfl
  by_cases h : (SetGeometryAdd env l g).nPointClouds = size
  · have e := congrArg (fun x => x.settings.wgtIBLs) (SetGeometryStep_state_of_eq env size l g h)
    have e1 : (SetGeometryStep env size l g).state.settings.wgtIBLs =
        (Impl.SetLightingProfileNamed env (SetGeometryAdd env l g).state
          kPointCloudProfileName).settings.wgtIBLs := e
    rw [e1, Impl.SetLightingProfileNamed_items, hS1]
  · have e := congrArg (fun x => x.settings.wgtIBLs) (SetGeometryStep_state_of_ne env size l g h)
    have e1 : (SetGeometryStep env size l g).state.settings.wgtIBLs =
        (SetGeometryAdd env l g).state.settings.wgtIBLs := e
    rw [e1, hS1]

lemma fold_items (env : Env) (size : Nat) (xs : List Geometry) (l0 : SetGeometryLoop) :
    (xs.foldl (SetGeometryStep env size) l0).state.settings.wgtIBLs.items =
      l0.state.settings.wgtIBLs.items := by
  induction xs generalizing l0 with
  | nil => rfl
  | cons x rest ih => rw [List.foldl_cons, ih, SetGeometryStep_items]

lemma SetGeometry_items (env : Env) (s : State) (gs : List Geometry) :
    (SetGeometry env s gs).settings.wgtIBLs.items = s.settings.wgtIBLs.items := by
  have hc := congrArg (fun x => x.settings.wgtIBLs)
    (SetGeometryClear_shape (s.log (Call.SetGeometry gs)))
  have hc1 : (SetGeometryClear (s.log (Call.SetGeometry gs))).settings.wgtIBLs =
      s.settings.wgtIBLs := hc
  have ha := congrArg (fun x => x.settings.wgtIBLs)
    (SetGeometryAxes_shape env (gs.foldl (SetGeometryStep env gs.length)
      { state := SetGeometryClear (s.log (Call.SetGeometry gs)) }))
  have ha1 : (SetGeometryAxes env (gs.foldl (SetGeometryStep env gs.length)
      { state := SetGeometryClear (s.log (Call.SetGeometry gs)) })).settings.wgtIBLs =
      (gs.foldl (SetGeometryStep env gs.length)
        { state := SetGeometryClear (s.log (Call.SetGeometry gs)) }).state.settings.wgtIBLs := ha
  rw [SetGeometry_eq, ha1, fold_items]
  exact congrArg Combobox.items hc1

lemma new_wgtIBLs_items (env : Env) (gs : List Geometry) (title : String) :
    (new env gs title).settings.wgtIBLs.items =
      ((env.resourceFiles.mergeSort (fun a b => !decide (b < a))).filter iblFilter).map
        iblItemName ++ ["Custom..."] := by
  have h : (((env.resourceFiles.mergeSort (fun a b => !decide (b < a))).foldl addIBLItem
      (({} : Combobox), 0)).1.AddItem "Custom...").items =
      ((env.resourceFiles.mergeSort (fun a b => !decide (b < a))).filter iblFilter).map
        iblItemName ++ ["Custom..."] := by
    unfold Combobox.AddItem
    dsimp only
    rw [fold_addIBLItem_items]
    rfl
  unfold new
  dsimp only
  rw [SetGeometry_items]
  exact h

end GuiVisualizer

/-! ### The test of the filter -/

lemma findFrom_spec (pat cs : List Char) (i : Nat) (h : findFrom pat cs i ≠ npos) :
    ∃ k, findFrom pat cs i = i + k ∧ pat <+: cs.drop k := by
  induction cs generalizing i with
  | nil =>
    unfold findFrom at h ⊢
    split_ifs at h ⊢ with hp
    · rw [List.isEmpty_iff] at hp
      exact ⟨0, rfl, by rw [hp]; exact List.nil_prefix⟩
    · exact absurd rfl h
  | cons c cs ih =>
    unfold findFrom at h ⊢
    split_ifs at h ⊢ with hp
    · exact ⟨0, rfl, List.isPrefixOf_iff_prefix.mp hp⟩
    · obtain ⟨k, hk, hpre⟩ := ih (i + 1) h
      exact ⟨k + 1, by rw [hk]; omega, hpre⟩

lemma findFrom_short (pat cs : List Char) (i : Nat) (h : cs.length < pat.length) :
    findFrom pat cs i = npos := by
  by_contra hne
  exact absurd (findFrom_length pat cs i hne) (by omega)

lemma iblFilter_sound (f : String) (hsize : stdSize f < 2 ^ 64) (h7 : stdSize f ≠ 7)
    (h : iblFilter f = true) : endsWith f "_ibl.ktx" := by
  unfold iblFilter at h
  have hfind : stdFind f "_ibl.ktx" = sizeSub (stdSize f) 8 := of_decide_eq_true h
  have hpat : "_ibl.ktx".toList.length = 8 := rfl
  by_cases hle : 8 ≤ stdSize f
  · rw [sizeSub_of_le _ _ hle hsize] at hfind
    have hne : findFrom "_ibl.ktx".toList f.toList 0 ≠ npos := by
      have : findFrom "_ibl.ktx".toList f.toList 0 = stdSize f - 8 := hfind
      rw [this]
      unfold npos
      omega
    obtain ⟨k, hk, hpre⟩ := findFrom_spec _ _ _ hne
    have hk' : k = stdSize f - 8 := by
      have : findFrom "_ibl.ktx".toList f.toList 0 = stdSize f - 8 := hfind
      omega
    have hlen : (f.toList.drop k).length = "_ibl.ktx".toList.length := by
      rw [List.length_drop, hpat, hk']
      unfold stdSize at hle ⊢
      omega
    have heq : "_ibl.ktx".toList = f.toList.drop k :=
      hpre.eq_of_length hlen.symm
    unfold endsWith
    rw [heq]
    exact List.drop_suffix k f.toList
  · exfalso
    have hne : findFrom "_ibl.ktx".toList f.toList 0 ≠ npos := by
      have : findFrom "_ibl.ktx".toList f.toList 0 = sizeSub (stdSize f) 8 := hfind
      rw [this]
      unfold sizeSub npos
      omega
    have := findFrom_length _ _ _ hne
    rw [hpat] at this
    exact hle this

lemma iblFilter_seven (f : String) (h7 : stdSize f = 7) :
    iblFilter f = true ∧ ¬ endsWith f "_ibl.ktx" := by
  have hpat : "_ibl.ktx".toList.length = 8 := rfl
  constructor
  · unfold iblFilter
    apply decide_eq_true
    unfold stdFind
    rw [findFrom_short _ _ _ (by rw [hpat]; unfold stdSize at h7; omega), h7]
    unfold sizeSub npos
    norm_num
  · intro hend
    have := List.IsSuffix.length_le hend
    rw [hpat] at this
    unfold stdSize at h7
    omega

lemma Examples.listing_sorted :
    Examples.listing.mergeSort (fun a b => !decide (b < a)) = Examples.listing := by
  have h1 : ¬ "/res/ab" < "/res/a_ibl.ktx_ibl.ktx" := by
    rw [String.lt_iff_toList_lt]; decide
  have h2 : ¬ "/res/default_ibl.ktx" < "/res/a_ibl.ktx_ibl.ktx" := by
    rw [String.lt_iff_toList_lt]; decide
  have h3 : ¬ "/res/default_ibl.ktx" < "/res/ab" := by
    rw [String.lt_iff_toList_lt]; decide
  have b1 : (!decide ("/res/ab" < "/res/a_ibl.ktx_ibl.ktx")) = true := by
    rw [decide_eq_false h1]; rfl
  have b2 : (!decide ("/res/default_ibl.ktx" < "/res/a_ibl.ktx_ibl.ktx")) = true := by
    rw [decide_eq_false h2]; rfl
  have b3 : (!decide ("/res/default_ibl.ktx" < "/res/ab")) = true := by
    rw [decide_eq_false h3]; rfl
  apply List.mergeSort_of_sorted
  unfold Examples.listing
  refine List.Pairwise.cons ?_ (List.Pairwise.cons ?_ (List.Pairwise.cons ?_ List.Pairwise.nil))
  · intro b hb
    rw [List.mem_cons, List.mem_singleton] at hb
    rcases hb with rfl | rfl
    · exact b1
    · exact b2
  · intro b hb
    rw [List.mem_singleton] at hb
    rw [hb]
    exact b3
  · intro b hb
    exact absurd hb (List.not_mem_nil b)

namespace GuiVisualizer

/-- C22: the environment-map selector the constructor builds holds, for the sorted resource
files that pass the test `f.find("_ibl.ktx") == f.size() - 8`, the file name cut by
`substr(0, size - 8)`, in that order, then "Custom...". The test is not the test of the
suffix. A path shorter than `2 ^ 64` whose size is not 7 passes only if it ends with
"_ibl.ktx"; but every path of seven characters passes, `find` giving `npos` and
`7 - 8` being `2 ^ 64 - 1` as well, and none of them ends with "_ibl.ktx"; and a path that
ends with "_ibl.ktx" and holds it earlier too fails, `find` giving the first
occurrence. With the files "/res/a_ibl.ktx_ibl.ktx", "/res/ab" and
"/res/default_ibl.ktx" in the resource directory the selector shows "ab", "default" and
"Custom...". -/
theorem iblSelector_filter :
    (∀ (env : Env) (gs : List Geometry) (title : String),
      (new env gs title).settings.wgtIBLs.items =
        ((env.resourceFiles.mergeSort (fun a b => !decide (b < a))).filter iblFilter).map
          iblItemName ++ ["Custom..."]) ∧
    (∀ f : String, stdSize f < 2 ^ 64 → stdSize f ≠ 7 → iblFilter f = true →
      endsWith f "_ibl.ktx") ∧
    (∀ f : String, stdSize f = 7 → iblFilter f = true ∧ ¬ endsWith f "_ibl.ktx") ∧
    (stdSize "/res/ab" = 7 ∧ stdFind "/res/ab" "_ibl.ktx" = 2 ^ 64 - 1 ∧
      sizeSub (stdSize "/res/ab") 8 = 2 ^ 64 - 1 ∧ iblItemName "/res/ab" = "ab") ∧
    (endsWith "/res/a_ibl.ktx_ibl.ktx" "_ibl.ktx" ∧
      stdFind "/res/a_ibl.ktx_ibl.ktx" "_ibl.ktx" = 6 ∧
      sizeSub (stdSize "/res/a_ibl.ktx_ibl.ktx") 8 = 14 ∧
      iblFilter "/res/a_ibl.ktx_ibl.ktx" = false) ∧
    (new Examples.envListing [] "Open3D").settings.wgtIBLs.items =
      ["ab", "default", "Custom..."] := by
  refine ⟨new_wgtIBLs_items, iblFilter_sound, iblFilter_seven, ⟨rfl, ?_, ?_, ?_⟩,
    ⟨?_, ?_, ?_, ?_⟩, ?_⟩
  · decide
  · decide
  · decide
  · exact ⟨"/res/a_ibl.ktx".toList, rfl⟩
  · decide
  · decide
  · decide
  · rw [new_wgtIBLs_items]
    have h : Examples.envListing.resourceFiles = Examples.listing := rfl
    rw [h, Examples.listing_sorted]
    decide

end GuiVisualizer

/-! ### The destructor -/

namespace GuiVisualizer

/-- C20: the destructor returns no material instance to the renderer. After `SetGeometry`
with the input `gs`, on whatever window, `geometryMaterials` holds one pair for each
geometry of `gs`; the handles of their lit and unlit instances are the `2 * gs.length`
handles the renderer handed out during the call, and each is live in the renderer. The
destructor, whose body is empty and whose member `impl_` holds plain handles, hands this
renderer to the destructor of the base class as it is, with every one of these instances
still in it: `RemoveMaterialInstance` has been called for none. The other place of
release, the start of the next `SetGeometry`, does call it for each: after a next
`SetGeometry`, with whatever input, none of them is in the renderer. On the sample window
that shows a cloud the instances 5 and 6 are in the renderer the destructor hands on. -/
theorem destructor_releases_no_instance :
    (∀ (env : Env) (s : State) (gs : List Geometry),
      (SetGeometry env s gs).geometryMaterials.length = gs.length ∧
      (SetGeometry env s gs).geometryMaterials.flatMap
          (fun pair => [pair.2.lit.handle, pair.2.unlit.handle]) =
        List.range' (s.renderer.lastId + 1) (2 * gs.length) ∧
      (destructor (SetGeometry env s gs)).renderer = (SetGeometry env s gs).renderer ∧
      (∀ pair ∈ (SetGeometry env s gs).geometryMaterials,
        pair.2.lit.handle ∈ (destructor (SetGeometry env s gs)).renderer.instanceHandles ∧
        pair.2.unlit.handle ∈ (destructor (SetGeometry env s gs)).renderer.instanceHandles) ∧
      (∀ next : List Geometry, ∀ pair ∈ (SetGeometry env s gs).geometryMaterials,
        pair.2.lit.handle ∉
          (SetGeometry env (SetGeometry env s gs) next).renderer.instanceHandles ∧
        pair.2.unlit.handle ∉
          (SetGeometry env (SetGeometry env s gs) next).renderer.instanceHandles)) ∧
    Examples.shown.geometryMaterials = [(3, materialsAt 4)] ∧
    (materialsAt 4).lit.handle = 5 ∧ (materialsAt 4).unlit.handle = 6 ∧
    (destructor Examples.shown).renderer.instanceHandles = [5, 6] ∧
    (SetGeometry Examples.env Examples.shown []).renderer.instanceHandles = [] := by
  refine ⟨?_, rfl, rfl, rfl, rfl, rfl⟩
  intro env s gs
  obtain ⟨_, _, k3, _, _⟩ := SetGeometry_containers env s gs
  obtain ⟨_, _, q3⟩ := SetGeometry_scene env s gs
  refine ⟨?_, ?_, rfl, ?_, ?_⟩
  · have h := congrArg List.length
      (expectedMaterials_keys s.scene.scene3d.lastId s.renderer.lastId gs)
    rw [List.length_map, List.length_range'] at h
    rw [k3]
    exact h
  · rw [k3, expectedMaterials_instances]
  · intro pair hp
    obtain ⟨h1, h2⟩ := q3 pair hp
    obtain ⟨m1, hm1, e1⟩ := List.mem_map.mp h1
    obtain ⟨m2, hm2, e2⟩ := List.mem_map.mp h2
    simp only [Prod.mk.injEq] at e1 e2
    exact ⟨List.mem_map.mpr ⟨m1, hm1, e1.1⟩, List.mem_map.mpr ⟨m2, hm2, e2.1⟩⟩
  · intro next
    exact SetGeometry_releases env (SetGeometry env s gs) next
      (HandlesIssued_SetGeometry env s gs).2.2

end GuiVisualizer

end Open3D
